import Mathlib

/-!
# Sierra chain parameters

A shallow embedding of `src/chainparams.cpp`: the genesis-block builders, the
nonce search of the developer network, the quorum and deployment tables and the
constructors of the four network parameter sets.

Conventions.

* Machine integers are `Nat` (unsigned) or `Int` (signed); arithmetic that can
  leave the range of its C++ type is reduced explicitly.
* `uint256` values are the natural numbers they denote, so `UintToArith256` is
  the identity.
* `std::string` and `std::vector<unsigned char>` are lists of bytes. A
  `const char*` is the list of bytes found at the pointer; only the part before
  the first NUL byte is its C string.
* Code that may hit an `assert` or throw returns `Except Abort`.
* The hashing primitives, which live outside `chainparams.cpp`, are the fields
  of `Primitives`; every definition that hashes takes them as its first
  argument.
* Network identifiers are Lean strings. The file-level objects and pointers
  form a `Registry`; every entry point of the registry maps a registry to its
  result paired with the registry it leaves, also when it fails.
-/

namespace Sierra

/-! ## Scalars, strings and failures -/

/-- Largest value of `uint32_t`. -/
def UINT32_MAX : Nat := 4294967295

/-- The macro `NEVER32` of chainparams.cpp, line 22. -/
def NEVER32 : Nat := 0xFFFFFFFF

/-- Number of base units in one coin (`COIN`, amount.h). -/
def COIN : Int := 100000000

/-- The value that an integer has after conversion to `int`, the 32-bit signed
type: it is reduced modulo `2^32` into the range from `-2^31` to `2^31 - 1`. -/
def int32 (n : Int) : Int := (n + 2 ^ 31) % 2 ^ 32 - 2 ^ 31

/-- A 256-bit value, read as the unsigned integer it encodes. -/
abbrev uint256 := Nat

/-- The conversion `UintToArith256`: both sides are read as integers here. -/
def UintToArith256 (h : uint256) : Nat := h

/-- Ways in which the code stops without a result. -/
inductive Abort
  | assertion (what : String)
  | runtime_error (what : String)
  deriving DecidableEq, Repr

/-- The C function `strlen`: number of bytes before the first NUL. -/
def strlen (p : List UInt8) : Nat := (p.takeWhile (fun b => b != 0)).length

/-- The method `std::string::c_str`: the bytes of the string followed by a NUL. -/
def c_str (s : List UInt8) : List UInt8 := s ++ [0]

/-- The converting constructor `std::string(const char*)`. -/
def string_of_c_str (p : List UInt8) : List UInt8 := p.take (strlen p)

/-- The method `std::vector::resize` on a vector of default-constructible elements. -/
def resize {α : Type} [Inhabited α] (v : List α) (n : Nat) : List α :=
  v.take n ++ List.replicate (n - v.length) default

/-! ## Scripts, transactions and blocks -/

/-- The opcodes chainparams.cpp streams into a script. -/
inductive opcodetype
  | OP_RETURN
  | OP_CHECKSIG
  deriving DecidableEq, Repr

/-- One operand of `CScript::operator<<`, tagged with the overload that takes it. -/
inductive ScriptElem
  | int64 (n : Int)
  | scriptNum (n : Int)
  | data (v : List UInt8)
  | opcode (op : opcodetype)
  deriving DecidableEq, Repr

/-- A script, represented by the sequence of operands streamed into it. -/
abbrev CScript := List ScriptElem

/-- The empty script `CScript()`. -/
def CScript.empty : CScript := []

/-- The overload `CScript << int64_t`. -/
def pushInt64 (s : CScript) (n : Int) : CScript := s ++ [ScriptElem.int64 n]

/-- The overload `CScript << CScriptNum`. -/
def pushScriptNum (s : CScript) (n : Int) : CScript := s ++ [ScriptElem.scriptNum n]

/-- The overload `CScript << std::vector<unsigned char>`. -/
def pushData (s : CScript) (v : List UInt8) : CScript := s ++ [ScriptElem.data v]

/-- The overload `CScript << opcodetype`. -/
def pushOpcode (s : CScript) (op : opcodetype) : CScript := s ++ [ScriptElem.opcode op]

/-- Reference to an output of an earlier transaction; the default is the null reference. -/
structure COutPoint where
  hash : uint256 := 0
  n : Nat := 0xFFFFFFFF
  deriving DecidableEq, Repr

/-- Transaction input. -/
structure CTxIn where
  prevout : COutPoint := {}
  scriptSig : CScript := []
  deriving DecidableEq, Repr

/-- Transaction output; the default is the null output. -/
structure CTxOut where
  nValue : Int := -1
  scriptPubKey : CScript := []
  deriving DecidableEq, Repr

instance : Inhabited CTxIn := ⟨{}⟩

instance : Inhabited CTxOut := ⟨{}⟩

/-- Transaction under construction. The version a fresh one carries is
overwritten by both builders before it is read. -/
structure CMutableTransaction where
  nVersion : Int := 0
  vin : List CTxIn := []
  vout : List CTxOut := []
  nLockTime : Nat := 0
  deriving DecidableEq, Repr

/-- Finished transaction. -/
abbrev CTransaction := CMutableTransaction

/-- The helper `MakeTransactionRef(std::move(tx))`. -/
def MakeTransactionRef (tx : CMutableTransaction) : CTransaction := tx

/-- The six header fields of a block; a fresh header is null. -/
structure CBlockHeader where
  nVersion : Int := 0
  hashPrevBlock : uint256 := 0
  hashMerkleRoot : uint256 := 0
  nTime : Nat := 0
  nBits : Nat := 0
  nNonce : Nat := 0
  deriving DecidableEq, Repr

/-- Block: a header and its transactions. -/
structure CBlock extends CBlockHeader where
  vtx : List CTransaction := []
  deriving DecidableEq, Repr

/-- The primitives chainparams.cpp consumes. -/
structure Primitives where
  /-- The digest `CTransaction::GetHash`. -/
  txHash : CTransaction → uint256
  /-- The digest of two concatenated digests (inner node of the transaction tree). -/
  hashPair : uint256 → uint256 → uint256
  /-- The digest `CBlockHeader::GetHash`. -/
  headerHash : CBlockHeader → uint256
  /-- The target decompressed by `arith_uint256::SetCompact`. -/
  SetCompact : Nat → Nat

/-- The method `CBlock::GetHash`: the digest of the header. -/
def GetHash (P : Primitives) (block : CBlock) : uint256 := P.headerHash block.toCBlockHeader

/-- Modelled from the spec: one level of the general many-transaction algorithm
of consensus/merkle.cpp, which is not among the sources. Neighbours are hashed
in pairs; an odd last digest is paired with itself. -/
def merkleLevel (hashPair : uint256 → uint256 → uint256) : List uint256 → List uint256
  | [] => []
  | [a] => [hashPair a a]
  | a :: b :: rest => hashPair a b :: merkleLevel hashPair rest

/-- Modelled from the spec: the loop of the general many-transaction algorithm
(consensus/merkle.cpp is not among the sources). Levels are built while more
than one digest is left; `fuel` bounds the number of levels. -/
def merkleReduce (hashPair : uint256 → uint256 → uint256) : Nat → List uint256 → List uint256
  | 0, level => level
  | fuel + 1, level =>
    if 1 < level.length then merkleReduce hashPair fuel (merkleLevel hashPair level) else level

/-- Modelled from the spec: the function `ComputeMerkleRoot` of consensus/merkle.cpp,
which is not among the sources: the transaction-tree digest of a list of leaves,
null for no leaf. -/
def ComputeMerkleRoot (P : Primitives) (leaves : List uint256) : uint256 :=
  match merkleReduce P.hashPair leaves.length leaves with
  | [] => 0
  | root :: _ => root

/-- Modelled from the spec: the function `BlockMerkleRoot` of consensus/merkle.cpp,
which is not among the sources: the transaction-tree digest over the hashes of
the transactions of a block. -/
def BlockMerkleRoot (P : Primitives) (block : CBlock) : uint256 :=
  ComputeMerkleRoot P (block.vtx.map P.txHash)

/-! ## Genesis builders (chainparams.cpp, lines 24 to 85) -/

/-- The seven-argument `CreateGenesisBlock` (lines 24 to 43). -/
def CreateGenesisBlock (P : Primitives) (pszTimestamp : List UInt8)
    (genesisOutputScript : CScript) (nTime nNonce nBits : Nat) (nVersion : Int)
    (genesisReward : Int) : CBlock :=
  let txNew : CMutableTransaction := {}
  let txNew := { txNew with nVersion := 1 }
  let txNew := { txNew with vin := resize txNew.vin 1 }
  let txNew := { txNew with vout := resize txNew.vout 1 }
  let message : List UInt8 := pszTimestamp.take (strlen pszTimestamp)
  let txNew := { txNew with vin := txNew.vin.modifyHead fun txin =>
    { txin with
      scriptSig := pushData (pushScriptNum (pushInt64 CScript.empty 486604799) 4) message } }
  let txNew := { txNew with vout := txNew.vout.modifyHead fun txout =>
    { txout with nValue := genesisReward } }
  let txNew := { txNew with vout := txNew.vout.modifyHead fun txout =>
    { txout with scriptPubKey := genesisOutputScript } }
  let genesis : CBlock := {}
  let genesis := { genesis with nTime := nTime }
  let genesis := { genesis with nBits := nBits }
  let genesis := { genesis with nNonce := nNonce }
  let genesis := { genesis with nVersion := nVersion }
  let genesis := { genesis with vtx := genesis.vtx ++ [MakeTransactionRef txNew] }
  let genesis := { genesis with hashPrevBlock := 0 }
  let genesis := { genesis with hashMerkleRoot := BlockMerkleRoot P genesis }
  genesis

/-- The function `CreateDevNetGenesisBlock` (lines 45 to 67). -/
def CreateDevNetGenesisBlock (P : Primitives) (prevBlockHash : uint256)
    (devNetName : List UInt8) (nTime nNonce nBits : Nat) (genesisReward : Int) :
    Except Abort CBlock :=
  if devNetName.isEmpty then
    Except.error (Abort.assertion "!devNetName.empty()")
  else
    let txNew : CMutableTransaction := {}
    let txNew := { txNew with nVersion := 1 }
    let txNew := { txNew with vin := resize txNew.vin 1 }
    let txNew := { txNew with vout := resize txNew.vout 1 }
    let txNew := { txNew with vin := txNew.vin.modifyHead fun txin =>
      { txin with scriptSig := pushData (pushInt64 CScript.empty 1) devNetName } }
    let txNew := { txNew with vout := txNew.vout.modifyHead fun txout =>
      { txout with nValue := genesisReward } }
    let txNew := { txNew with vout := txNew.vout.modifyHead fun txout =>
      { txout with scriptPubKey := pushOpcode CScript.empty opcodetype.OP_RETURN } }
    let genesis : CBlock := {}
    let genesis := { genesis with nTime := nTime }
    let genesis := { genesis with nBits := nBits }
    let genesis := { genesis with nNonce := nNonce }
    let genesis := { genesis with nVersion := 4 }
    let genesis := { genesis with vtx := genesis.vtx ++ [MakeTransactionRef txNew] }
    let genesis := { genesis with hashPrevBlock := prevBlockHash }
    let genesis := { genesis with hashMerkleRoot := BlockMerkleRoot P genesis }
    Except.ok genesis

/-- The bytes of a string literal of the source. -/
def asciiBytes (s : String) : List UInt8 := s.toList.map fun c => UInt8.ofNat c.toNat

/-- The key that `ParseHex` decodes on line 83, byte by byte. -/
def genesisOutputKey : List UInt8 :=
  [0x04, 0xe4, 0x81, 0x94, 0xde, 0xb3, 0xf8, 0xe7, 0x31, 0x34, 0x7d, 0xae, 0x54,
   0x7e, 0xca, 0xa9, 0x80, 0x43, 0xc5, 0x87, 0x12, 0xa5, 0x9b, 0x06, 0x02, 0x2e,
   0xcf, 0x62, 0x73, 0x0d, 0x74, 0x5c, 0xc6, 0x1c, 0x78, 0xe3, 0x99, 0x70, 0x0a,
   0x23, 0x55, 0x50, 0x4d, 0xce, 0xdb, 0x8d, 0x67, 0x6a, 0xb4, 0x3b, 0x77, 0x9f,
   0xee, 0xa3, 0xdc, 0x9d, 0x58, 0xd0, 0x07, 0x71, 0xdd, 0x51, 0x5b, 0x7b, 0x32]

/-- The five-argument overload of `CreateGenesisBlock` (lines 80 to 85). The
string literal is a `const char*`: its bytes followed by a NUL. -/
def CreateGenesisBlock5 (P : Primitives) (nTime nNonce nBits : Nat) (nVersion : Int)
    (genesisReward : Int) : CBlock :=
  let pszTimestamp : List UInt8 :=
    c_str (asciiBytes "Shift To Renewables To Become A Growing Trend In Mining")
  let genesisOutputScript : CScript :=
    pushOpcode (pushData CScript.empty genesisOutputKey) opcodetype.OP_CHECKSIG
  CreateGenesisBlock P pszTimestamp genesisOutputScript nTime nNonce nBits nVersion genesisReward

/-! ## Consensus parameters (the parts of consensus/params.h that chainparams.cpp fills) -/

namespace Consensus

/-- The deployment slots named in chainparams.cpp. -/
inductive DeploymentPos
  | DEPLOYMENT_TESTDUMMY
  | DEPLOYMENT_CSV
  | DEPLOYMENT_DIP0001
  | DEPLOYMENT_BIP147
  | DEPLOYMENT_DIP0003
  | DEPLOYMENT_DIP0008
  deriving DecidableEq, Repr, Fintype

/-- Deployment descriptor. `nWindowSize` and `nThreshold` are `none` as long as
no statement has assigned them. -/
structure BIP9Deployment where
  bit : Int := 0
  nStartTime : Int := 0
  nTimeout : Int := 0
  nWindowSize : Option Int := none
  nThreshold : Option Int := none
  deriving DecidableEq, Repr

/-- Modelled from the spec: the sentinel start time that means "always active"
(`BIP9Deployment::ALWAYS_ACTIVE`, declared in consensus/params.h, which is not
among the sources). -/
def ALWAYS_ACTIVE : Int := -1

/-- Modelled from the spec: the sentinel timeout that means "no timeout"
(`BIP9Deployment::NO_TIMEOUT`, declared in consensus/params.h, which is not
among the sources). -/
def NO_TIMEOUT : Int := 9223372036854775807

/-- The quorum types named in chainparams.cpp; distinct enumerators are
distinct quorum types. -/
inductive LLMQType
  | LLMQ_10_60
  | LLMQ_50_60
  | LLMQ_400_60
  | LLMQ_400_85
  | LLMQ_5_60
  deriving DecidableEq, Repr, Fintype

/-- Quorum parameter set. A member that a designated initializer leaves out is zero. -/
structure LLMQParams where
  type : LLMQType
  name : String
  size : Int
  minSize : Int
  threshold : Int
  dkgInterval : Int
  dkgPhaseBlocks : Int
  dkgMiningWindowStart : Int
  dkgMiningWindowEnd : Int
  dkgBadVotesThreshold : Int := 0
  signingActiveQuorumCount : Int := 0
  keepOldConnections : Int := 0
  deriving DecidableEq, Repr

/-- The assignment `m[key] = value` on a `std::map`: the entry of `key` is
replaced, or added when there is none. Entries are kept in insertion order. -/
def mapAssign (m : List (LLMQType × LLMQParams)) (key : LLMQType) (value : LLMQParams) :
    List (LLMQType × LLMQParams) :=
  match m with
  | [] => [(key, value)]
  | (k, v) :: rest =>
    if k = key then (key, value) :: rest else (k, v) :: mapAssign rest key value

/-- The fields of `Consensus::Params` read by the properties below. A field
that some constructor leaves unassigned is `none` until a statement assigns
it. The block heights and block counts are of type `int`, the type of the
arguments from which the mutators assign them; the two proof-of-work timing
constants are `int64_t`. -/
structure Params where
  hashGenesisBlock : uint256 := 0
  hashDevnetGenesisBlock : uint256 := 0
  nMasternodePaymentsStartBlock : Int := 0
  nMasternodePaymentsIncreaseBlock : Option Int := none
  nBudgetPaymentsStartBlock : Int := 0
  nSuperblockStartBlock : Int := 0
  nLastPoWBlock : Int := 0
  nFirstDevFeeBlock : Int := 0
  nFirstSpowBlock : Int := 0
  BIP34Height : Int := 0
  BIP65Height : Int := 0
  BIP66Height : Int := 0
  DIP0001Height : Int := 0
  DIP0003Height : Option Int := none
  DIP0003EnforcementHeight : Option Int := none
  nPowTargetTimespan : Int := 0
  nPowTargetSpacing : Int := 0
  nPowKGWHeight : Int := 0
  nPowDGWHeight : Int := 0
  nMaxBlockSpacingFixDeploymentHeight : Int := 0
  nMinimumDifficultyBlocks : Option Int := none
  nHighSubsidyBlocks : Option Int := none
  nHighSubsidyFactor : Option Int := none
  nRuleChangeActivationThreshold : Nat := 0
  nMinerConfirmationWindow : Nat := 0
  vDeployments : DeploymentPos → BIP9Deployment := fun _ => {}
  llmqs : List (LLMQType × LLMQParams) := []
  llmqChainLocks : Option LLMQType := none
  llmqForInstantSend : Option LLMQType := none

end Consensus

open Consensus

/-! ## Nonce search of the developer network (lines 87 to 109) -/

/-- The `for` loop of `FindDevNetGenesisBlock` (lines 97 to 103), started at
`nNonce`. `none` means that the loop ran to its end. The counter cannot wrap,
because the increment is reached only below `UINT32_MAX`. `fuel` bounds the
number of iterations; `UINT32_MAX` of it is enough from nonce 0. -/
def nonceLoop (P : Primitives) (bnTarget : Nat) : Nat → Nat → CBlock → Option CBlock
  | 0, _, _ => none
  | fuel + 1, nNonce, block =>
    if nNonce < UINT32_MAX then
      let block := { block with nNonce := nNonce }
      let hash := GetHash P block
      if UintToArith256 hash ≤ bnTarget then some block
      else nonceLoop P bnTarget fuel (nNonce + 1) block
    else none

/-- The function `FindDevNetGenesisBlock` (lines 87 to 109). `GetDevNetName` is
the string that the call `GetDevNetName()` returns. The name reaches
`CreateDevNetGenesisBlock` through `c_str()`. -/
def FindDevNetGenesisBlock (P : Primitives) (GetDevNetName : List UInt8)
    (params : Consensus.Params) (prevBlock : CBlock) (reward : Int) : Except Abort CBlock :=
  let devNetName := GetDevNetName
  if devNetName.isEmpty then
    Except.error (Abort.assertion "!devNetName.empty()")
  else
    match CreateDevNetGenesisBlock P (GetHash P prevBlock) (string_of_c_str (c_str devNetName))
        ((prevBlock.nTime + 1) % 2 ^ 32) 0 prevBlock.nBits reward with
    | Except.error e => Except.error e
    | Except.ok block =>
      let bnTarget := P.SetCompact block.nBits
      match nonceLoop P bnTarget UINT32_MAX 0 block with
      | some found => Except.ok found
      | none => Except.error (Abort.assertion "false")

/-! ## Runs of the nonce search, statement by statement -/

/-- A hash computation that a run performs: the header hash `GetHash()` of a
block with the given header, or the transaction-tree digest `BlockMerkleRoot`
of a block with the given transactions. -/
inductive HashCall
  | GetHash (header : CBlockHeader)
  | BlockMerkleRoot (vtx : List CTransaction)
  deriving DecidableEq, Repr

/-- The points of control of `FindDevNetGenesisBlock` (lines 87 to 109): its
entry, the point after the assertion of line 90 with the local `devNetName`,
the test of the `for` loop of line 97 with the locals `bnTarget`, `nNonce` and
`block`, and its end, by `return` or by a failed assertion. -/
inductive SearchPoint
  | entry
  | named (devNetName : List UInt8)
  | loop (bnTarget : Nat) (nNonce : Nat) (block : CBlock)
  | done (result : Except Abort CBlock)

/-- A state of a run of `FindDevNetGenesisBlock`: the point of control, and the
hash computations made so far, in order. -/
structure SearchState where
  point : SearchPoint
  hashed : List HashCall

/-- One step of a run of `FindDevNetGenesisBlock` (lines 87 to 109) with the
arguments `params`, `prevBlock` and `reward`, `GetDevNetName` being the string
that the call `GetDevNetName()` returns. The arguments of the call on line 92
are evaluated before `CreateDevNetGenesisBlock` is entered, which asserts
before it computes the transaction-tree digest. -/
inductive SearchStep (P : Primitives) (GetDevNetName : List UInt8) (params : Consensus.Params)
    (prevBlock : CBlock) (reward : Int) : SearchState → SearchState → Prop
  | name_empty (hashed : List HashCall) (h : GetDevNetName.isEmpty = true) :
    SearchStep P GetDevNetName params prevBlock reward
      { point := SearchPoint.entry, hashed := hashed }
      { point := SearchPoint.done (Except.error (Abort.assertion "!devNetName.empty()"))
        hashed := hashed }
  | name_given (hashed : List HashCall) (h : GetDevNetName.isEmpty = false) :
    SearchStep P GetDevNetName params prevBlock reward
      { point := SearchPoint.entry, hashed := hashed }
      { point := SearchPoint.named GetDevNetName, hashed := hashed }
  | create_fails (devNetName : List UInt8) (hashed : List HashCall) (e : Abort)
      (h : CreateDevNetGenesisBlock P (GetHash P prevBlock)
        (string_of_c_str (c_str devNetName)) ((prevBlock.nTime + 1) % 2 ^ 32) 0
        prevBlock.nBits reward = Except.error e) :
    SearchStep P GetDevNetName params prevBlock reward
      { point := SearchPoint.named devNetName, hashed := hashed }
      { point := SearchPoint.done (Except.error e)
        hashed := hashed ++ [HashCall.GetHash prevBlock.toCBlockHeader] }
  | create_returns (devNetName : List UInt8) (hashed : List HashCall) (block : CBlock)
      (h : CreateDevNetGenesisBlock P (GetHash P prevBlock)
        (string_of_c_str (c_str devNetName)) ((prevBlock.nTime + 1) % 2 ^ 32) 0
        prevBlock.nBits reward = Except.ok block) :
    SearchStep P GetDevNetName params prevBlock reward
      { point := SearchPoint.named devNetName, hashed := hashed }
      { point := SearchPoint.loop (P.SetCompact block.nBits) 0 block
        hashed := hashed ++
          [HashCall.GetHash prevBlock.toCBlockHeader, HashCall.BlockMerkleRoot block.vtx] }
  | nonce_meets (bnTarget nNonce : Nat) (block : CBlock) (hashed : List HashCall)
      (hlt : nNonce < UINT32_MAX)
      (h : UintToArith256 (GetHash P { block with nNonce := nNonce }) ≤ bnTarget) :
    SearchStep P GetDevNetName params prevBlock reward
      { point := SearchPoint.loop bnTarget nNonce block, hashed := hashed }
      { point := SearchPoint.done (Except.ok { block with nNonce := nNonce })
        hashed := hashed ++
          [HashCall.GetHash ({ block with nNonce := nNonce } : CBlock).toCBlockHeader] }
  | nonce_misses (bnTarget nNonce : Nat) (block : CBlock) (hashed : List HashCall)
      (hlt : nNonce < UINT32_MAX)
      (h : ¬ UintToArith256 (GetHash P { block with nNonce := nNonce }) ≤ bnTarget) :
    SearchStep P GetDevNetName params prevBlock reward
      { point := SearchPoint.loop bnTarget nNonce block, hashed := hashed }
      { point := SearchPoint.loop bnTarget (nNonce + 1) { block with nNonce := nNonce }
        hashed := hashed ++
          [HashCall.GetHash ({ block with nNonce := nNonce } : CBlock).toCBlockHeader] }
  | nonces_exhausted (bnTarget nNonce : Nat) (block : CBlock) (hashed : List HashCall)
      (hge : ¬ nNonce < UINT32_MAX) :
    SearchStep P GetDevNetName params prevBlock reward
      { point := SearchPoint.loop bnTarget nNonce block, hashed := hashed }
      { point := SearchPoint.done (Except.error (Abort.assertion "false")), hashed := hashed }

/-- A complete run of `FindDevNetGenesisBlock`: from its entry, with no hash
computed yet, to its end with the outcome `result`, having made the hash
computations `hashed`. -/
def SearchRun (P : Primitives) (GetDevNetName : List UInt8) (params : Consensus.Params)
    (prevBlock : CBlock) (reward : Int) (result : Except Abort CBlock)
    (hashed : List HashCall) : Prop :=
  Relation.ReflTransGen (SearchStep P GetDevNetName params prevBlock reward)
    { point := SearchPoint.entry, hashed := [] }
    { point := SearchPoint.done result, hashed := hashed }

/-! ## Quorum parameter sets (lines 111 to 178) -/

/-- The static `llmq10_60` (lines 112 to 123). -/
def llmq10_60 : LLMQParams :=
  { type := LLMQType.LLMQ_10_60
    name := "llmq_10"
    size := 10
    minSize := 6
    threshold := 6
    dkgInterval := 24
    dkgPhaseBlocks := 2
    dkgMiningWindowStart := 10
    dkgMiningWindowEnd := 18 }

/-- The static `llmq50_60` (lines 125 to 141). -/
def llmq50_60 : LLMQParams :=
  { type := LLMQType.LLMQ_50_60
    name := "llmq_10_60"
    size := 10
    minSize := 8
    threshold := 6
    dkgInterval := 45
    dkgPhaseBlocks := 2
    dkgMiningWindowStart := 10
    dkgMiningWindowEnd := 18
    dkgBadVotesThreshold := 3
    signingActiveQuorumCount := 24
    keepOldConnections := 25 }

/-- The static `llmq400_60` (lines 143 to 159). -/
def llmq400_60 : LLMQParams :=
  { type := LLMQType.LLMQ_400_60
    name := "llmq_30_60"
    size := 30
    minSize := 24
    threshold := 18
    dkgInterval := 45 * 12
    dkgPhaseBlocks := 4
    dkgMiningWindowStart := 20
    dkgMiningWindowEnd := 28
    dkgBadVotesThreshold := 8
    signingActiveQuorumCount := 4
    keepOldConnections := 5 }

/-- The static `llmq400_85` (lines 162 to 178). -/
def llmq400_85 : LLMQParams :=
  { type := LLMQType.LLMQ_400_85
    name := "llmq_30_85"
    size := 30
    minSize := 26
    threshold := 24
    dkgInterval := 45 * 24
    dkgPhaseBlocks := 4
    dkgMiningWindowStart := 20
    dkgMiningWindowEnd := 48
    dkgBadVotesThreshold := 8
    signingActiveQuorumCount := 4
    keepOldConnections := 5 }

/-- The quorum parameter sets that chainparams.cpp defines. -/
def definedQuorumParams : List LLMQParams := [llmq10_60, llmq50_60, llmq400_60, llmq400_85]

/-! ## The four network parameter sets (lines 193 to 871) -/

/-- The fields of `CChainParams` read by the properties below. -/
structure CChainParams where
  strNetworkID : String := ""
  consensus : Consensus.Params := {}
  pchMessageStart : List Nat := [0, 0, 0, 0]
  nDefaultPort : Nat := 0
  nPruneAfterHeight : Nat := 0
  genesis : CBlock := {}
  devnetGenesis : CBlock := {}
  checkpointData : List (Int × uint256) := []

/-- The deployment table that `CMainParams` fills (lines 243 to 280). -/
def CMainParams_vDeployments : DeploymentPos → BIP9Deployment
  | DeploymentPos.DEPLOYMENT_TESTDUMMY =>
    { bit := 28, nStartTime := 1577836800, nTimeout := 1609459200 }
  | DeploymentPos.DEPLOYMENT_CSV =>
    { bit := 0, nStartTime := 1577836800, nTimeout := 1609459200,
      nWindowSize := some 100, nThreshold := some 80 }
  | DeploymentPos.DEPLOYMENT_DIP0001 =>
    { bit := 1, nStartTime := 1577836800, nTimeout := 1609459200,
      nWindowSize := some 100, nThreshold := some 80 }
  | DeploymentPos.DEPLOYMENT_BIP147 =>
    { bit := 2, nStartTime := 1577836800, nTimeout := 1609459200,
      nWindowSize := some 100, nThreshold := some 80 }
  | DeploymentPos.DEPLOYMENT_DIP0003 =>
    { bit := 3, nStartTime := 1577836800, nTimeout := 1609459200,
      nWindowSize := some 100, nThreshold := some 80 }
  | DeploymentPos.DEPLOYMENT_DIP0008 =>
    { bit := 4, nStartTime := 1577836800, nTimeout := 1609459200,
      nWindowSize := some 100, nThreshold := some 80 }

/-- The assignments that `CMainParams::CMainParams` makes to the fields of `consensus`
before it creates the genesis block (lines 199 to 280), in source order. -/
def CMainParams_consensus : Consensus.Params :=
  let consensus : Consensus.Params :=
    { nMasternodePaymentsStartBlock := 0
      nBudgetPaymentsStartBlock := 0
      nSuperblockStartBlock := 1
      nLastPoWBlock := 1000 }
  let consensus := { consensus with nFirstDevFeeBlock := consensus.nLastPoWBlock + 1 }
  let consensus := { consensus with nFirstSpowBlock := 190001 }
  let consensus :=
    { consensus with
      BIP34Height := 1
      BIP65Height := 1
      BIP66Height := 1
      DIP0001Height := 1 }
  let consensus := { consensus with DIP0003Height := some (consensus.nLastPoWBlock + 1) }
  let consensus :=
    { consensus with
      DIP0003EnforcementHeight := some (int32 NEVER32)
      nPowTargetTimespan := 24 * 60 * 60
      nPowTargetSpacing := 80
      nPowKGWHeight := 0
      nPowDGWHeight := 0
      nMaxBlockSpacingFixDeploymentHeight := 10000
      nRuleChangeActivationThreshold := 1026
      nMinerConfirmationWindow := 1080
      vDeployments := CMainParams_vDeployments }
  consensus

/-- The constructor `CMainParams::CMainParams` (lines 195 to 355). -/
def CMainParams (P : Primitives) : Except Abort CChainParams :=
  let consensus := CMainParams_consensus
  let genesis := CreateGenesisBlock5 P 1591228800 2463995 0x1e0ffff0 1 (0 * COIN)
  let consensus := { consensus with hashGenesisBlock := GetHash P genesis }
  if consensus.hashGenesisBlock ≠
      0x00000f49021b9fc63a4d335f32ed8a32743737d065215fb81d467e9849d4bb86 then
    Except.error (Abort.assertion "consensus.hashGenesisBlock == uint256S(...)")
  else if genesis.hashMerkleRoot ≠
      0x741e37ce97352889aba3b62d3bc284a70f5ddf32cbad3653dafbf5f115614a35 then
    Except.error (Abort.assertion "genesis.hashMerkleRoot == uint256S(...)")
  else
    let consensus :=
      { consensus with llmqs := mapAssign consensus.llmqs LLMQType.LLMQ_50_60 llmq50_60 }
    let consensus :=
      { consensus with llmqs := mapAssign consensus.llmqs LLMQType.LLMQ_400_60 llmq400_60 }
    let consensus :=
      { consensus with llmqs := mapAssign consensus.llmqs LLMQType.LLMQ_400_85 llmq400_85 }
    let consensus := { consensus with llmqChainLocks := some LLMQType.LLMQ_400_60 }
    let consensus := { consensus with llmqForInstantSend := some LLMQType.LLMQ_50_60 }
    Except.ok
      { strNetworkID := "main"
        consensus := consensus
        pchMessageStart := [0x53, 0x76, 0x33, 0x00]
        nDefaultPort := 19518
        nPruneAfterHeight := 100000
        genesis := genesis
        checkpointData :=
          [(0, 0x00000f49021b9fc63a4d335f32ed8a32743737d065215fb81d467e9849d4bb86)] }

/-- The deployment table that `CTestNetParams` fills (lines 411 to 446). -/
def CTestNetParams_vDeployments : DeploymentPos → BIP9Deployment
  | DeploymentPos.DEPLOYMENT_TESTDUMMY =>
    { bit := 28, nStartTime := 1199145601, nTimeout := 1230767999 }
  | DeploymentPos.DEPLOYMENT_CSV =>
    { bit := 0, nStartTime := ALWAYS_ACTIVE, nTimeout := NO_TIMEOUT }
  | DeploymentPos.DEPLOYMENT_DIP0001 =>
    { bit := 1, nStartTime := ALWAYS_ACTIVE, nTimeout := NO_TIMEOUT,
      nWindowSize := some 4032, nThreshold := some 3226 }
  | DeploymentPos.DEPLOYMENT_BIP147 =>
    { bit := 2, nStartTime := ALWAYS_ACTIVE, nTimeout := NO_TIMEOUT,
      nWindowSize := some 4032, nThreshold := some 3226 }
  | DeploymentPos.DEPLOYMENT_DIP0003 =>
    { bit := 3, nStartTime := ALWAYS_ACTIVE, nTimeout := NO_TIMEOUT,
      nWindowSize := some 4032, nThreshold := some 3226 }
  | DeploymentPos.DEPLOYMENT_DIP0008 =>
    { bit := 4, nStartTime := (NEVER32 : Nat), nTimeout := (NEVER32 : Nat),
      nWindowSize := some 4032, nThreshold := some 3226 }

/-- The assignments that `CTestNetParams::CTestNetParams` makes to the fields of
`consensus` before it creates the genesis block (lines 367 to 446), in source order. -/
def CTestNetParams_consensus : Consensus.Params :=
  let consensus : Consensus.Params :=
    { nMasternodePaymentsStartBlock := 15
      nMasternodePaymentsIncreaseBlock := some (int32 NEVER32)
      nBudgetPaymentsStartBlock := 46
      nSuperblockStartBlock := 3050
      nLastPoWBlock := 1000 }
  let consensus := { consensus with nFirstDevFeeBlock := consensus.nLastPoWBlock + 1 }
  let consensus := { consensus with nFirstSpowBlock := consensus.nLastPoWBlock + 101 }
  let consensus :=
    { consensus with
      BIP34Height := 1
      BIP65Height := 1
      BIP66Height := 1
      DIP0001Height := 1 }
  let consensus := { consensus with DIP0003Height := some (consensus.nLastPoWBlock + 1) }
  let consensus :=
    { consensus with
      DIP0003EnforcementHeight := some (int32 NEVER32)
      nPowTargetTimespan := 60 * 60 * 24
      nPowTargetSpacing := 80
      nPowKGWHeight := 0
      nPowDGWHeight := 0
      nMaxBlockSpacingFixDeploymentHeight := -1
      nRuleChangeActivationThreshold := 1512
      nMinerConfirmationWindow := 2016
      vDeployments := CTestNetParams_vDeployments }
  consensus

/-- The constructor `CTestNetParams::CTestNetParams` (lines 364 to 531). It
has no assertion. The block guarded by `if (!nNonce)` (lines 464 to 471) is
not entered, because `nNonce` is the non-zero literal of line 462. -/
def CTestNetParams (P : Primitives) : Except Abort CChainParams :=
  let consensus := CTestNetParams_consensus
  let nTime : Nat := 1591228801
  let nNonce : Nat := 1108918
  let genesis := CreateGenesisBlock5 P nTime nNonce 0x1f00ffff 1 (0 * COIN)
  let consensus := { consensus with hashGenesisBlock := GetHash P genesis }
  let consensus :=
    { consensus with llmqs := mapAssign consensus.llmqs LLMQType.LLMQ_50_60 llmq50_60 }
  let consensus :=
    { consensus with llmqs := mapAssign consensus.llmqs LLMQType.LLMQ_400_60 llmq400_60 }
  let consensus :=
    { consensus with llmqs := mapAssign consensus.llmqs LLMQType.LLMQ_400_85 llmq400_85 }
  let consensus := { consensus with llmqChainLocks := some LLMQType.LLMQ_50_60 }
  let consensus := { consensus with llmqForInstantSend := some LLMQType.LLMQ_50_60 }
  Except.ok
    { strNetworkID := "test"
      consensus := consensus
      pchMessageStart := [0x53, 0x76, 0x33, 0x01]
      nDefaultPort := 29518
      nPruneAfterHeight := 1000
      genesis := genesis
      checkpointData := [(0, 0)] }

/-- The deployment table that `CDevNetParams` fills (lines 582 to 617). -/
def CDevNetParams_vDeployments : DeploymentPos → BIP9Deployment
  | DeploymentPos.DEPLOYMENT_TESTDUMMY =>
    { bit := 28, nStartTime := 1199145601, nTimeout := 1230767999 }
  | DeploymentPos.DEPLOYMENT_CSV =>
    { bit := 0, nStartTime := 1506556800, nTimeout := 1538092800 }
  | DeploymentPos.DEPLOYMENT_DIP0001 =>
    { bit := 1, nStartTime := 1505692800, nTimeout := 1537228800,
      nWindowSize := some 100, nThreshold := some 50 }
  | DeploymentPos.DEPLOYMENT_BIP147 =>
    { bit := 2, nStartTime := 1517792400, nTimeout := 1549328400,
      nWindowSize := some 100, nThreshold := some 50 }
  | DeploymentPos.DEPLOYMENT_DIP0003 =>
    { bit := 3, nStartTime := 1535752800, nTimeout := 1567288800,
      nWindowSize := some 100, nThreshold := some 50 }
  | DeploymentPos.DEPLOYMENT_DIP0008 =>
    { bit := 4, nStartTime := 1553126400, nTimeout := 1584748800,
      nWindowSize := some 100, nThreshold := some 50 }

/-- The assignments that `CDevNetParams::CDevNetParams` makes to the fields of
`consensus` before it creates the genesis block (lines 543 to 617), in source order. -/
def CDevNetParams_consensus : Consensus.Params :=
  let consensus : Consensus.Params :=
    { nMasternodePaymentsStartBlock := 4010
      nMasternodePaymentsIncreaseBlock := some 4030
      nBudgetPaymentsStartBlock := 4100
      nSuperblockStartBlock := 4200
      nLastPoWBlock := 1000 }
  let consensus := { consensus with nFirstDevFeeBlock := consensus.nLastPoWBlock + 1 }
  let consensus := { consensus with nFirstSpowBlock := consensus.nLastPoWBlock + 101 }
  let consensus :=
    { consensus with
      BIP34Height := 1
      BIP65Height := 1
      BIP66Height := 1
      DIP0001Height := 2 }
  let consensus :=
    { consensus with
      nPowTargetTimespan := 24 * 60 * 60
      nPowTargetSpacing := 80
      nPowKGWHeight := 4001
      nPowDGWHeight := 4001
      nMaxBlockSpacingFixDeploymentHeight := 700
      nRuleChangeActivationThreshold := 1512
      nMinerConfirmationWindow := 2016
      vDeployments := CDevNetParams_vDeployments }
  consensus

/-- The constructor `CDevNetParams::CDevNetParams` (lines 540 to 695).
`GetDevNetName` is the string that the call `GetDevNetName()` returns. -/
def CDevNetParams (P : Primitives) (GetDevNetName : List UInt8) : Except Abort CChainParams :=
  let consensus := CDevNetParams_consensus
  let genesis := CreateGenesisBlock5 P 1591228802 1078333 0x207fffff 1 (0 * COIN)
  let consensus := { consensus with hashGenesisBlock := GetHash P genesis }
  if consensus.hashGenesisBlock ≠
      0x0000074a2326761fd57ba13db6c67bfd20fba72b7f677676868f8685890b3257 then
    Except.error (Abort.assertion "consensus.hashGenesisBlock == uint256S(...)")
  else if genesis.hashMerkleRoot ≠
      0x741e37ce97352889aba3b62d3bc284a70f5ddf32cbad3653dafbf5f115614a35 then
    Except.error (Abort.assertion "genesis.hashMerkleRoot == uint256S(...)")
  else
    match FindDevNetGenesisBlock P GetDevNetName consensus genesis (0 * COIN) with
    | Except.error e => Except.error e
    | Except.ok devnetGenesis =>
      let consensus := { consensus with hashDevnetGenesisBlock := GetHash P devnetGenesis }
      let consensus :=
        { consensus with llmqs := mapAssign consensus.llmqs LLMQType.LLMQ_50_60 llmq50_60 }
      let consensus :=
        { consensus with llmqs := mapAssign consensus.llmqs LLMQType.LLMQ_400_60 llmq400_60 }
      let consensus :=
        { consensus with llmqs := mapAssign consensus.llmqs LLMQType.LLMQ_400_85 llmq400_85 }
      let consensus := { consensus with llmqChainLocks := some LLMQType.LLMQ_50_60 }
      let consensus := { consensus with llmqForInstantSend := some LLMQType.LLMQ_50_60 }
      Except.ok
        { strNetworkID := "dev"
          consensus := consensus
          pchMessageStart := [0x53, 0x76, 0x33, 0x02]
          nDefaultPort := 39518
          nPruneAfterHeight := 1000
          genesis := genesis
          devnetGenesis := devnetGenesis
          checkpointData :=
            [(0, 0x0000074a2326761fd57ba13db6c67bfd20fba72b7f677676868f8685890b3257)] }

/-- The deployment table that `CRegTestParams` fills (lines 749 to 766). -/
def CRegTestParams_vDeployments : DeploymentPos → BIP9Deployment
  | DeploymentPos.DEPLOYMENT_TESTDUMMY =>
    { bit := 28, nStartTime := 0, nTimeout := 999999999999 }
  | DeploymentPos.DEPLOYMENT_CSV =>
    { bit := 0, nStartTime := 0, nTimeout := 999999999999 }
  | DeploymentPos.DEPLOYMENT_DIP0001 =>
    { bit := 1, nStartTime := 0, nTimeout := 999999999999 }
  | DeploymentPos.DEPLOYMENT_BIP147 =>
    { bit := 2, nStartTime := 0, nTimeout := 999999999999 }
  | DeploymentPos.DEPLOYMENT_DIP0003 =>
    { bit := 3, nStartTime := 0, nTimeout := 999999999999 }
  | DeploymentPos.DEPLOYMENT_DIP0008 =>
    { bit := 4, nStartTime := 0, nTimeout := 999999999999 }

/-- The assignments that `CRegTestParams::CRegTestParams` makes to the fields of
`consensus` before it creates the genesis block (lines 715 to 766), in source order. -/
def CRegTestParams_consensus : Consensus.Params :=
  let consensus : Consensus.Params :=
    { nMasternodePaymentsStartBlock := 240
      nMasternodePaymentsIncreaseBlock := some 350
      nBudgetPaymentsStartBlock := 25
      nSuperblockStartBlock := 1500
      nLastPoWBlock := 1000 }
  let consensus := { consensus with nFirstDevFeeBlock := consensus.nLastPoWBlock + 1 }
  let consensus := { consensus with nFirstSpowBlock := consensus.nLastPoWBlock + 101 }
  let consensus :=
    { consensus with
      BIP34Height := 100000000
      BIP65Height := 1351
      BIP66Height := 1251
      DIP0001Height := 2000 }
  let consensus :=
    { consensus with
      nPowTargetTimespan := 24 * 60 * 60
      nPowTargetSpacing := 80
      nPowKGWHeight := 15200
      nPowDGWHeight := 34140
      nMaxBlockSpacingFixDeploymentHeight := 700
      nRuleChangeActivationThreshold := 108
      nMinerConfirmationWindow := 144
      vDeployments := CRegTestParams_vDeployments }
  consensus

/-- The constructor `CRegTestParams::CRegTestParams` (lines 712 to 844). -/
def CRegTestParams (P : Primitives) : Except Abort CChainParams :=
  let consensus := CRegTestParams_consensus
  let genesis := CreateGenesisBlock5 P 1591228802 1078333 0x207fffff 1 (0 * COIN)
  let consensus := { consensus with hashGenesisBlock := GetHash P genesis }
  if consensus.hashGenesisBlock ≠
      0x0000074a2326761fd57ba13db6c67bfd20fba72b7f677676868f8685890b3257 then
    Except.error (Abort.assertion "consensus.hashGenesisBlock == uint256S(...)")
  else if genesis.hashMerkleRoot ≠
      0x741e37ce97352889aba3b62d3bc284a70f5ddf32cbad3653dafbf5f115614a35 then
    Except.error (Abort.assertion "genesis.hashMerkleRoot == uint256S(...)")
  else
    let consensus :=
      { consensus with llmqs := mapAssign consensus.llmqs LLMQType.LLMQ_50_60 llmq50_60 }
    let consensus :=
      { consensus with llmqs := mapAssign consensus.llmqs LLMQType.LLMQ_50_60 llmq50_60 }
    let consensus := { consensus with llmqChainLocks := some LLMQType.LLMQ_5_60 }
    let consensus := { consensus with llmqForInstantSend := some LLMQType.LLMQ_5_60 }
    Except.ok
      { strNetworkID := "regtest"
        consensus := consensus
        pchMessageStart := [0x53, 0x76, 0x33, 0x03]
        nDefaultPort := 49518
        nPruneAfterHeight := 1000
        genesis := genesis
        checkpointData :=
          [(0, 0x0000074a2326761fd57ba13db6c67bfd20fba72b7f677676868f8685890b3257)] }

/-- The parameter set `p` is what one of the four constructors builds, under
primitives `P` and with `GetDevNetName` the configured name of the developer
network. -/
def Constructed (P : Primitives) (GetDevNetName : List UInt8) (p : CChainParams) : Prop :=
  CMainParams P = Except.ok p ∨ CTestNetParams P = Except.ok p ∨
    CDevNetParams P GetDevNetName = Except.ok p ∨ CRegTestParams P = Except.ok p

/-! ## Network registry (lines 357, 533, 704 and 871 to 903) -/

namespace CBaseChainParams

/-- Modelled from the spec: the canonical token of the main network
(`CBaseChainParams::MAIN`, declared in chainparamsbase.h, which is not among
the sources); it is the identifier that `CMainParams` stores. -/
def MAIN : String := "main"

/-- Modelled from the spec: the canonical token of the public test network
(`CBaseChainParams::TESTNET`, declared in chainparamsbase.h, which is not among
the sources); it is the identifier that `CTestNetParams` stores. -/
def TESTNET : String := "test"

/-- Modelled from the spec: the canonical token of the developer network
(`CBaseChainParams::DEVNET`, declared in chainparamsbase.h, which is not among
the sources); it is the identifier that `CDevNetParams` stores. -/
def DEVNET : String := "dev"

/-- Modelled from the spec: the canonical token of the regression-test network
(`CBaseChainParams::REGTEST`, declared in chainparamsbase.h, which is not among
the sources); it is the identifier that `CRegTestParams` stores. -/
def REGTEST : String := "regtest"

end CBaseChainParams

/-- The address of a parameter set: one of the three static objects, or the
object that the `i`-th evaluation of `new CDevNetParams()` allocated. Two
references denote the same instance exactly when they are equal. -/
inductive ParamsRef
  | mainParams
  | testNetParams
  | regTestParams
  | devNet (i : Nat)
  deriving DecidableEq, Repr

/-- The file-level state of chainparams.cpp: the static objects `mainParams`
(line 357), `testNetParams` (line 533) and `regTestParams` (line 871), the
pointers `devNetParams` (line 704) and `pCurrentParams` (line 873), and the
objects allocated by `new CDevNetParams()`, in order of allocation. -/
structure Registry where
  mainParams : CChainParams
  testNetParams : CChainParams
  devNetParams : Option Nat := none
  regTestParams : CChainParams
  pCurrentParams : Option ParamsRef := none
  allocated : List CChainParams := []

/-- The parameter set at an address. -/
def Registry.deref (s : Registry) : ParamsRef → Option CChainParams
  | ParamsRef.mainParams => some s.mainParams
  | ParamsRef.testNetParams => some s.testNetParams
  | ParamsRef.regTestParams => some s.regTestParams
  | ParamsRef.devNet i => s.allocated[i]?

/-- Static initialisation of the translation unit: the three static objects
are constructed in the order of their definitions and both pointers start
null. -/
def staticInit (P : Primitives) : Except Abort Registry :=
  match CMainParams P with
  | Except.error e => Except.error e
  | Except.ok mainParams =>
    match CTestNetParams P with
    | Except.error e => Except.error e
    | Except.ok testNetParams =>
      match CRegTestParams P with
      | Except.error e => Except.error e
      | Except.ok regTestParams =>
        Except.ok
          { mainParams := mainParams
            testNetParams := testNetParams
            devNetParams := none
            regTestParams := regTestParams
            pCurrentParams := none
            allocated := [] }

/-- The function `Params()` without argument (lines 875 to 878). Every entry
point of the registry returns its result together with the state it leaves. -/
def Params0 (s : Registry) : Except Abort ParamsRef × Registry :=
  match s.pCurrentParams with
  | none => (Except.error (Abort.assertion "pCurrentParams"), s)
  | some current => (Except.ok current, s)

/-- The function `Params(const std::string& chain)` (lines 880 to 893). -/
def Params1 (chain : String) (s : Registry) : Except Abort ParamsRef × Registry :=
  if chain = CBaseChainParams.MAIN then
    (Except.ok ParamsRef.mainParams, s)
  else if chain = CBaseChainParams.TESTNET then
    (Except.ok ParamsRef.testNetParams, s)
  else if chain = CBaseChainParams.DEVNET then
    match s.devNetParams with
    | none => (Except.error (Abort.assertion "devNetParams"), s)
    | some i => (Except.ok (ParamsRef.devNet i), s)
  else if chain = CBaseChainParams.REGTEST then
    (Except.ok ParamsRef.regTestParams, s)
  else
    (Except.error (Abort.runtime_error ("Params: Unknown chain " ++ chain ++ ".")), s)

/-- The function `SelectParams` (lines 895 to 903). `GetDevNetName` is the
configured name of the developer network and `SelectBaseParams` the outcome of
the call `SelectBaseParams(network)`, which lives in chainparamsbase.cpp. -/
def SelectParams (P : Primitives) (GetDevNetName : List UInt8)
    (SelectBaseParams : String → Except Abort Unit) (network : String) (s : Registry) :
    Except Abort Unit × Registry :=
  let constructed : Except Abort Unit × Registry :=
    if network = CBaseChainParams.DEVNET then
      match CDevNetParams P GetDevNetName with
      | Except.error e => (Except.error e, s)
      | Except.ok fresh =>
        (Except.ok (),
          { s with
            allocated := s.allocated ++ [fresh]
            devNetParams := some s.allocated.length })
    else (Except.ok (), s)
  match constructed with
  | (Except.error e, s) => (Except.error e, s)
  | (Except.ok _, s) =>
    match SelectBaseParams network with
    | Except.error e => (Except.error e, s)
    | Except.ok _ =>
      match Params1 network s with
      | (Except.error e, s) => (Except.error e, s)
      | (Except.ok selected, s) => (Except.ok (), { s with pCurrentParams := some selected })

/-! ## Mutators of the test networks (lines 697 to 702, 846 to 869 and 905 to 924)

A member function takes the object it is called on as its last argument and
returns the object it leaves. The arguments are values of the parameter types
`int` and `int64_t`. -/

/-- The member function `CDevNetParams::UpdateSubsidyAndDiffParams` (lines 697
to 702). -/
def CDevNetParams.UpdateSubsidyAndDiffParams
    (nMinimumDifficultyBlocks nHighSubsidyBlocks nHighSubsidyFactor : Int)
    (self : CChainParams) : CChainParams :=
  let consensus := self.consensus
  let consensus := { consensus with nMinimumDifficultyBlocks := some nMinimumDifficultyBlocks }
  let consensus := { consensus with nHighSubsidyBlocks := some nHighSubsidyBlocks }
  let consensus := { consensus with nHighSubsidyFactor := some nHighSubsidyFactor }
  { self with consensus := consensus }

/-- The member function `CRegTestParams::UpdateBIP9Parameters` (lines 846 to
856). -/
def CRegTestParams.UpdateBIP9Parameters (d : DeploymentPos)
    (nStartTime nTimeout nWindowSize nThreshold : Int) (self : CChainParams) : CChainParams :=
  let vDeployments := self.consensus.vDeployments
  let vDeployments :=
    Function.update vDeployments d { vDeployments d with nStartTime := nStartTime }
  let vDeployments :=
    Function.update vDeployments d { vDeployments d with nTimeout := nTimeout }
  let vDeployments :=
    if nWindowSize ≠ -1 then
      Function.update vDeployments d { vDeployments d with nWindowSize := some nWindowSize }
    else vDeployments
  let vDeployments :=
    if nThreshold ≠ -1 then
      Function.update vDeployments d { vDeployments d with nThreshold := some nThreshold }
    else vDeployments
  { self with consensus := { self.consensus with vDeployments := vDeployments } }

/-- The member function `CRegTestParams::UpdateDIP3Parameters` (lines 858 to
862). -/
def CRegTestParams.UpdateDIP3Parameters (nActivationHeight nEnforcementHeight : Int)
    (self : CChainParams) : CChainParams :=
  let consensus := self.consensus
  let consensus := { consensus with DIP0003Height := some nActivationHeight }
  let consensus := { consensus with DIP0003EnforcementHeight := some nEnforcementHeight }
  { self with consensus := consensus }

/-- The member function `CRegTestParams::UpdateBudgetParameters` (lines 864 to
869). -/
def CRegTestParams.UpdateBudgetParameters
    (nMasternodePaymentsStartBlock nBudgetPaymentsStartBlock nSuperblockStartBlock : Int)
    (self : CChainParams) : CChainParams :=
  let consensus := self.consensus
  let consensus :=
    { consensus with nMasternodePaymentsStartBlock := nMasternodePaymentsStartBlock }
  let consensus := { consensus with nBudgetPaymentsStartBlock := nBudgetPaymentsStartBlock }
  let consensus := { consensus with nSuperblockStartBlock := nSuperblockStartBlock }
  { self with consensus := consensus }

/-- The function `UpdateRegtestBIP9Parameters` (lines 905 to 908). -/
def UpdateRegtestBIP9Parameters (d : DeploymentPos)
    (nStartTime nTimeout nWindowSize nThreshold : Int) (s : Registry) :
    Except Abort Unit × Registry :=
  (Except.ok (),
    { s with
      regTestParams :=
        CRegTestParams.UpdateBIP9Parameters d nStartTime nTimeout nWindowSize nThreshold
          s.regTestParams })

/-- The function `UpdateRegtestDIP3Parameters` (lines 910 to 913). -/
def UpdateRegtestDIP3Parameters (nActivationHeight nEnforcementHeight : Int) (s : Registry) :
    Except Abort Unit × Registry :=
  (Except.ok (),
    { s with
      regTestParams :=
        CRegTestParams.UpdateDIP3Parameters nActivationHeight nEnforcementHeight
          s.regTestParams })

/-- The function `UpdateRegtestBudgetParameters` (lines 915 to 918). -/
def UpdateRegtestBudgetParameters
    (nMasternodePaymentsStartBlock nBudgetPaymentsStartBlock nSuperblockStartBlock : Int)
    (s : Registry) : Except Abort Unit × Registry :=
  (Except.ok (),
    { s with
      regTestParams :=
        CRegTestParams.UpdateBudgetParameters nMasternodePaymentsStartBlock
          nBudgetPaymentsStartBlock nSuperblockStartBlock s.regTestParams })

/-- The function `UpdateDevnetSubsidyAndDiffParams` (lines 920 to 924). The
object that `devNetParams` points to is the only one written. -/
def UpdateDevnetSubsidyAndDiffParams
    (nMinimumDifficultyBlocks nHighSubsidyBlocks nHighSubsidyFactor : Int) (s : Registry) :
    Except Abort Unit × Registry :=
  match s.devNetParams with
  | none => (Except.error (Abort.assertion "devNetParams"), s)
  | some i =>
    (Except.ok (),
      { s with
        allocated :=
          s.allocated.modify
            (CDevNetParams.UpdateSubsidyAndDiffParams nMinimumDifficultyBlocks
              nHighSubsidyBlocks nHighSubsidyFactor) i })

/-! ## Sequences of calls -/

/-- The state that a sequence of `SelectParams` calls, made one after the
other, leaves. -/
def runSelectParams (P : Primitives) (GetDevNetName : List UInt8)
    (SelectBaseParams : String → Except Abort Unit) : List String → Registry → Registry
  | [], s => s
  | network :: rest, s =>
    runSelectParams P GetDevNetName SelectBaseParams rest
      (SelectParams P GetDevNetName SelectBaseParams network s).2

/-- The calls of a sequence of `SelectParams` calls that succeed. -/
def succeededCalls (P : Primitives) (GetDevNetName : List UInt8)
    (SelectBaseParams : String → Except Abort Unit) : List String → Registry → List String
  | [], _ => []
  | network :: rest, s =>
    match SelectParams P GetDevNetName SelectBaseParams network s with
    | (Except.ok _, s1) =>
      network :: succeededCalls P GetDevNetName SelectBaseParams rest s1
    | (Except.error _, s1) => succeededCalls P GetDevNetName SelectBaseParams rest s1

/-- The parameter set installed by the most recent successful call of a
sequence of `SelectParams` calls: the set that `Params(network)` denotes when
that call returns. `installed` is the set installed before the sequence. -/
def lastInstalled (P : Primitives) (GetDevNetName : List UInt8)
    (SelectBaseParams : String → Except Abort Unit) :
    List String → Registry → Option ParamsRef → Option ParamsRef
  | [], _, installed => installed
  | network :: rest, s, installed =>
    match SelectParams P GetDevNetName SelectBaseParams network s with
    | (Except.ok _, s1) =>
      lastInstalled P GetDevNetName SelectBaseParams rest s1 (Params1 network s1).1.toOption
    | (Except.error _, s1) =>
      lastInstalled P GetDevNetName SelectBaseParams rest s1 installed

/-- Every parameter set of the registry is as its constructor built it, and
the pointer `devNetParams` is null or points to an allocated object. -/
def Registry.Built (P : Primitives) (GetDevNetName : List UInt8) (s : Registry) : Prop :=
  CMainParams P = Except.ok s.mainParams ∧
  CTestNetParams P = Except.ok s.testNetParams ∧
  CRegTestParams P = Except.ok s.regTestParams ∧
  (∀ p ∈ s.allocated, CDevNetParams P GetDevNetName = Except.ok p) ∧
  ∀ i, s.devNetParams = some i → i < s.allocated.length

/-- A call of one of the entry points of chainparams.cpp that write to the
registry, with its arguments. -/
inductive Call
  | SelectParams (network : String)
  | UpdateRegtestBIP9Parameters (d : DeploymentPos)
      (nStartTime nTimeout nWindowSize nThreshold : Int)
  | UpdateRegtestDIP3Parameters (nActivationHeight nEnforcementHeight : Int)
  | UpdateRegtestBudgetParameters
      (nMasternodePaymentsStartBlock nBudgetPaymentsStartBlock nSuperblockStartBlock : Int)
  | UpdateDevnetSubsidyAndDiffParams
      (nMinimumDifficultyBlocks nHighSubsidyBlocks nHighSubsidyFactor : Int)

/-- The outcome of a call and the state it leaves. -/
def Call.run (P : Primitives) (GetDevNetName : List UInt8)
    (SelectBaseParams : String → Except Abort Unit) :
    Call → Registry → Except Abort Unit × Registry
  | Call.SelectParams network, s => Sierra.SelectParams P GetDevNetName SelectBaseParams network s
  | Call.UpdateRegtestBIP9Parameters d nStartTime nTimeout nWindowSize nThreshold, s =>
    Sierra.UpdateRegtestBIP9Parameters d nStartTime nTimeout nWindowSize nThreshold s
  | Call.UpdateRegtestDIP3Parameters nActivationHeight nEnforcementHeight, s =>
    Sierra.UpdateRegtestDIP3Parameters nActivationHeight nEnforcementHeight s
  | Call.UpdateRegtestBudgetParameters a b c, s => Sierra.UpdateRegtestBudgetParameters a b c s
  | Call.UpdateDevnetSubsidyAndDiffParams a b c, s =>
    Sierra.UpdateDevnetSubsidyAndDiffParams a b c s

/-- The state that a sequence of calls, made one after the other, leaves. A
call that fails is followed by the next one, as when the caller catches the
exception. -/
def runCalls (P : Primitives) (GetDevNetName : List UInt8)
    (SelectBaseParams : String → Except Abort Unit) : List Call → Registry → Registry
  | [], s => s
  | call :: rest, s =>
    runCalls P GetDevNetName SelectBaseParams rest
      (call.run P GetDevNetName SelectBaseParams s).2

/-- Primitives under which all four constructors pass their assertions: the
header digest is chosen by the time stamp and every transaction has the
expected root as its digest. -/
def samplePrimitives : Primitives :=
  { txHash := fun _ => 0x741e37ce97352889aba3b62d3bc284a70f5ddf32cbad3653dafbf5f115614a35
    hashPair := fun a b => a + b
    headerHash := fun h =>
      if h.nTime = 1591228800 then
        0x00000f49021b9fc63a4d335f32ed8a32743737d065215fb81d467e9849d4bb86
      else if h.nTime = 1591228802 then
        0x0000074a2326761fd57ba13db6c67bfd20fba72b7f677676868f8685890b3257
      else 0
    SetCompact := fun nBits => nBits }

/-- Primitives whose header digest falls with the nonce: `5 - nNonce`, against
the constant target 2. The least nonce that meets the target is 3. -/
def countdownPrimitives : Primitives :=
  { txHash := fun tx => tx.vin.length + tx.vout.length
    hashPair := fun a b => 2 * a + b
    headerHash := fun h => 5 - h.nNonce
    SetCompact := fun _ => 2 }

/-- Primitives under which only the nonce `UINT32_MAX` meets the target. -/
def lastNoncePrimitives : Primitives :=
  { txHash := fun tx => tx.vin.length + tx.vout.length
    hashPair := fun a b => 2 * a + b
    headerHash := fun h => if h.nNonce = 4294967295 then 0 else 1
    SetCompact := fun _ => 0 }

/-- The bytes of the name "devnet". -/
def sampleName : List UInt8 := [0x64, 0x65, 0x76, 0x6e, 0x65, 0x74]

/-- Parent block used in the examples. -/
def sampleParent : CBlock := { nTime := 1591228802, nBits := 0x207fffff }

/-- A stand-in for `SelectBaseParams`: it accepts the four canonical tokens and
throws for every other string. -/
def sampleSelectBaseParams (chain : String) : Except Abort Unit :=
  if chain = CBaseChainParams.MAIN ∨ chain = CBaseChainParams.TESTNET ∨
      chain = CBaseChainParams.DEVNET ∨ chain = CBaseChainParams.REGTEST then
    Except.ok ()
  else Except.error (Abort.runtime_error ("BaseParams: Unknown chain " ++ chain ++ "."))

/-- The registry right after static initialisation under the sample primitives. -/
def sampleRegistry : Registry :=
  match staticInit samplePrimitives with
  | Except.ok s => s
  | Except.error _ => { mainParams := {}, testNetParams := {}, regTestParams := {} }

/-- The registry after static initialisation and a call `SelectParams("dev")`,
under the sample primitives and the sample name. -/
def sampleDevRegistry : Registry :=
  (SelectParams samplePrimitives sampleName sampleSelectBaseParams "dev" sampleRegistry).2

/-! # Properties -/

/-! ## Strings -/

/-- Passing a string through `c_str()` keeps the bytes before its first NUL. -/
theorem string_of_c_str_c_str (s : List UInt8) :
    string_of_c_str (c_str s) = s.takeWhile (fun b => b != 0) := by
  unfold string_of_c_str strlen c_str
  induction s with
  | nil => decide
  | cons a t ih =>
    by_cases h : (a != 0) = true
    · simp only [List.cons_append, List.takeWhile_cons, h, if_true, List.length_cons,
        List.take_succ_cons]
      rw [ih]
    · simp [List.takeWhile_cons, h]

/-- A string without NUL bytes survives the passage through `c_str()`. -/
theorem string_of_c_str_of_nul_free (s : List UInt8) (h : ∀ b ∈ s, b ≠ 0) :
    string_of_c_str (c_str s) = s := by
  rw [string_of_c_str_c_str, List.takeWhile_eq_self_iff]
  intro b hb
  simpa using h b hb

/-! ## Transaction tree -/

/-- A level of the tree has half as many digests as the one below, rounded up. -/
theorem merkleLevel_length (hashPair : uint256 → uint256 → uint256) :
    ∀ (n : Nat) (level : List uint256), level.length ≤ n →
      (merkleLevel hashPair level).length = (level.length + 1) / 2 := by
  intro n
  induction n using Nat.strong_induction_on with
  | _ n ih =>
    intro level hlen
    match level, hlen with
    | [], _ => rfl
    | [a], _ => simp [merkleLevel]
    | a :: b :: rest, hlen =>
      simp only [merkleLevel, List.length_cons] at hlen ⊢
      rw [ih rest.length (by omega) rest (le_refl _)]
      omega

/-- The fuel that `ComputeMerkleRoot` supplies is enough: the loop always ends
with at most one digest. -/
theorem merkleReduce_length_le_one (hashPair : uint256 → uint256 → uint256) :
    ∀ (fuel : Nat) (level : List uint256), level.length ≤ fuel + 1 →
      (merkleReduce hashPair fuel level).length ≤ 1 := by
  intro fuel
  induction fuel with
  | zero => intro level h; simpa [merkleReduce] using h
  | succ fuel ih =>
    intro level h
    unfold merkleReduce
    by_cases h1 : 1 < level.length
    · rw [if_pos h1]
      apply ih
      rw [merkleLevel_length hashPair level.length level (le_refl _)]
      omega
    · rw [if_neg h1]
      omega

/-! ## Genesis builders -/

/-- C1: for every coinbase message (the C string at `pszTimestamp`), output
script, time, nonce, bits, version and reward, the block that
`CreateGenesisBlock` returns has an all-zero `hashPrevBlock`, carries the four
header arguments, and has exactly one transaction; that transaction has
version 1, exactly one input, whose `scriptSig` is the pushes 486604799, 4 and
the message bytes, and exactly one output, which pays the reward to the given
output script. -/
theorem CreateGenesisBlock_shape (P : Primitives) (pszTimestamp : List UInt8)
    (genesisOutputScript : CScript) (nTime nNonce nBits : Nat) (nVersion : Int)
    (genesisReward : Int) :
    (CreateGenesisBlock P pszTimestamp genesisOutputScript nTime nNonce nBits nVersion
      genesisReward).hashPrevBlock = 0 ∧
    (CreateGenesisBlock P pszTimestamp genesisOutputScript nTime nNonce nBits nVersion
      genesisReward).nTime = nTime ∧
    (CreateGenesisBlock P pszTimestamp genesisOutputScript nTime nNonce nBits nVersion
      genesisReward).nNonce = nNonce ∧
    (CreateGenesisBlock P pszTimestamp genesisOutputScript nTime nNonce nBits nVersion
      genesisReward).nBits = nBits ∧
    (CreateGenesisBlock P pszTimestamp genesisOutputScript nTime nNonce nBits nVersion
      genesisReward).nVersion = nVersion ∧
    ∃ tx txin txout,
      (CreateGenesisBlock P pszTimestamp genesisOutputScript nTime nNonce nBits nVersion
        genesisReward).vtx = [tx] ∧
      tx.nVersion = 1 ∧ tx.vin = [txin] ∧
      txin.scriptSig =
        [ScriptElem.int64 486604799, ScriptElem.scriptNum 4,
          ScriptElem.data (string_of_c_str pszTimestamp)] ∧
      tx.vout = [txout] ∧ txout.nValue = genesisReward ∧
      txout.scriptPubKey = genesisOutputScript :=
  ⟨rfl, rfl, rfl, rfl, rfl, _, _, _, rfl, rfl, rfl, rfl, rfl, rfl, rfl⟩

/-- The coinbase input of the genesis block of every network carries the whole message. -/
theorem CreateGenesisBlock5_scriptSig (P : Primitives) (nTime nNonce nBits : Nat)
    (nVersion : Int) (genesisReward : Int) :
    (CreateGenesisBlock5 P nTime nNonce nBits nVersion genesisReward).vtx.map
        (fun tx => tx.vin.map fun txin => txin.scriptSig) =
      [[[ScriptElem.int64 486604799, ScriptElem.scriptNum 4,
        ScriptElem.data
          (asciiBytes "Shift To Renewables To Become A Growing Trend In Mining")]]] := by
  have h := string_of_c_str_of_nul_free
    (asciiBytes "Shift To Renewables To Become A Growing Trend In Mining") (by decide)
  have h2 : (CreateGenesisBlock5 P nTime nNonce nBits nVersion genesisReward).vtx.map
        (fun tx => tx.vin.map fun txin => txin.scriptSig) =
      [[[ScriptElem.int64 486604799, ScriptElem.scriptNum 4,
        ScriptElem.data (string_of_c_str (c_str
          (asciiBytes "Shift To Renewables To Become A Growing Trend In Mining")))]]] := rfl
  rw [h2, h]

/-- C2: a block with a single transaction has that transaction's hash as its
transaction-tree digest; the `hashMerkleRoot` of the block that
`CreateGenesisBlock` returns, and of every block that
`CreateDevNetGenesisBlock` returns, is the transaction-tree digest of its
one-transaction list, and so equals the hash of the sole coinbase
transaction. -/
theorem hashMerkleRoot_single_leaf (P : Primitives) (pszTimestamp : List UInt8)
    (genesisOutputScript : CScript) (prevBlockHash : uint256) (devNetName : List UInt8)
    (nTime nNonce nBits : Nat) (nVersion : Int) (genesisReward : Int) :
    (∀ block tx, block.vtx = [tx] → BlockMerkleRoot P block = P.txHash tx) ∧
    ((CreateGenesisBlock P pszTimestamp genesisOutputScript nTime nNonce nBits nVersion
        genesisReward).hashMerkleRoot =
      BlockMerkleRoot P
        (CreateGenesisBlock P pszTimestamp genesisOutputScript nTime nNonce nBits nVersion
          genesisReward) ∧
      ∃ tx,
        (CreateGenesisBlock P pszTimestamp genesisOutputScript nTime nNonce nBits nVersion
          genesisReward).vtx = [tx] ∧
        (CreateGenesisBlock P pszTimestamp genesisOutputScript nTime nNonce nBits nVersion
          genesisReward).hashMerkleRoot = P.txHash tx) ∧
    ∀ block,
      CreateDevNetGenesisBlock P prevBlockHash devNetName nTime nNonce nBits genesisReward =
        Except.ok block →
      block.hashMerkleRoot = BlockMerkleRoot P block ∧
      ∃ tx, block.vtx = [tx] ∧ block.hashMerkleRoot = P.txHash tx := by
  refine ⟨?_, ⟨rfl, _, rfl, rfl⟩, ?_⟩
  · intro block tx h
    unfold BlockMerkleRoot
    rw [h]
    rfl
  · intro block h
    cases devNetName with
    | nil => cases h
    | cons a t =>
      cases h
      exact ⟨rfl, _, rfl, rfl⟩

/-- C2, witness: `CreateDevNetGenesisBlock` returns a block for the name
"devnet"; under the countdown primitives its coinbase hashes to 2, which is
its `hashMerkleRoot` and its transaction-tree digest. -/
theorem hashMerkleRoot_single_leaf_witness :
    ∃ block tx,
      CreateDevNetGenesisBlock countdownPrimitives 9 sampleName 1591228803 0 0x207fffff 0 =
        Except.ok block ∧
      block.vtx = [tx] ∧ countdownPrimitives.txHash tx = 2 ∧ block.hashMerkleRoot = 2 ∧
      BlockMerkleRoot countdownPrimitives block = 2 :=
  have h := (hashMerkleRoot_single_leaf countdownPrimitives [] [] 9 sampleName 1591228803 0
    0x207fffff 1 0).2.2 _ rfl
  ⟨_, _, rfl, rfl, rfl, rfl, h.1.symm.trans rfl⟩

/-! ## Nonce search -/

/-- What a successful run of the loop returns: the candidate with the first
nonce, from `nNonce` on, whose hash meets the target. -/
theorem nonceLoop_some (P : Primitives) (bnTarget : Nat) :
    ∀ (fuel nNonce : Nat) (block found : CBlock),
      nonceLoop P bnTarget fuel nNonce block = some found →
      found = { block with nNonce := found.nNonce } ∧
      nNonce ≤ found.nNonce ∧ found.nNonce < UINT32_MAX ∧
      UintToArith256 (GetHash P found) ≤ bnTarget ∧
      ∀ m, nNonce ≤ m → m < found.nNonce →
        bnTarget < UintToArith256 (GetHash P { block with nNonce := m }) := by
  intro fuel
  induction fuel with
  | zero => intro nNonce block found h; simp [nonceLoop] at h
  | succ fuel ih =>
    intro nNonce block found h
    unfold nonceLoop at h
    by_cases hlt : nNonce < UINT32_MAX
    · rw [if_pos hlt] at h
      by_cases hle : UintToArith256 (GetHash P { block with nNonce := nNonce }) ≤ bnTarget
      · simp only [hle, if_true] at h
        cases h
        refine ⟨rfl, le_refl _, hlt, hle, ?_⟩
        intro m h1 h2
        exact absurd h2 (by simpa using h1)
      · simp only [hle, if_false] at h
        obtain ⟨h1, h2, h3, h4, h5⟩ := ih (nNonce + 1) _ found h
        refine ⟨h1, by omega, h3, h4, ?_⟩
        intro m hm1 hm2
        rcases Nat.eq_or_lt_of_le hm1 with heq | hgt
        · subst heq; exact Nat.lt_of_not_le hle
        · exact h5 m hgt hm2
    · rw [if_neg hlt] at h
      cases h

/-- When the loop runs to its end: exactly when no nonce from `nNonce` up to
`UINT32_MAX - 1` meets the target. -/
theorem nonceLoop_none (P : Primitives) (bnTarget : Nat) :
    ∀ (fuel nNonce : Nat) (block : CBlock), UINT32_MAX ≤ nNonce + fuel →
      (nonceLoop P bnTarget fuel nNonce block = none ↔
        ∀ m, nNonce ≤ m → m < UINT32_MAX →
          bnTarget < UintToArith256 (GetHash P { block with nNonce := m })) := by
  intro fuel
  induction fuel with
  | zero =>
    intro nNonce block hfuel
    simp only [nonceLoop, true_iff]
    intro m h1 h2
    omega
  | succ fuel ih =>
    intro nNonce block hfuel
    unfold nonceLoop
    by_cases hlt : nNonce < UINT32_MAX
    · rw [if_pos hlt]
      by_cases hle : UintToArith256 (GetHash P { block with nNonce := nNonce }) ≤ bnTarget
      · simp only [hle, if_true]
        constructor
        · intro h; cases h
        · intro h
          exact absurd (h nNonce (le_refl _) hlt) (Nat.not_lt.mpr hle)
      · simp only [hle, if_false]
        rw [ih (nNonce + 1) _ (by omega)]
        constructor
        · intro h m hm1 hm2
          rcases Nat.eq_or_lt_of_le hm1 with heq | hgt
          · subst heq; exact Nat.lt_of_not_le hle
          · exact h m hgt hm2
        · intro h m hm1 hm2
          exact h m (by omega) hm2
    · rw [if_neg hlt]
      simp only [true_iff]
      intro m h1 h2
      omega


/-- The block that `CreateDevNetGenesisBlock` returns for a non-empty name. -/
theorem CreateDevNetGenesisBlock_ok (P : Primitives) (prevBlockHash : uint256)
    (devNetName : List UInt8) (nTime nNonce nBits : Nat) (genesisReward : Int)
    (hne : devNetName ≠ []) :
    CreateDevNetGenesisBlock P prevBlockHash devNetName nTime nNonce nBits genesisReward =
      Except.ok
        { nVersion := 4
          hashPrevBlock := prevBlockHash
          hashMerkleRoot := P.txHash
            { nVersion := 1
              vin := [{ scriptSig := [ScriptElem.int64 1, ScriptElem.data devNetName] }]
              vout := [{ nValue := genesisReward
                         scriptPubKey := [ScriptElem.opcode opcodetype.OP_RETURN] }] }
          nTime := nTime
          nBits := nBits
          nNonce := nNonce
          vtx := [{ nVersion := 1
                    vin := [{ scriptSig := [ScriptElem.int64 1, ScriptElem.data devNetName] }]
                    vout := [{ nValue := genesisReward
                               scriptPubKey := [ScriptElem.opcode opcodetype.OP_RETURN] }] }] } := by
  cases devNetName with
  | nil => exact absurd rfl hne
  | cons a t => rfl

/-- The builder of the chained genesis block rejects the empty name. -/
theorem CreateDevNetGenesisBlock_error (P : Primitives) (prevBlockHash : uint256)
    (nTime nNonce nBits : Nat) (genesisReward : Int) :
    CreateDevNetGenesisBlock P prevBlockHash [] nTime nNonce nBits genesisReward =
      Except.error (Abort.assertion "!devNetName.empty()") := rfl

/-- The search returns exactly what the loop finds on the candidate block. -/
theorem FindDevNetGenesisBlock_ok_iff (P : Primitives) (devNetName : List UInt8)
    (params : Consensus.Params) (prevBlock : CBlock) (reward : Int) (found : CBlock) :
    FindDevNetGenesisBlock P devNetName params prevBlock reward = Except.ok found ↔
      ∃ block,
        CreateDevNetGenesisBlock P (GetHash P prevBlock) (string_of_c_str (c_str devNetName))
          ((prevBlock.nTime + 1) % 2 ^ 32) 0 prevBlock.nBits reward = Except.ok block ∧
        block.nBits = prevBlock.nBits ∧
        nonceLoop P (P.SetCompact prevBlock.nBits) UINT32_MAX 0 block = some found := by
  unfold FindDevNetGenesisBlock
  cases hname : devNetName with
  | nil =>
    simp [string_of_c_str_c_str, CreateDevNetGenesisBlock_error]
  | cons a t =>
    simp only [List.isEmpty_cons, Bool.false_eq_true, if_false]
    by_cases hc : string_of_c_str (c_str (a :: t)) = []
    · rw [hc, CreateDevNetGenesisBlock_error]
      simp
    · rw [CreateDevNetGenesisBlock_ok P _ _ _ _ _ _ hc]
      simp only [Except.ok.injEq, exists_eq_left', true_and]
      cases hloop : nonceLoop P (P.SetCompact prevBlock.nBits) UINT32_MAX 0 _ with
      | none => simp
      | some b => simp


/-- The search reaches `assert(false)` exactly when no nonce in
`0 .. UINT32_MAX - 1` meets the target. -/
theorem FindDevNetGenesisBlock_error_iff (P : Primitives) (devNetName : List UInt8)
    (params : Consensus.Params) (prevBlock : CBlock) (reward : Int) (block : CBlock)
    (hname : devNetName ≠ [])
    (hblock : CreateDevNetGenesisBlock P (GetHash P prevBlock)
      (string_of_c_str (c_str devNetName)) ((prevBlock.nTime + 1) % 2 ^ 32) 0 prevBlock.nBits
      reward = Except.ok block) :
    FindDevNetGenesisBlock P devNetName params prevBlock reward =
        Except.error (Abort.assertion "false") ↔
      ∀ nNonce, nNonce < UINT32_MAX →
        P.SetCompact prevBlock.nBits <
          UintToArith256 (GetHash P { block with nNonce := nNonce }) := by
  have hbits : block.nBits = prevBlock.nBits := by
    by_cases hc : string_of_c_str (c_str devNetName) = []
    · rw [hc, CreateDevNetGenesisBlock_error] at hblock
      cases hblock
    · rw [CreateDevNetGenesisBlock_ok P _ _ _ _ _ _ hc] at hblock
      cases hblock
      rfl
  have hloop := nonceLoop_none P (P.SetCompact block.nBits) UINT32_MAX 0 block (by omega)
  unfold FindDevNetGenesisBlock
  cases hn : devNetName with
  | nil => exact absurd hn hname
  | cons a t =>
    rw [hn] at hblock
    simp only [List.isEmpty_cons, Bool.false_eq_true, if_false, hblock]
    rw [← hbits]
    cases hl : nonceLoop P (P.SetCompact block.nBits) UINT32_MAX 0 block with
    | none =>
      simp only [true_iff]
      intro n hlt
      exact (hloop.mp hl) n (Nat.zero_le _) hlt
    | some b =>
      simp only [reduceCtorEq, false_iff]
      intro hall
      have : nonceLoop P (P.SetCompact block.nBits) UINT32_MAX 0 block = none :=
        hloop.mpr (fun m _ hm => hall m hm)
      rw [hl] at this
      cases this

/-- C3: whenever `FindDevNetGenesisBlock` returns a block, the header hash of
that block, read as an integer, is at most the target decompressed from the
parent's `nBits`, and for every nonce below the returned `nNonce` the same
block with that nonce hashes strictly above the target. -/
theorem FindDevNetGenesisBlock_least_nonce (P : Primitives) (devNetName : List UInt8)
    (params : Consensus.Params) (prevBlock : CBlock) (reward : Int) (found : CBlock)
    (h : FindDevNetGenesisBlock P devNetName params prevBlock reward = Except.ok found) :
    UintToArith256 (GetHash P found) ≤ P.SetCompact prevBlock.nBits ∧
    ∀ nNonce, nNonce < found.nNonce →
      P.SetCompact prevBlock.nBits <
        UintToArith256 (GetHash P { found with nNonce := nNonce }) := by
  obtain ⟨block, _, _, hloop⟩ := (FindDevNetGenesisBlock_ok_iff P _ _ _ _ _).mp h
  obtain ⟨hfound, _, _, hle, hmin⟩ := nonceLoop_some P _ _ _ _ _ hloop
  refine ⟨hle, ?_⟩
  intro n hn
  have := hmin n (Nat.zero_le _) hn
  rw [hfound]
  exact this

/-- C3, witness: under the countdown primitives the search from the sample
parent returns the block with nonce 3. -/
theorem FindDevNetGenesisBlock_least_nonce_witness :
    ∃ found,
      FindDevNetGenesisBlock countdownPrimitives sampleName {} sampleParent 0 =
        Except.ok found ∧
      found.nNonce = 3 ∧
      (UintToArith256 (GetHash countdownPrimitives found) ≤
          countdownPrimitives.SetCompact sampleParent.nBits ∧
        ∀ nNonce, nNonce < found.nNonce →
          countdownPrimitives.SetCompact sampleParent.nBits <
            UintToArith256 (GetHash countdownPrimitives { found with nNonce := nNonce })) :=
  ⟨_, rfl, rfl, FindDevNetGenesisBlock_least_nonce countdownPrimitives sampleName {}
    sampleParent 0 _ rfl⟩

/-- C4, the code at the failing input: under primitives for which the nonce
`2^32 - 1` meets the target and no smaller nonce does, `FindDevNetGenesisBlock`
reaches `assert(false)`, although a 32-bit nonce satisfies the target. -/
theorem FindDevNetGenesisBlock_skips_last_nonce :
    FindDevNetGenesisBlock lastNoncePrimitives sampleName {} sampleParent 0 =
      Except.error (Abort.assertion "false") ∧
    ∃ block,
      CreateDevNetGenesisBlock lastNoncePrimitives (GetHash lastNoncePrimitives sampleParent)
        (string_of_c_str (c_str sampleName)) ((sampleParent.nTime + 1) % 2 ^ 32) 0
        sampleParent.nBits 0 = Except.ok block ∧
      (4294967295 : Nat) < 2 ^ 32 ∧
      UintToArith256 (GetHash lastNoncePrimitives { block with nNonce := 4294967295 }) ≤
        lastNoncePrimitives.SetCompact sampleParent.nBits := by
  refine ⟨?_, _, rfl, by norm_num, by decide⟩
  rw [FindDevNetGenesisBlock_error_iff lastNoncePrimitives sampleName {} sampleParent 0 _
    (by decide) rfl]
  intro n hn
  have hne : n ≠ 4294967295 := by
    unfold UINT32_MAX at hn
    omega
  simp [lastNoncePrimitives, GetHash, UintToArith256, hne]


/-- C5, as amended: for every parent block with `nTime < 2^32 - 1`, every
non-empty network name that contains no NUL byte and every reward, the block
that `FindDevNetGenesisBlock` returns has `hashPrevBlock` equal to the parent's
hash, `nTime` equal to the parent's `nTime + 1`, the parent's `nBits`, version 4
and exactly one transaction, whose single input script is the pushes 1 and the
name bytes and whose single output pays the reward to the script that consists
of `OP_RETURN` alone; it is the block that `CreateDevNetGenesisBlock` builds
with only `nNonce` replaced. -/
theorem FindDevNetGenesisBlock_fields (P : Primitives) (devNetName : List UInt8)
    (params : Consensus.Params) (prevBlock : CBlock) (reward : Int) (found : CBlock)
    (hne : devNetName ≠ []) (hnul : ∀ b ∈ devNetName, b ≠ 0)
    (htime : prevBlock.nTime < 2 ^ 32 - 1)
    (h : FindDevNetGenesisBlock P devNetName params prevBlock reward = Except.ok found) :
    found.hashPrevBlock = GetHash P prevBlock ∧
    found.nTime = prevBlock.nTime + 1 ∧
    found.nBits = prevBlock.nBits ∧
    found.nVersion = 4 ∧
    (∃ tx txin txout,
      found.vtx = [tx] ∧ tx.vin = [txin] ∧
      txin.scriptSig = [ScriptElem.int64 1, ScriptElem.data devNetName] ∧
      tx.vout = [txout] ∧ txout.nValue = reward ∧
      txout.scriptPubKey = [ScriptElem.opcode opcodetype.OP_RETURN]) ∧
    ∃ block,
      CreateDevNetGenesisBlock P (GetHash P prevBlock) devNetName (prevBlock.nTime + 1) 0
        prevBlock.nBits reward = Except.ok block ∧
      found = { block with nNonce := found.nNonce } := by
  obtain ⟨block, hblock, _, hloop⟩ := (FindDevNetGenesisBlock_ok_iff P _ _ _ _ _).mp h
  obtain ⟨hfound, _⟩ := nonceLoop_some P _ _ _ _ _ hloop
  have hmod : (prevBlock.nTime + 1) % 2 ^ 32 = prevBlock.nTime + 1 :=
    Nat.mod_eq_of_lt (by omega)
  rw [string_of_c_str_of_nul_free _ hnul, hmod] at hblock
  have hblock2 := hblock
  rw [CreateDevNetGenesisBlock_ok P _ _ _ _ _ _ hne] at hblock2
  cases hblock2
  rw [hfound]
  exact ⟨rfl, rfl, rfl, rfl, ⟨_, _, _, rfl, rfl, rfl, rfl, rfl, rfl⟩, _, hblock, rfl⟩

/-- C5, witness: the name "devnet", the sample parent and reward 7 meet the
hypotheses, and the search returns a block under the countdown primitives. -/
theorem FindDevNetGenesisBlock_fields_witness :
    ∃ found,
      sampleName ≠ [] ∧ (∀ b ∈ sampleName, b ≠ 0) ∧ sampleParent.nTime < 2 ^ 32 - 1 ∧
      FindDevNetGenesisBlock countdownPrimitives sampleName {} sampleParent 7 =
        Except.ok found ∧
      found.nNonce = 3 ∧ found.nTime = sampleParent.nTime + 1 ∧
      found.nBits = sampleParent.nBits ∧ found.nVersion = 4 ∧
      found.vtx =
        [{ nVersion := 1
           vin := [{ scriptSig := [ScriptElem.int64 1, ScriptElem.data sampleName] }]
           vout := [{ nValue := 7
                      scriptPubKey := [ScriptElem.opcode opcodetype.OP_RETURN] }] }] :=
  have h := FindDevNetGenesisBlock_fields countdownPrimitives sampleName {} sampleParent 7 _
    (by decide) (by decide) (by decide) rfl
  ⟨_, by decide, by decide, by decide, rfl, rfl, h.2.1, h.2.2.1, h.2.2.2.1, rfl⟩

/-- C5, counterexample to the claim as stated: for the non-empty name with
bytes 0x61, 0x00, 0x62 the returned block embeds only the byte 0x61, the part
of the name before its first NUL, and not the name bytes. -/
theorem FindDevNetGenesisBlock_name_cut_at_nul :
    ∃ found tx txin,
      ([0x61, 0x00, 0x62] : List UInt8) ≠ [] ∧ sampleParent.nTime < 2 ^ 32 - 1 ∧
      FindDevNetGenesisBlock countdownPrimitives [0x61, 0x00, 0x62] {} sampleParent 0 =
        Except.ok found ∧
      found.vtx = [tx] ∧ tx.vin = [txin] ∧
      txin.scriptSig = [ScriptElem.int64 1, ScriptElem.data [0x61]] ∧
      txin.scriptSig ≠ [ScriptElem.int64 1, ScriptElem.data [0x61, 0x00, 0x62]] :=
  ⟨_, _, _, by decide, by decide, rfl, rfl, rfl, rfl, by decide⟩

/-! ## Network tables -/

/-- The tables of a successfully constructed main parameter set. -/
theorem CMainParams_tables (P : Primitives) (p : CChainParams)
    (h : CMainParams P = Except.ok p) :
    p.consensus.vDeployments = CMainParams_vDeployments ∧
    p.consensus.llmqs =
      [(LLMQType.LLMQ_50_60, llmq50_60), (LLMQType.LLMQ_400_60, llmq400_60),
        (LLMQType.LLMQ_400_85, llmq400_85)] ∧
    p.consensus.llmqChainLocks = some LLMQType.LLMQ_400_60 ∧
    p.consensus.llmqForInstantSend = some LLMQType.LLMQ_50_60 ∧
    p.consensus.nRuleChangeActivationThreshold = 1026 ∧
    p.consensus.nMinerConfirmationWindow = 1080 := by
  unfold CMainParams at h
  simp only [] at h
  split_ifs at h
  cases h
  exact ⟨rfl, rfl, rfl, rfl, rfl, rfl⟩

/-- The tables of a successfully constructed testnet parameter set. -/
theorem CTestNetParams_tables (P : Primitives) (p : CChainParams)
    (h : CTestNetParams P = Except.ok p) :
    p.consensus.vDeployments = CTestNetParams_vDeployments ∧
    p.consensus.llmqs =
      [(LLMQType.LLMQ_50_60, llmq50_60), (LLMQType.LLMQ_400_60, llmq400_60),
        (LLMQType.LLMQ_400_85, llmq400_85)] ∧
    p.consensus.llmqChainLocks = some LLMQType.LLMQ_50_60 ∧
    p.consensus.llmqForInstantSend = some LLMQType.LLMQ_50_60 ∧
    p.consensus.nRuleChangeActivationThreshold = 1512 ∧
    p.consensus.nMinerConfirmationWindow = 2016 := by
  unfold CTestNetParams at h
  cases h
  exact ⟨rfl, rfl, rfl, rfl, rfl, rfl⟩

/-- The tables of a successfully constructed devnet parameter set. -/
theorem CDevNetParams_tables (P : Primitives) (GetDevNetName : List UInt8) (p : CChainParams)
    (h : CDevNetParams P GetDevNetName = Except.ok p) :
    p.consensus.vDeployments = CDevNetParams_vDeployments ∧
    p.consensus.llmqs =
      [(LLMQType.LLMQ_50_60, llmq50_60), (LLMQType.LLMQ_400_60, llmq400_60),
        (LLMQType.LLMQ_400_85, llmq400_85)] ∧
    p.consensus.llmqChainLocks = some LLMQType.LLMQ_50_60 ∧
    p.consensus.llmqForInstantSend = some LLMQType.LLMQ_50_60 ∧
    p.consensus.nRuleChangeActivationThreshold = 1512 ∧
    p.consensus.nMinerConfirmationWindow = 2016 := by
  unfold CDevNetParams at h
  simp only [] at h
  split_ifs at h
  split at h
  · cases h
  · cases h
    exact ⟨rfl, rfl, rfl, rfl, rfl, rfl⟩

/-- The tables of a successfully constructed regtest parameter set. -/
theorem CRegTestParams_tables (P : Primitives) (p : CChainParams)
    (h : CRegTestParams P = Except.ok p) :
    p.consensus.vDeployments = CRegTestParams_vDeployments ∧
    p.consensus.llmqs = [(LLMQType.LLMQ_50_60, llmq50_60)] ∧
    p.consensus.llmqChainLocks = some LLMQType.LLMQ_5_60 ∧
    p.consensus.llmqForInstantSend = some LLMQType.LLMQ_5_60 ∧
    p.consensus.nRuleChangeActivationThreshold = 108 ∧
    p.consensus.nMinerConfirmationWindow = 144 := by
  unfold CRegTestParams at h
  simp only [] at h
  split_ifs at h
  cases h
  exact ⟨rfl, rfl, rfl, rfl, rfl, rfl⟩



/-- The quorum table of every network except regtest. -/
theorem Constructed_llmqs (P : Primitives) (GetDevNetName : List UInt8) (p : CChainParams)
    (h : Constructed P GetDevNetName p) :
    p.consensus.llmqs =
        [(LLMQType.LLMQ_50_60, llmq50_60), (LLMQType.LLMQ_400_60, llmq400_60),
          (LLMQType.LLMQ_400_85, llmq400_85)] ∨
      p.consensus.llmqs = [(LLMQType.LLMQ_50_60, llmq50_60)] := by
  rcases h with h | h | h | h
  · exact Or.inl (CMainParams_tables P p h).2.1
  · exact Or.inl (CTestNetParams_tables P p h).2.1
  · exact Or.inl (CDevNetParams_tables P GetDevNetName p h).2.1
  · exact Or.inr (CRegTestParams_tables P p h).2.1

/-- The deployment table of a constructed parameter set is one of the four tables. -/
theorem Constructed_vDeployments (P : Primitives) (GetDevNetName : List UInt8)
    (p : CChainParams) (h : Constructed P GetDevNetName p) :
    p.consensus.vDeployments = CMainParams_vDeployments ∨
      p.consensus.vDeployments = CTestNetParams_vDeployments ∨
      p.consensus.vDeployments = CDevNetParams_vDeployments ∨
      p.consensus.vDeployments = CRegTestParams_vDeployments := by
  rcases h with h | h | h | h
  · exact Or.inl (CMainParams_tables P p h).1
  · exact Or.inr (Or.inl (CTestNetParams_tables P p h).1)
  · exact Or.inr (Or.inr (Or.inl (CDevNetParams_tables P GetDevNetName p h).1))
  · exact Or.inr (Or.inr (Or.inr (CRegTestParams_tables P p h).1))

/-- C6, as amended: in every network, every quorum parameter set stored in
`consensus.llmqs` satisfies `threshold ≤ minSize ≤ size` (hence also
`threshold ≤ size`). -/
theorem llmqs_threshold_le_minSize_le_size (P : Primitives) (GetDevNetName : List UInt8)
    (p : CChainParams) (h : Constructed P GetDevNetName p) (key : LLMQType)
    (q : LLMQParams) (hq : (key, q) ∈ p.consensus.llmqs) :
    q.threshold ≤ q.minSize ∧ q.minSize ≤ q.size := by
  rcases Constructed_llmqs P GetDevNetName p h with hl | hl
  · rw [hl] at hq
    simp only [List.mem_cons, Prod.mk.injEq, List.mem_nil_iff, or_false] at hq
    rcases hq with ⟨_, rfl⟩ | ⟨_, rfl⟩ | ⟨_, rfl⟩ <;> decide
  · rw [hl] at hq
    simp only [List.mem_cons, Prod.mk.injEq, List.mem_nil_iff, or_false] at hq
    rcases hq with ⟨_, rfl⟩
    decide

/-- C6, witness: the main network is constructed under the sample primitives
and stores `llmq50_60`, whose threshold 6 is at most its minimum size 8, which
is at most its size 10. -/
theorem llmqs_threshold_le_minSize_le_size_witness :
    ∃ p,
      Constructed samplePrimitives sampleName p ∧
      (LLMQType.LLMQ_50_60, llmq50_60) ∈ p.consensus.llmqs ∧
      llmq50_60.threshold ≤ llmq50_60.minSize ∧ llmq50_60.minSize ≤ llmq50_60.size :=
  ⟨_, Or.inl rfl, List.mem_cons_self _ _,
    llmqs_threshold_le_minSize_le_size samplePrimitives sampleName _ (Or.inl rfl)
      LLMQType.LLMQ_50_60 llmq50_60 (List.mem_cons_self _ _)⟩

/-- C6, counterexample to the claim as stated: the main network stores
`llmq50_60`, whose minimum size 8 exceeds its threshold 6, so
`minSize ≤ threshold ≤ size` fails. -/
theorem llmqs_minSize_exceeds_threshold :
    ∃ p q,
      CMainParams samplePrimitives = Except.ok p ∧
      (LLMQType.LLMQ_50_60, q) ∈ p.consensus.llmqs ∧
      ¬ (q.minSize ≤ q.threshold ∧ q.threshold ≤ q.size) :=
  ⟨_, llmq50_60, rfl, List.mem_cons_self _ _, by decide⟩

/-- The quorum references of main, testnet and devnet are keys of their own table. -/
theorem quorum_refs_resolve_main_test_dev (P : Primitives) (GetDevNetName : List UInt8)
    (p : CChainParams)
    (h : CMainParams P = Except.ok p ∨ CTestNetParams P = Except.ok p ∨
      CDevNetParams P GetDevNetName = Except.ok p) :
    ∃ chainLocks instantSend,
      p.consensus.llmqChainLocks = some chainLocks ∧
      p.consensus.llmqForInstantSend = some instantSend ∧
      chainLocks ∈ p.consensus.llmqs.map Prod.fst ∧
      instantSend ∈ p.consensus.llmqs.map Prod.fst := by
  rcases h with h | h | h
  · obtain ⟨_, h2, h3, h4, _⟩ := CMainParams_tables P p h
    exact ⟨_, _, h3, h4, by rw [h2]; decide, by rw [h2]; decide⟩
  · obtain ⟨_, h2, h3, h4, _⟩ := CTestNetParams_tables P p h
    exact ⟨_, _, h3, h4, by rw [h2]; decide, by rw [h2]; decide⟩
  · obtain ⟨_, h2, h3, h4, _⟩ := CDevNetParams_tables P GetDevNetName p h
    exact ⟨_, _, h3, h4, by rw [h2]; decide, by rw [h2]; decide⟩

/-- C7, the code at the failing input: the regtest constructor succeeds under
the sample primitives, and the quorum type that `llmqChainLocks` and
`llmqForInstantSend` name is not a key of the regtest `llmqs` table. -/
theorem regtest_quorum_refs_dangle :
    ∃ p chainLocks instantSend,
      CRegTestParams samplePrimitives = Except.ok p ∧
      p.consensus.llmqChainLocks = some chainLocks ∧
      p.consensus.llmqForInstantSend = some instantSend ∧
      chainLocks ∉ p.consensus.llmqs.map Prod.fst ∧
      instantSend ∉ p.consensus.llmqs.map Prod.fst :=
  ⟨_, _, _, rfl, rfl, rfl, by decide, by decide⟩

/-- C8: every quorum parameter set defined in the file (`llmq10_60`,
`llmq50_60`, `llmq400_60`, `llmq400_85`) has
`dkgMiningWindowStart ≥ dkgPhaseBlocks * 4`, four being the number of DKG
phases the specification names. -/
theorem dkgMiningWindowStart_ge_four_phases (q : LLMQParams)
    (hq : q ∈ definedQuorumParams) :
    q.dkgMiningWindowStart ≥ q.dkgPhaseBlocks * 4 := by
  simp only [definedQuorumParams, List.mem_cons, List.mem_nil_iff, or_false] at hq
  rcases hq with rfl | rfl | rfl | rfl <;> decide

/-- C8, witness: `llmq400_85` is one of the defined sets; its window starts at
block 20 and four phases of 4 blocks take 16. -/
theorem dkgMiningWindowStart_ge_four_phases_witness :
    llmq400_85 ∈ definedQuorumParams ∧
    llmq400_85.dkgMiningWindowStart = 20 ∧ llmq400_85.dkgPhaseBlocks * 4 = 16 ∧
    llmq400_85.dkgMiningWindowStart ≥ llmq400_85.dkgPhaseBlocks * 4 :=
  ⟨by decide, rfl, rfl, dkgMiningWindowStart_ge_four_phases llmq400_85 (by decide)⟩

/-- C9: in every network the bits of the six deployment slots are pairwise
distinct, each lies in 0..28, and no slot other than TESTDUMMY uses the bit of
TESTDUMMY. -/
theorem deployment_bits_distinct (P : Primitives) (GetDevNetName : List UInt8)
    (p : CChainParams) (h : Constructed P GetDevNetName p) :
    (∀ d1 d2 : DeploymentPos, d1 ≠ d2 →
      (p.consensus.vDeployments d1).bit ≠ (p.consensus.vDeployments d2).bit) ∧
    (∀ d : DeploymentPos,
      0 ≤ (p.consensus.vDeployments d).bit ∧ (p.consensus.vDeployments d).bit ≤ 28) ∧
    ∀ d : DeploymentPos, d ≠ DeploymentPos.DEPLOYMENT_TESTDUMMY →
      (p.consensus.vDeployments d).bit ≠
        (p.consensus.vDeployments DeploymentPos.DEPLOYMENT_TESTDUMMY).bit := by
  rcases Constructed_vDeployments P GetDevNetName p h with hv | hv | hv | hv <;>
    rw [hv] <;> decide

/-- C9, witness: the regtest set is constructed under the sample primitives;
the bit of CSV is 0 and the bit of TESTDUMMY is 28. -/
theorem deployment_bits_distinct_witness :
    ∃ p,
      Constructed samplePrimitives sampleName p ∧
      (p.consensus.vDeployments DeploymentPos.DEPLOYMENT_CSV).bit = 0 ∧
      (p.consensus.vDeployments DeploymentPos.DEPLOYMENT_TESTDUMMY).bit = 28 ∧
      (p.consensus.vDeployments DeploymentPos.DEPLOYMENT_CSV).bit ≠
        (p.consensus.vDeployments DeploymentPos.DEPLOYMENT_TESTDUMMY).bit :=
  ⟨_, Or.inr (Or.inr (Or.inr rfl)), rfl, rfl,
    (deployment_bits_distinct samplePrimitives sampleName _
      (Or.inr (Or.inr (Or.inr rfl)))).2.2 DeploymentPos.DEPLOYMENT_CSV (by decide)⟩

/-- C10: in every network, every deployment descriptor whose `nWindowSize` and
`nThreshold` are both assigned by the constructor has `nThreshold ≤ nWindowSize`,
and `nRuleChangeActivationThreshold ≤ nMinerConfirmationWindow`. -/
theorem deployment_threshold_le_window (P : Primitives) (GetDevNetName : List UInt8)
    (p : CChainParams) (h : Constructed P GetDevNetName p) :
    (∀ (d : DeploymentPos) (window threshold : Int),
      (p.consensus.vDeployments d).nWindowSize = some window →
      (p.consensus.vDeployments d).nThreshold = some threshold →
      threshold ≤ window) ∧
    p.consensus.nRuleChangeActivationThreshold ≤ p.consensus.nMinerConfirmationWindow := by
  rcases h with h | h | h | h
  · obtain ⟨hv, _, _, _, h5, h6⟩ := CMainParams_tables P p h
    rw [hv, h5, h6]
    refine ⟨?_, by decide⟩
    intro d window threshold hw ht
    cases d <;> simp [CMainParams_vDeployments] at hw ht <;> omega
  · obtain ⟨hv, _, _, _, h5, h6⟩ := CTestNetParams_tables P p h
    rw [hv, h5, h6]
    refine ⟨?_, by decide⟩
    intro d window threshold hw ht
    cases d <;> simp [CTestNetParams_vDeployments] at hw ht <;> omega
  · obtain ⟨hv, _, _, _, h5, h6⟩ := CDevNetParams_tables P GetDevNetName p h
    rw [hv, h5, h6]
    refine ⟨?_, by decide⟩
    intro d window threshold hw ht
    cases d <;> simp [CDevNetParams_vDeployments] at hw ht <;> omega
  · obtain ⟨hv, _, _, _, h5, h6⟩ := CRegTestParams_tables P p h
    rw [hv, h5, h6]
    refine ⟨?_, by decide⟩
    intro d window threshold hw ht
    cases d <;> simp [CRegTestParams_vDeployments] at hw ht

/-- C10, witness: the testnet set is constructed under the sample primitives;
its DIP0003 descriptor has window 4032 and threshold 3226, and the network-wide
pair is 1512 and 2016. -/
theorem deployment_threshold_le_window_witness :
    ∃ p,
      Constructed samplePrimitives sampleName p ∧
      (p.consensus.vDeployments DeploymentPos.DEPLOYMENT_DIP0003).nWindowSize = some 4032 ∧
      (p.consensus.vDeployments DeploymentPos.DEPLOYMENT_DIP0003).nThreshold = some 3226 ∧
      (3226 : Int) ≤ 4032 ∧
      p.consensus.nRuleChangeActivationThreshold ≤ p.consensus.nMinerConfirmationWindow :=
  ⟨_, Or.inr (Or.inl rfl), rfl, rfl,
    (deployment_threshold_le_window samplePrimitives sampleName _ (Or.inr (Or.inl rfl))).1
      DeploymentPos.DEPLOYMENT_DIP0003 4032 3226 rfl rfl,
    (deployment_threshold_le_window samplePrimitives sampleName _ (Or.inr (Or.inl rfl))).2⟩

/-! ## Network registry -/

/-- `Params(chain)` leaves the registry as it found it. -/
theorem Params1_state (chain : String) (s : Registry) : (Params1 chain s).2 = s := by
  unfold Params1
  split_ifs
  · rfl
  · rfl
  · cases s.devNetParams <;> rfl
  · rfl
  · rfl

/-- `Params(chain)` fails for a string that is none of the four tokens. -/
theorem Params1_unknown (chain : String) (s : Registry)
    (h1 : chain ≠ CBaseChainParams.MAIN) (h2 : chain ≠ CBaseChainParams.TESTNET)
    (h3 : chain ≠ CBaseChainParams.DEVNET) (h4 : chain ≠ CBaseChainParams.REGTEST) :
    Params1 chain s =
      (Except.error (Abort.runtime_error ("Params: Unknown chain " ++ chain ++ ".")), s) := by
  unfold Params1
  rw [if_neg h1, if_neg h2, if_neg h3, if_neg h4]

/-- The result of `Params(chain)` depends on the registry through the pointer
`devNetParams` only. -/
theorem Params1_result (chain : String) (s t : Registry)
    (h : s.devNetParams = t.devNetParams) : (Params1 chain s).1 = (Params1 chain t).1 := by
  unfold Params1
  by_cases h1 : chain = CBaseChainParams.MAIN
  · rw [if_pos h1, if_pos h1]
  · rw [if_neg h1, if_neg h1]
    by_cases h2 : chain = CBaseChainParams.TESTNET
    · rw [if_pos h2, if_pos h2]
    · rw [if_neg h2, if_neg h2]
      by_cases h3 : chain = CBaseChainParams.DEVNET
      · rw [if_pos h3, if_pos h3, h]
        cases t.devNetParams <;> rfl
      · rw [if_neg h3, if_neg h3]
        by_cases h4 : chain = CBaseChainParams.REGTEST
        · rw [if_pos h4, if_pos h4]
        · rw [if_neg h4, if_neg h4]

/-- What a call of `SelectParams` does, case by case. -/
theorem SelectParams_ok (P : Primitives) (GetDevNetName : List UInt8)
    (SelectBaseParams : String → Except Abort Unit) (network : String) (s s1 : Registry)
    (u : Unit)
    (h : SelectParams P GetDevNetName SelectBaseParams network s = (Except.ok u, s1)) :
    ∃ selected,
      Params1 network s1 = (Except.ok selected, s1) ∧
      s1.pCurrentParams = some selected ∧
      s1.mainParams = s.mainParams ∧ s1.testNetParams = s.testNetParams ∧
      s1.regTestParams = s.regTestParams ∧
      ((network ≠ CBaseChainParams.DEVNET ∧ s1.allocated = s.allocated ∧
          s1.devNetParams = s.devNetParams) ∨
        (network = CBaseChainParams.DEVNET ∧ ∃ fresh,
          CDevNetParams P GetDevNetName = Except.ok fresh ∧
          s1.allocated = s.allocated ++ [fresh] ∧
          s1.devNetParams = some s.allocated.length ∧
          selected = ParamsRef.devNet s.allocated.length)) := by
  unfold SelectParams at h
  by_cases hdev : network = CBaseChainParams.DEVNET
  · simp only [hdev, if_true] at h
    cases hc : CDevNetParams P GetDevNetName with
    | error e => simp [hc] at h
    | ok fresh =>
      simp only [hc] at h
      cases hb : SelectBaseParams CBaseChainParams.DEVNET with
      | error e => simp [hb] at h
      | ok v =>
        simp only [hb] at h
        have hp : Params1 CBaseChainParams.DEVNET
            { s with allocated := s.allocated ++ [fresh],
                     devNetParams := some s.allocated.length } =
            (Except.ok (ParamsRef.devNet s.allocated.length),
              { s with allocated := s.allocated ++ [fresh],
                       devNetParams := some s.allocated.length }) := rfl
        rw [hp] at h
        simp only [Prod.mk.injEq, Except.ok.injEq, true_and] at h
        subst h
        refine ⟨ParamsRef.devNet s.allocated.length, ?_, rfl, rfl, rfl, rfl, Or.inr ⟨hdev, fresh, rfl, rfl, rfl, rfl⟩⟩
        rw [hdev]
        rfl
  · simp only [hdev, if_false] at h
    cases hb : SelectBaseParams network with
    | error e => simp [hb] at h
    | ok v =>
      simp only [hb] at h
      have hst := Params1_state network s
      cases hp : Params1 network s with
      | mk res st =>
        rw [hp] at hst h
        simp only at hst
        subst hst
        cases res with
        | error e => simp at h
        | ok selected =>
          simp only [Prod.mk.injEq, Except.ok.injEq, true_and] at h
          subst h
          refine ⟨selected, ?_, rfl, rfl, rfl, rfl, Or.inl ⟨hdev, rfl, rfl⟩⟩
          apply Prod.ext
          · have hres := Params1_result network { st with pCurrentParams := some selected } st rfl
            rw [hres, hp]
          · exact Params1_state network _

/-- What a failed call of `SelectParams` leaves behind: the active network is
the one before the call, and nothing at all changes unless the developer
network was asked for. -/
theorem SelectParams_error (P : Primitives) (GetDevNetName : List UInt8)
    (SelectBaseParams : String → Except Abort Unit) (network : String) (s s1 : Registry)
    (e : Abort)
    (h : SelectParams P GetDevNetName SelectBaseParams network s = (Except.error e, s1)) :
    s1.pCurrentParams = s.pCurrentParams ∧
    s1.mainParams = s.mainParams ∧ s1.testNetParams = s.testNetParams ∧
    s1.regTestParams = s.regTestParams ∧
    (network ≠ CBaseChainParams.DEVNET → s1 = s) ∧
    (s1.allocated = s.allocated ∧ s1.devNetParams = s.devNetParams ∨
      ∃ fresh, CDevNetParams P GetDevNetName = Except.ok fresh ∧
        s1.allocated = s.allocated ++ [fresh] ∧
        s1.devNetParams = some s.allocated.length) := by
  unfold SelectParams at h
  by_cases hdev : network = CBaseChainParams.DEVNET
  · simp only [hdev, if_true] at h
    cases hc : CDevNetParams P GetDevNetName with
    | error e1 =>
      simp only [hc, Prod.mk.injEq] at h
      obtain ⟨_, rfl⟩ := h
      exact ⟨rfl, rfl, rfl, rfl, fun _ => rfl, Or.inl ⟨rfl, rfl⟩⟩
    | ok fresh =>
      simp only [hc] at h
      cases hb : SelectBaseParams CBaseChainParams.DEVNET with
      | error e1 =>
        simp only [hb, Prod.mk.injEq] at h
        obtain ⟨_, rfl⟩ := h
        exact ⟨rfl, rfl, rfl, rfl, fun hne => absurd hdev hne, Or.inr ⟨fresh, rfl, rfl, rfl⟩⟩
      | ok v =>
        simp only [hb] at h
        have hp : Params1 CBaseChainParams.DEVNET
            { s with allocated := s.allocated ++ [fresh],
                     devNetParams := some s.allocated.length } =
            (Except.ok (ParamsRef.devNet s.allocated.length),
              { s with allocated := s.allocated ++ [fresh],
                       devNetParams := some s.allocated.length }) := rfl
        rw [hp] at h
        simp at h
  · simp only [hdev, if_false] at h
    cases hb : SelectBaseParams network with
    | error e1 =>
      simp only [hb, Prod.mk.injEq] at h
      obtain ⟨_, rfl⟩ := h
      exact ⟨rfl, rfl, rfl, rfl, fun _ => rfl, Or.inl ⟨rfl, rfl⟩⟩
    | ok v =>
      simp only [hb] at h
      have hst := Params1_state network s
      cases hp : Params1 network s with
      | mk res st =>
        rw [hp] at hst h
        simp only at hst
        subst hst
        cases res with
        | error e1 =>
          simp only [Prod.mk.injEq] at h
          obtain ⟨_, rfl⟩ := h
          exact ⟨rfl, rfl, rfl, rfl, fun _ => rfl, Or.inl ⟨rfl, rfl⟩⟩
        | ok selected => simp at h

/-- A call of `SelectParams` with a string that is none of the four tokens
fails and leaves the registry as it was. -/
theorem SelectParams_unknown (P : Primitives) (GetDevNetName : List UInt8)
    (SelectBaseParams : String → Except Abort Unit) (network : String) (s : Registry)
    (h1 : network ≠ CBaseChainParams.MAIN) (h2 : network ≠ CBaseChainParams.TESTNET)
    (h3 : network ≠ CBaseChainParams.DEVNET) (h4 : network ≠ CBaseChainParams.REGTEST) :
    ∃ e, SelectParams P GetDevNetName SelectBaseParams network s = (Except.error e, s) := by
  unfold SelectParams
  simp only [h3, if_false]
  cases hb : SelectBaseParams network with
  | error e => exact ⟨e, rfl⟩
  | ok v =>
    simp only [Params1_unknown network s h1 h2 h3 h4]
    exact ⟨_, rfl⟩

/-- The result of a call of `SelectParams` is either a success or a failure. -/
theorem SelectParams_cases (P : Primitives) (GetDevNetName : List UInt8)
    (SelectBaseParams : String → Except Abort Unit) (network : String) (s : Registry) :
    (∃ u s1, SelectParams P GetDevNetName SelectBaseParams network s = (Except.ok u, s1)) ∨
      ∃ e s1, SelectParams P GetDevNetName SelectBaseParams network s = (Except.error e, s1) := by
  cases h : SelectParams P GetDevNetName SelectBaseParams network s with
  | mk res s1 =>
    cases res with
    | error e => exact Or.inr ⟨e, s1, rfl⟩
    | ok u => exact Or.inl ⟨u, s1, rfl⟩

/-- Static initialisation leaves every static object as its constructor built it. -/
theorem staticInit_Built (P : Primitives) (GetDevNetName : List UInt8) (s : Registry)
    (h : staticInit P = Except.ok s) :
    s.Built P GetDevNetName ∧ s.pCurrentParams = none ∧ s.devNetParams = none ∧
      s.allocated = [] := by
  unfold staticInit at h
  cases h1 : CMainParams P with
  | error e => simp [h1] at h
  | ok m =>
    cases h2 : CTestNetParams P with
    | error e => simp [h1, h2] at h
    | ok t =>
      cases h3 : CRegTestParams P with
      | error e => simp [h1, h2, h3] at h
      | ok r =>
        simp only [h1, h2, h3, Except.ok.injEq] at h
        subst h
        refine ⟨⟨h1, h2, h3, ?_, ?_⟩, rfl, rfl, rfl⟩
        · intro p hp
          simp at hp
        · intro i hi
          simp at hi

/-- A call of `SelectParams` keeps every parameter set as its constructor built it. -/
theorem SelectParams_Built (P : Primitives) (GetDevNetName : List UInt8)
    (SelectBaseParams : String → Except Abort Unit) (network : String) (s : Registry)
    (h : s.Built P GetDevNetName) :
    (SelectParams P GetDevNetName SelectBaseParams network s).2.Built P GetDevNetName := by
  obtain ⟨hm, ht, hr, ha, hd⟩ := h
  have key : ∀ s1 : Registry, s1.mainParams = s.mainParams → s1.testNetParams = s.testNetParams →
      s1.regTestParams = s.regTestParams →
      (s1.allocated = s.allocated ∧ s1.devNetParams = s.devNetParams ∨
        ∃ fresh, CDevNetParams P GetDevNetName = Except.ok fresh ∧
          s1.allocated = s.allocated ++ [fresh] ∧
          s1.devNetParams = some s.allocated.length) →
      s1.Built P GetDevNetName := by
    intro s1 e1 e2 e3 hcase
    refine ⟨by rw [e1]; exact hm, by rw [e2]; exact ht, by rw [e3]; exact hr, ?_, ?_⟩
    · rcases hcase with ⟨ea, _⟩ | ⟨fresh, hf, ea, _⟩
      · rw [ea]; exact ha
      · rw [ea]
        intro p hp
        rcases List.mem_append.mp hp with hp | hp
        · exact ha p hp
        · rw [List.mem_singleton.mp hp]; exact hf
    · rcases hcase with ⟨ea, ed⟩ | ⟨fresh, _, ea, ed⟩
      · rw [ea, ed]; exact hd
      · rw [ea, ed]
        intro i hi
        cases hi
        simp
  rcases SelectParams_cases P GetDevNetName SelectBaseParams network s with
    ⟨u, s1, hok⟩ | ⟨e, s1, herr⟩
  · rw [hok]
    obtain ⟨sel, _, _, e1, e2, e3, hcase⟩ := SelectParams_ok P _ _ _ _ _ _ hok
    apply key s1 e1 e2 e3
    rcases hcase with ⟨_, ea, ed⟩ | ⟨_, fresh, hf, ea, ed, _⟩
    · exact Or.inl ⟨ea, ed⟩
    · exact Or.inr ⟨fresh, hf, ea, ed⟩
  · rw [herr]
    obtain ⟨_, e1, e2, e3, _, hcase⟩ := SelectParams_error P _ _ _ _ _ _ herr
    exact key s1 e1 e2 e3 hcase

/-- Every state reached by `SelectParams` calls keeps every parameter set as
its constructor built it. -/
theorem runSelectParams_Built (P : Primitives) (GetDevNetName : List UInt8)
    (SelectBaseParams : String → Except Abort Unit) (calls : List String) :
    ∀ s : Registry, s.Built P GetDevNetName →
      (runSelectParams P GetDevNetName SelectBaseParams calls s).Built P GetDevNetName := by
  induction calls with
  | nil => intro s h; exact h
  | cons network rest ih =>
    intro s h
    exact ih _ (SelectParams_Built P GetDevNetName SelectBaseParams network s h)

/-- The genesis block and the identifier of a constructed main parameter set. -/
theorem CMainParams_genesis (P : Primitives) (p : CChainParams)
    (h : CMainParams P = Except.ok p) :
    p.strNetworkID = "main" ∧
    p.genesis = CreateGenesisBlock5 P 1591228800 2463995 0x1e0ffff0 1 (0 * COIN) ∧
    p.consensus.hashGenesisBlock = GetHash P p.genesis := by
  unfold CMainParams at h
  simp only [] at h
  split_ifs at h
  cases h
  exact ⟨rfl, rfl, rfl⟩

/-- The genesis block and the identifier of a constructed testnet parameter set. -/
theorem CTestNetParams_genesis (P : Primitives) (p : CChainParams)
    (h : CTestNetParams P = Except.ok p) :
    p.strNetworkID = "test" ∧
    p.genesis = CreateGenesisBlock5 P 1591228801 1108918 0x1f00ffff 1 (0 * COIN) ∧
    p.consensus.hashGenesisBlock = GetHash P p.genesis := by
  unfold CTestNetParams at h
  cases h
  exact ⟨rfl, rfl, rfl⟩

/-- The `Consensus::Params` argument of `FindDevNetGenesisBlock` is not read. -/
theorem FindDevNetGenesisBlock_params (P : Primitives) (devNetName : List UInt8)
    (params1 params2 : Consensus.Params) (prevBlock : CBlock) (reward : Int) :
    FindDevNetGenesisBlock P devNetName params1 prevBlock reward =
      FindDevNetGenesisBlock P devNetName params2 prevBlock reward := rfl

/-- The two genesis blocks and the identifier of a constructed devnet parameter set. -/
theorem CDevNetParams_genesis (P : Primitives) (GetDevNetName : List UInt8)
    (p : CChainParams) (h : CDevNetParams P GetDevNetName = Except.ok p) :
    p.strNetworkID = "dev" ∧
    p.genesis = CreateGenesisBlock5 P 1591228802 1078333 0x207fffff 1 (0 * COIN) ∧
    p.consensus.hashGenesisBlock = GetHash P p.genesis ∧
    (∀ params, FindDevNetGenesisBlock P GetDevNetName params p.genesis (0 * COIN) =
      Except.ok p.devnetGenesis) ∧
    p.consensus.hashDevnetGenesisBlock = GetHash P p.devnetGenesis := by
  unfold CDevNetParams at h
  simp only [] at h
  split_ifs at h
  split at h
  · cases h
  · rename_i found hfound
    cases h
    refine ⟨rfl, rfl, rfl, ?_, rfl⟩
    intro params
    rw [← hfound]
    rfl

/-- The genesis block and the identifier of a constructed regtest parameter set. -/
theorem CRegTestParams_genesis (P : Primitives) (p : CChainParams)
    (h : CRegTestParams P = Except.ok p) :
    p.strNetworkID = "regtest" ∧
    p.genesis = CreateGenesisBlock5 P 1591228802 1078333 0x207fffff 1 (0 * COIN) ∧
    p.consensus.hashGenesisBlock = GetHash P p.genesis := by
  unfold CRegTestParams at h
  simp only [] at h
  split_ifs at h
  cases h
  exact ⟨rfl, rfl, rfl⟩

/-- After a successful call of `SelectParams` in a registry whose sets are as
constructed, `Params()` and `Params(network)` return the same instance, and it
is what the constructor of that network builds. -/
theorem SelectParams_selected (P : Primitives) (GetDevNetName : List UInt8)
    (SelectBaseParams : String → Except Abort Unit) (network : String) (s s1 : Registry)
    (u : Unit) (hs : s.Built P GetDevNetName)
    (h : SelectParams P GetDevNetName SelectBaseParams network s = (Except.ok u, s1)) :
    ∃ current p,
      Params0 s1 = (Except.ok current, s1) ∧ Params1 network s1 = (Except.ok current, s1) ∧
      s1.deref current = some p ∧
      ((network = CBaseChainParams.MAIN ∧ CMainParams P = Except.ok p) ∨
        (network = CBaseChainParams.TESTNET ∧ CTestNetParams P = Except.ok p) ∨
        (network = CBaseChainParams.DEVNET ∧ CDevNetParams P GetDevNetName = Except.ok p) ∨
        (network = CBaseChainParams.REGTEST ∧ CRegTestParams P = Except.ok p)) := by
  obtain ⟨hm, ht, hr, _, _⟩ := hs
  obtain ⟨sel, hp1, hcur, e1, e2, e3, hcase⟩ := SelectParams_ok P _ _ _ _ _ _ h
  have hp0 : Params0 s1 = (Except.ok sel, s1) := by
    unfold Params0
    rw [hcur]
  rcases hcase with ⟨hdev, _, _⟩ | ⟨hdev, fresh, hf, ea, _, hsel⟩
  · by_cases h1 : network = CBaseChainParams.MAIN
    · refine ⟨sel, s1.mainParams, hp0, hp1, ?_, Or.inl ⟨h1, by rw [e1]; exact hm⟩⟩
      have : Params1 network s1 = (Except.ok ParamsRef.mainParams, s1) := by
        unfold Params1; rw [if_pos h1]
      rw [this] at hp1
      cases hp1
      rfl
    · by_cases h2 : network = CBaseChainParams.TESTNET
      · refine ⟨sel, s1.testNetParams, hp0, hp1, ?_, Or.inr (Or.inl ⟨h2, by rw [e2]; exact ht⟩)⟩
        have : Params1 network s1 = (Except.ok ParamsRef.testNetParams, s1) := by
          unfold Params1; rw [if_neg h1, if_pos h2]
        rw [this] at hp1
        cases hp1
        rfl
      · by_cases h4 : network = CBaseChainParams.REGTEST
        · refine ⟨sel, s1.regTestParams, hp0, hp1, ?_,
            Or.inr (Or.inr (Or.inr ⟨h4, by rw [e3]; exact hr⟩))⟩
          have : Params1 network s1 = (Except.ok ParamsRef.regTestParams, s1) := by
            unfold Params1; rw [if_neg h1, if_neg h2, if_neg hdev, if_pos h4]
          rw [this] at hp1
          cases hp1
          rfl
        · rw [Params1_unknown network s1 h1 h2 hdev h4] at hp1
          cases hp1
  · refine ⟨sel, fresh, hp0, hp1, ?_, Or.inr (Or.inr (Or.inl ⟨hdev, hf⟩))⟩
    rw [hsel]
    show s1.allocated[s.allocated.length]? = some fresh
    rw [ea]
    simp

/-- C11: after static initialisation and any sequence of `SelectParams` calls,
a successful `SelectParams(network)` makes `Params()` return a set whose
`consensus.hashGenesisBlock` is the header hash of the block that
`CreateGenesisBlock` builds from the genesis inputs of that network (time,
nonce, bits, version, reward); for the developer network
`consensus.hashDevnetGenesisBlock` is moreover the hash of the block that
`FindDevNetGenesisBlock` returns for that genesis block. -/
theorem SelectParams_genesis_round_trip (P : Primitives) (GetDevNetName : List UInt8)
    (SelectBaseParams : String → Except Abort Unit) (calls : List String) (network : String)
    (s0 s1 : Registry) (u : Unit) (h0 : staticInit P = Except.ok s0)
    (h : SelectParams P GetDevNetName SelectBaseParams network
      (runSelectParams P GetDevNetName SelectBaseParams calls s0) = (Except.ok u, s1)) :
    ∃ current p,
      Params0 s1 = (Except.ok current, s1) ∧ s1.deref current = some p ∧
      (network = CBaseChainParams.MAIN ∨ network = CBaseChainParams.TESTNET ∨
        network = CBaseChainParams.DEVNET ∨ network = CBaseChainParams.REGTEST) ∧
      (network = CBaseChainParams.MAIN →
        p.consensus.hashGenesisBlock =
          GetHash P (CreateGenesisBlock5 P 1591228800 2463995 0x1e0ffff0 1 (0 * COIN))) ∧
      (network = CBaseChainParams.TESTNET →
        p.consensus.hashGenesisBlock =
          GetHash P (CreateGenesisBlock5 P 1591228801 1108918 0x1f00ffff 1 (0 * COIN))) ∧
      (network = CBaseChainParams.REGTEST →
        p.consensus.hashGenesisBlock =
          GetHash P (CreateGenesisBlock5 P 1591228802 1078333 0x207fffff 1 (0 * COIN))) ∧
      (network = CBaseChainParams.DEVNET →
        p.consensus.hashGenesisBlock =
          GetHash P (CreateGenesisBlock5 P 1591228802 1078333 0x207fffff 1 (0 * COIN)) ∧
        ∃ devnetGenesis,
          FindDevNetGenesisBlock P GetDevNetName p.consensus
            (CreateGenesisBlock5 P 1591228802 1078333 0x207fffff 1 (0 * COIN)) (0 * COIN) =
            Except.ok devnetGenesis ∧
          p.consensus.hashDevnetGenesisBlock = GetHash P devnetGenesis) := by
  have hb := runSelectParams_Built P GetDevNetName SelectBaseParams calls s0
    (staticInit_Built P GetDevNetName s0 h0).1
  obtain ⟨current, p, hp0, _, hd, hcase⟩ := SelectParams_selected P _ _ _ _ _ _ hb h
  refine ⟨current, p, hp0, hd, ?_, ?_⟩
  · rcases hcase with ⟨hn, _⟩ | ⟨hn, _⟩ | ⟨hn, _⟩ | ⟨hn, _⟩
    · exact Or.inl hn
    · exact Or.inr (Or.inl hn)
    · exact Or.inr (Or.inr (Or.inl hn))
    · exact Or.inr (Or.inr (Or.inr hn))
  · rcases hcase with ⟨hn, hc⟩ | ⟨hn, hc⟩ | ⟨hn, hc⟩ | ⟨hn, hc⟩
    · obtain ⟨_, hg, hh⟩ := CMainParams_genesis P p hc
      rw [hg] at hh
      refine ⟨fun _ => hh, ?_, ?_, ?_⟩ <;> intro hn2 <;> rw [hn] at hn2 <;>
        exact absurd hn2 (by decide)
    · obtain ⟨_, hg, hh⟩ := CTestNetParams_genesis P p hc
      rw [hg] at hh
      refine ⟨?_, fun _ => hh, ?_, ?_⟩ <;> intro hn2 <;> rw [hn] at hn2 <;>
        exact absurd hn2 (by decide)
    · obtain ⟨_, hg, hh, hf, hd2⟩ := CDevNetParams_genesis P GetDevNetName p hc
      rw [hg] at hh
      refine ⟨?_, ?_, ?_, fun _ => ⟨hh, p.devnetGenesis, ?_, hd2⟩⟩
      · intro hn2; rw [hn] at hn2; exact absurd hn2 (by decide)
      · intro hn2; rw [hn] at hn2; exact absurd hn2 (by decide)
      · intro hn2; rw [hn] at hn2; exact absurd hn2 (by decide)
      · rw [← hg]; exact hf p.consensus
    · obtain ⟨_, hg, hh⟩ := CRegTestParams_genesis P p hc
      rw [hg] at hh
      refine ⟨?_, ?_, fun _ => hh, ?_⟩ <;> intro hn2 <;> rw [hn] at hn2 <;>
        exact absurd hn2 (by decide)

/-- C11, witness: under the sample primitives `SelectParams("dev")` succeeds
after `SelectParams("main")`, and the set it activates carries both recomputed
hashes. -/
theorem SelectParams_genesis_round_trip_witness :
    ∃ s0 s1 current p devnetGenesis,
      staticInit samplePrimitives = Except.ok s0 ∧
      SelectParams samplePrimitives sampleName sampleSelectBaseParams CBaseChainParams.DEVNET
        (runSelectParams samplePrimitives sampleName sampleSelectBaseParams
          [CBaseChainParams.MAIN] s0) = (Except.ok (), s1) ∧
      Params0 s1 = (Except.ok current, s1) ∧ s1.deref current = some p ∧
      p.consensus.hashGenesisBlock =
        GetHash samplePrimitives
          (CreateGenesisBlock5 samplePrimitives 1591228802 1078333 0x207fffff 1 (0 * COIN)) ∧
      FindDevNetGenesisBlock samplePrimitives sampleName p.consensus
        (CreateGenesisBlock5 samplePrimitives 1591228802 1078333 0x207fffff 1 (0 * COIN))
        (0 * COIN) = Except.ok devnetGenesis ∧
      p.consensus.hashDevnetGenesisBlock = GetHash samplePrimitives devnetGenesis := by
  obtain ⟨current, p, h1, h2, _, _, _, _, h3⟩ :=
    SelectParams_genesis_round_trip samplePrimitives sampleName sampleSelectBaseParams
      [CBaseChainParams.MAIN] CBaseChainParams.DEVNET _ _ () rfl rfl
  obtain ⟨h4, devnetGenesis, h5, h6⟩ := h3 rfl
  exact ⟨_, _, current, p, devnetGenesis, rfl, rfl, h1, h2, h4, h5, h6⟩

/-- The constructor of the public test network cannot fail. -/
theorem CTestNetParams_total (P : Primitives) : ∃ p, CTestNetParams P = Except.ok p :=
  ⟨_, rfl⟩

/-- The constructors of main, devnet and regtest fail when the computed
genesis hash or the computed Merkle root differs from the constant they assert. -/
theorem constructors_check_genesis (P : Primitives) (GetDevNetName : List UInt8) :
    ((GetHash P (CreateGenesisBlock5 P 1591228800 2463995 0x1e0ffff0 1 (0 * COIN)) ≠
          0x00000f49021b9fc63a4d335f32ed8a32743737d065215fb81d467e9849d4bb86 ∨
        (CreateGenesisBlock5 P 1591228800 2463995 0x1e0ffff0 1 (0 * COIN)).hashMerkleRoot ≠
          0x741e37ce97352889aba3b62d3bc284a70f5ddf32cbad3653dafbf5f115614a35) →
      ∃ what, CMainParams P = Except.error (Abort.assertion what)) ∧
    ((GetHash P (CreateGenesisBlock5 P 1591228802 1078333 0x207fffff 1 (0 * COIN)) ≠
          0x0000074a2326761fd57ba13db6c67bfd20fba72b7f677676868f8685890b3257 ∨
        (CreateGenesisBlock5 P 1591228802 1078333 0x207fffff 1 (0 * COIN)).hashMerkleRoot ≠
          0x741e37ce97352889aba3b62d3bc284a70f5ddf32cbad3653dafbf5f115614a35) →
      (∃ what, CDevNetParams P GetDevNetName = Except.error (Abort.assertion what)) ∧
        ∃ what, CRegTestParams P = Except.error (Abort.assertion what)) := by
  constructor
  · intro h
    unfold CMainParams
    simp only []
    split_ifs with h1 h2
    · exact ⟨_, rfl⟩
    · exact ⟨_, rfl⟩
    · rcases h with h | h
      · exact absurd h h1
      · exact absurd h h2
  · intro h
    constructor
    · unfold CDevNetParams
      simp only []
      split_ifs with h1 h2
      · exact ⟨_, rfl⟩
      · exact ⟨_, rfl⟩
      · rcases h with h | h
        · exact absurd h h1
        · exact absurd h h2
    · unfold CRegTestParams
      simp only []
      split_ifs with h1 h2
      · exact ⟨_, rfl⟩
      · exact ⟨_, rfl⟩
      · rcases h with h | h
        · exact absurd h h1
        · exact absurd h h2

/-- C12, the code at the failing input: under primitives that give the testnet
genesis block the hash 1 and the Merkle root 2, the testnet constructor still
succeeds; it compares neither value with a constant. The only constant it
stores is the null hash of its checkpoint, and the Merkle root differs from
the root that the three other constructors assert. -/
theorem CTestNetParams_checks_nothing :
    ∃ p,
      CTestNetParams lastNoncePrimitives = Except.ok p ∧
      p.consensus.hashGenesisBlock = 1 ∧ p.genesis.hashMerkleRoot = 2 ∧
      p.checkpointData = [(0, 0)] ∧
      p.genesis.hashMerkleRoot ≠
        0x741e37ce97352889aba3b62d3bc284a70f5ddf32cbad3653dafbf5f115614a35 :=
  ⟨_, rfl, rfl, rfl, rfl, by decide⟩

/-- In a registry whose sets are as constructed, a non-null `devNetParams`
points to a developer-network set. -/
theorem Built_devNetParams (P : Primitives) (GetDevNetName : List UInt8) (s : Registry)
    (hs : s.Built P GetDevNetName) (i : Nat) (hi : s.devNetParams = some i) :
    ∃ p, s.deref (ParamsRef.devNet i) = some p ∧ CDevNetParams P GetDevNetName = Except.ok p := by
  obtain ⟨_, _, _, ha, hd⟩ := hs
  have hlt := hd i hi
  refine ⟨s.allocated[i], ?_, ha _ (List.getElem_mem _)⟩
  show s.allocated[i]? = some s.allocated[i]
  exact List.getElem?_eq_getElem hlt

/-- C13: in every state of the registry, whichever network is active,
`Params(chain)` returns the main, testnet or regtest set for the corresponding
identifier and never raises for these three; it returns the set that
`devNetParams` points to when that pointer is set, which in every state
reached by `SelectParams` calls is a constructed developer-network set; and
it raises `runtime_error` for every string that is none of the four
identifiers. The registry is left unchanged in all cases. -/
theorem Params1_lookup (chain : String) (s : Registry) :
    (Params1 CBaseChainParams.MAIN s = (Except.ok ParamsRef.mainParams, s) ∧
      Params1 CBaseChainParams.TESTNET s = (Except.ok ParamsRef.testNetParams, s) ∧
      Params1 CBaseChainParams.REGTEST s = (Except.ok ParamsRef.regTestParams, s)) ∧
    (s.deref ParamsRef.mainParams = some s.mainParams ∧
      s.deref ParamsRef.testNetParams = some s.testNetParams ∧
      s.deref ParamsRef.regTestParams = some s.regTestParams) ∧
    (∀ i, s.devNetParams = some i →
      Params1 CBaseChainParams.DEVNET s = (Except.ok (ParamsRef.devNet i), s)) ∧
    (∀ (P : Primitives) (GetDevNetName : List UInt8)
      (SelectBaseParams : String → Except Abort Unit) (calls : List String) (s0 : Registry)
      (i : Nat),
      staticInit P = Except.ok s0 →
      s = runSelectParams P GetDevNetName SelectBaseParams calls s0 →
      s.devNetParams = some i →
      ∃ p, s.deref (ParamsRef.devNet i) = some p ∧
        CDevNetParams P GetDevNetName = Except.ok p) ∧
    (chain ≠ CBaseChainParams.MAIN → chain ≠ CBaseChainParams.TESTNET →
      chain ≠ CBaseChainParams.DEVNET → chain ≠ CBaseChainParams.REGTEST →
      Params1 chain s =
        (Except.error (Abort.runtime_error ("Params: Unknown chain " ++ chain ++ ".")), s)) := by
  refine ⟨⟨rfl, rfl, rfl⟩, ⟨rfl, rfl, rfl⟩, ?_, ?_, Params1_unknown chain s⟩
  · intro i hi
    unfold Params1
    rw [if_neg (by decide), if_neg (by decide), if_pos rfl, hi]
  · intro P GetDevNetName SelectBaseParams calls s0 i h0 hs hi
    have hb := runSelectParams_Built P GetDevNetName SelectBaseParams calls s0
      (staticInit_Built P GetDevNetName s0 h0).1
    rw [← hs] at hb
    exact Built_devNetParams P GetDevNetName s hb i hi

/-- C13, witness: after `SelectParams("dev")` under the sample primitives the
developer network is active; `Params("dev")` returns the constructed set,
`Params("main")` the main set, and `Params("mainnet")` raises. -/
theorem Params1_lookup_witness :
    ∃ s1 p,
      staticInit samplePrimitives = Except.ok sampleRegistry ∧
      s1 = runSelectParams samplePrimitives sampleName sampleSelectBaseParams
        [CBaseChainParams.DEVNET] sampleRegistry ∧
      s1.devNetParams = some 0 ∧ s1.pCurrentParams = some (ParamsRef.devNet 0) ∧
      Params1 CBaseChainParams.DEVNET s1 = (Except.ok (ParamsRef.devNet 0), s1) ∧
      s1.deref (ParamsRef.devNet 0) = some p ∧
      CDevNetParams samplePrimitives sampleName = Except.ok p ∧
      Params1 CBaseChainParams.MAIN s1 = (Except.ok ParamsRef.mainParams, s1) ∧
      Params1 "mainnet" s1 =
        (Except.error (Abort.runtime_error "Params: Unknown chain mainnet."), s1) := by
  obtain ⟨p, hp1, hp2⟩ := (Params1_lookup "mainnet"
    (runSelectParams samplePrimitives sampleName sampleSelectBaseParams
      [CBaseChainParams.DEVNET] sampleRegistry)).2.2.2.1 samplePrimitives sampleName
      sampleSelectBaseParams [CBaseChainParams.DEVNET] sampleRegistry 0 rfl rfl rfl
  exact ⟨_, p, rfl, rfl, rfl, rfl, (Params1_lookup "mainnet" _).2.2.1 0 rfl, hp1, hp2,
    (Params1_lookup "mainnet" _).1.1,
    (Params1_lookup "mainnet" _).2.2.2.2 (by decide) (by decide) (by decide) (by decide)⟩

/-- C14: for every string that is none of the four recognized identifiers,
`SelectParams(network)` fails, and the registry after the failure is the one
before it: `pCurrentParams` and `devNetParams` keep their values. -/
theorem SelectParams_rejects_unknown (P : Primitives) (GetDevNetName : List UInt8)
    (SelectBaseParams : String → Except Abort Unit) (network : String) (s : Registry)
    (h1 : network ≠ CBaseChainParams.MAIN) (h2 : network ≠ CBaseChainParams.TESTNET)
    (h3 : network ≠ CBaseChainParams.DEVNET) (h4 : network ≠ CBaseChainParams.REGTEST) :
    ∃ e s1,
      SelectParams P GetDevNetName SelectBaseParams network s = (Except.error e, s1) ∧
      s1.pCurrentParams = s.pCurrentParams ∧ s1.devNetParams = s.devNetParams ∧ s1 = s := by
  obtain ⟨e, he⟩ := SelectParams_unknown P GetDevNetName SelectBaseParams network s h1 h2 h3 h4
  exact ⟨e, s, he, rfl, rfl, rfl⟩

/-- C14, witness: with regtest selected, `SelectParams("testnet")` fails and
regtest stays selected. -/
theorem SelectParams_rejects_unknown_witness :
    ∃ s0 s1 e s2,
      staticInit samplePrimitives = Except.ok s0 ∧
      SelectParams samplePrimitives sampleName sampleSelectBaseParams CBaseChainParams.REGTEST
        s0 = (Except.ok (), s1) ∧
      s1.pCurrentParams = some ParamsRef.regTestParams ∧
      "testnet" ≠ CBaseChainParams.MAIN ∧ "testnet" ≠ CBaseChainParams.TESTNET ∧
      "testnet" ≠ CBaseChainParams.DEVNET ∧ "testnet" ≠ CBaseChainParams.REGTEST ∧
      SelectParams samplePrimitives sampleName sampleSelectBaseParams "testnet" s1 =
        (Except.error e, s2) ∧
      s2.pCurrentParams = s1.pCurrentParams ∧ s2.devNetParams = s1.devNetParams ∧ s2 = s1 := by
  obtain ⟨e, s2, h⟩ := SelectParams_rejects_unknown samplePrimitives sampleName
    sampleSelectBaseParams "testnet" _ (by decide) (by decide) (by decide) (by decide)
  exact ⟨_, _, e, s2, rfl, rfl, rfl, by decide, by decide, by decide, by decide, h⟩

/-- The active network after a sequence of `SelectParams` calls is the set
installed by the most recent successful one. -/
theorem runSelectParams_pCurrentParams (P : Primitives) (GetDevNetName : List UInt8)
    (SelectBaseParams : String → Except Abort Unit) (calls : List String) :
    ∀ (s : Registry) (installed : Option ParamsRef), s.pCurrentParams = installed →
      (runSelectParams P GetDevNetName SelectBaseParams calls s).pCurrentParams =
        lastInstalled P GetDevNetName SelectBaseParams calls s installed := by
  induction calls with
  | nil => intro s installed h; exact h
  | cons network rest ih =>
    intro s installed h
    unfold runSelectParams lastInstalled
    rcases SelectParams_cases P GetDevNetName SelectBaseParams network s with
      ⟨u, s1, hok⟩ | ⟨e, s1, herr⟩
    · obtain ⟨sel, hp1, hcur, _⟩ := SelectParams_ok P _ _ _ _ _ _ hok
      rw [hok]
      simp only
      apply ih
      rw [hcur, hp1]
      rfl
    · obtain ⟨hcur, _⟩ := SelectParams_error P _ _ _ _ _ _ herr
      rw [herr]
      simp only
      apply ih
      rw [hcur, h]

/-- No set is installed exactly when none was installed before and no call succeeded. -/
theorem lastInstalled_eq_none (P : Primitives) (GetDevNetName : List UInt8)
    (SelectBaseParams : String → Except Abort Unit) (calls : List String) :
    ∀ (s : Registry) (installed : Option ParamsRef),
      lastInstalled P GetDevNetName SelectBaseParams calls s installed = none ↔
        installed = none ∧ succeededCalls P GetDevNetName SelectBaseParams calls s = [] := by
  induction calls with
  | nil => intro s installed; simp [lastInstalled, succeededCalls]
  | cons network rest ih =>
    intro s installed
    unfold lastInstalled succeededCalls
    rcases SelectParams_cases P GetDevNetName SelectBaseParams network s with
      ⟨u, s1, hok⟩ | ⟨e, s1, herr⟩
    · obtain ⟨sel, hp1, _⟩ := SelectParams_ok P _ _ _ _ _ _ hok
      rw [hok]
      simp only [ih, hp1, Except.toOption]
      simp
    · rw [herr]
      simp only [ih]

/-- C15: after any sequence of `SelectParams` calls made from a state in which
no network is selected, `Params()` fails on `assert(pCurrentParams)` if and
only if none of the calls succeeded; otherwise it returns the set installed by
the most recent successful call. In both cases it leaves the registry
unchanged. -/
theorem Params0_after_calls (P : Primitives) (GetDevNetName : List UInt8)
    (SelectBaseParams : String → Except Abort Unit) (calls : List String) (s0 : Registry)
    (h0 : s0.pCurrentParams = none) :
    ((Params0 (runSelectParams P GetDevNetName SelectBaseParams calls s0)).1 =
        Except.error (Abort.assertion "pCurrentParams") ↔
      succeededCalls P GetDevNetName SelectBaseParams calls s0 = []) ∧
    (succeededCalls P GetDevNetName SelectBaseParams calls s0 ≠ [] →
      ∃ current,
        lastInstalled P GetDevNetName SelectBaseParams calls s0 none = some current ∧
        (Params0 (runSelectParams P GetDevNetName SelectBaseParams calls s0)).1 =
          Except.ok current) ∧
    (Params0 (runSelectParams P GetDevNetName SelectBaseParams calls s0)).2 =
      runSelectParams P GetDevNetName SelectBaseParams calls s0 := by
  have hcur := runSelectParams_pCurrentParams P GetDevNetName SelectBaseParams calls s0 none h0
  have hnone := lastInstalled_eq_none P GetDevNetName SelectBaseParams calls s0 none
  unfold Params0
  cases hl : lastInstalled P GetDevNetName SelectBaseParams calls s0 none with
  | none =>
    rw [hl] at hcur hnone
    rw [hcur]
    have hs := (hnone.mp rfl).2
    exact ⟨⟨fun _ => hs, fun _ => rfl⟩, fun hne => absurd hs hne, rfl⟩
  | some current =>
    rw [hl] at hcur hnone
    rw [hcur]
    have hs : succeededCalls P GetDevNetName SelectBaseParams calls s0 ≠ [] := by
      intro hempty
      have := hnone.mpr ⟨rfl, hempty⟩
      cases this
    refine ⟨⟨fun h => ?_, fun h => absurd h hs⟩, fun _ => ⟨current, rfl, rfl⟩, rfl⟩
    simp at h

/-- C15, witness: of the calls main, bogus, regtest, bogus the first and the
third succeed, and `Params()` then returns the regtest set; after the single
call bogus it fails. -/
theorem Params0_after_calls_witness :
    staticInit samplePrimitives = Except.ok sampleRegistry ∧
    sampleRegistry.pCurrentParams = none ∧
    succeededCalls samplePrimitives sampleName sampleSelectBaseParams
      [CBaseChainParams.MAIN, "bogus", CBaseChainParams.REGTEST, "bogus"] sampleRegistry =
      [CBaseChainParams.MAIN, CBaseChainParams.REGTEST] ∧
    lastInstalled samplePrimitives sampleName sampleSelectBaseParams
      [CBaseChainParams.MAIN, "bogus", CBaseChainParams.REGTEST, "bogus"] sampleRegistry none =
      some ParamsRef.regTestParams ∧
    (Params0 (runSelectParams samplePrimitives sampleName sampleSelectBaseParams
      [CBaseChainParams.MAIN, "bogus", CBaseChainParams.REGTEST, "bogus"] sampleRegistry)).1 =
      Except.ok ParamsRef.regTestParams ∧
    (Params0 (runSelectParams samplePrimitives sampleName sampleSelectBaseParams
      ["bogus"] sampleRegistry)).1 = Except.error (Abort.assertion "pCurrentParams") := by
  have hsucc : succeededCalls samplePrimitives sampleName sampleSelectBaseParams
      [CBaseChainParams.MAIN, "bogus", CBaseChainParams.REGTEST, "bogus"] sampleRegistry =
      [CBaseChainParams.MAIN, CBaseChainParams.REGTEST] := rfl
  refine ⟨rfl, rfl, hsucc, rfl, ?_, ?_⟩
  · obtain ⟨current, h1, h2⟩ := (Params0_after_calls samplePrimitives sampleName
      sampleSelectBaseParams
      [CBaseChainParams.MAIN, "bogus", CBaseChainParams.REGTEST, "bogus"] sampleRegistry
      rfl).2.1 (by rw [hsucc]; exact List.cons_ne_nil _ _)
    rw [h2]
    exact congrArg Except.ok (Option.some.inj (h1.symm.trans rfl))
  · exact (Params0_after_calls samplePrimitives sampleName sampleSelectBaseParams
      ["bogus"] sampleRegistry rfl).1.mpr rfl

/-- C16: after static initialisation and any sequence of `SelectParams` calls,
a successful `SelectParams(id)`, which needs `id` to be one of the four
identifiers, makes `Params()` return the same instance as `Params(id)`, and the
`strNetworkID` of that set equals `id`. -/
theorem SelectParams_activates (P : Primitives) (GetDevNetName : List UInt8)
    (SelectBaseParams : String → Except Abort Unit) (calls : List String) (id : String)
    (s0 s1 : Registry) (u : Unit) (h0 : staticInit P = Except.ok s0)
    (h : SelectParams P GetDevNetName SelectBaseParams id
      (runSelectParams P GetDevNetName SelectBaseParams calls s0) = (Except.ok u, s1)) :
    (id = CBaseChainParams.MAIN ∨ id = CBaseChainParams.TESTNET ∨
      id = CBaseChainParams.DEVNET ∨ id = CBaseChainParams.REGTEST) ∧
    ∃ current p,
      Params0 s1 = (Except.ok current, s1) ∧ Params1 id s1 = (Except.ok current, s1) ∧
      s1.deref current = some p ∧ p.strNetworkID = id := by
  have hb := runSelectParams_Built P GetDevNetName SelectBaseParams calls s0
    (staticInit_Built P GetDevNetName s0 h0).1
  obtain ⟨current, p, hp0, hp1, hd, hcase⟩ := SelectParams_selected P _ _ _ _ _ _ hb h
  rcases hcase with ⟨hn, hc⟩ | ⟨hn, hc⟩ | ⟨hn, hc⟩ | ⟨hn, hc⟩
  · exact ⟨Or.inl hn, current, p, hp0, hp1, hd, by rw [hn]; exact (CMainParams_genesis P p hc).1⟩
  · exact ⟨Or.inr (Or.inl hn), current, p, hp0, hp1, hd,
      by rw [hn]; exact (CTestNetParams_genesis P p hc).1⟩
  · exact ⟨Or.inr (Or.inr (Or.inl hn)), current, p, hp0, hp1, hd,
      by rw [hn]; exact (CDevNetParams_genesis P GetDevNetName p hc).1⟩
  · exact ⟨Or.inr (Or.inr (Or.inr hn)), current, p, hp0, hp1, hd,
      by rw [hn]; exact (CRegTestParams_genesis P p hc).1⟩

/-- C16, witness: under the sample primitives `SelectParams("dev")` succeeds
after `SelectParams("test")` and activates a set named "dev". -/
theorem SelectParams_activates_witness :
    ∃ s1 current p,
      staticInit samplePrimitives = Except.ok sampleRegistry ∧
      SelectParams samplePrimitives sampleName sampleSelectBaseParams CBaseChainParams.DEVNET
        (runSelectParams samplePrimitives sampleName sampleSelectBaseParams
          [CBaseChainParams.TESTNET] sampleRegistry) = (Except.ok (), s1) ∧
      Params0 s1 = (Except.ok current, s1) ∧
      Params1 CBaseChainParams.DEVNET s1 = (Except.ok current, s1) ∧
      s1.deref current = some p ∧ p.strNetworkID = CBaseChainParams.DEVNET := by
  obtain ⟨_, current, p, h1, h2, h3, h4⟩ :=
    SelectParams_activates samplePrimitives sampleName sampleSelectBaseParams
      [CBaseChainParams.TESTNET] CBaseChainParams.DEVNET sampleRegistry _ () rfl rfl
  exact ⟨_, current, p, rfl, rfl, h1, h2, h3, h4⟩

/-- C17, as amended: `Params("dev")` called while no developer-network set has
been constructed (`devNetParams` is null) fails on `assert(devNetParams)` and
leaves the registry unchanged; it constructs nothing. -/
theorem Params1_devnet_not_constructed (s : Registry) (h : s.devNetParams = none) :
    Params1 CBaseChainParams.DEVNET s = (Except.error (Abort.assertion "devNetParams"), s) := by
  unfold Params1
  rw [if_neg (by decide), if_neg (by decide), if_pos rfl, h]

/-- C17, witness: right after static initialisation `devNetParams` is null and
`Params("dev")` fails. -/
theorem Params1_devnet_not_constructed_witness :
    sampleRegistry.devNetParams = none ∧ sampleRegistry.allocated = [] ∧
    Params1 CBaseChainParams.DEVNET sampleRegistry =
      (Except.error (Abort.assertion "devNetParams"), sampleRegistry) :=
  ⟨rfl, rfl, Params1_devnet_not_constructed sampleRegistry rfl⟩

/-- C17, counterexample to the claim as stated: right after static
initialisation, under primitives for which the developer-network constructor
would succeed, `Params("dev")` fails and no developer-network set exists
afterwards. -/
theorem Params1_devnet_is_not_lazy :
    staticInit samplePrimitives = Except.ok sampleRegistry ∧
    sampleRegistry.allocated = [] ∧
    (∃ fresh, CDevNetParams samplePrimitives sampleName = Except.ok fresh) ∧
    (Params1 CBaseChainParams.DEVNET sampleRegistry).1 =
      Except.error (Abort.assertion "devNetParams") ∧
    (Params1 CBaseChainParams.DEVNET sampleRegistry).2.allocated = [] :=
  ⟨rfl, rfl, ⟨_, rfl⟩, rfl, rfl⟩

/-- C18, as amended: a second call to `SelectParams`, made after one has
succeeded, either fails and leaves the network of the first call active, or
succeeds and makes the set of the second identifier the active one. -/
theorem SelectParams_second_call (P : Primitives) (GetDevNetName : List UInt8)
    (SelectBaseParams : String → Except Abort Unit) (first second : String)
    (s s1 : Registry) (u : Unit)
    (h1 : SelectParams P GetDevNetName SelectBaseParams first s = (Except.ok u, s1)) :
    ∃ active,
      Params1 first s1 = (Except.ok active, s1) ∧ s1.pCurrentParams = some active ∧
      ((∃ e s2,
        SelectParams P GetDevNetName SelectBaseParams second s1 = (Except.error e, s2) ∧
        s2.pCurrentParams = some active) ∨
      ∃ u2 s2 selected,
        SelectParams P GetDevNetName SelectBaseParams second s1 = (Except.ok u2, s2) ∧
        Params1 second s2 = (Except.ok selected, s2) ∧
        s2.pCurrentParams = some selected) := by
  obtain ⟨active, ha1, hacur, _⟩ := SelectParams_ok P _ _ _ _ _ _ h1
  refine ⟨active, ha1, hacur, ?_⟩
  rcases SelectParams_cases P GetDevNetName SelectBaseParams second s1 with
    ⟨u2, s2, hok⟩ | ⟨e, s2, herr⟩
  · obtain ⟨sel, hp1, hcur, _⟩ := SelectParams_ok P _ _ _ _ _ _ hok
    exact Or.inr ⟨u2, s2, sel, hok, hp1, hcur⟩
  · obtain ⟨hcur, _⟩ := SelectParams_error P _ _ _ _ _ _ herr
    exact Or.inl ⟨e, s2, herr, by rw [hcur, hacur]⟩

/-- C18, witness: after a successful `SelectParams("main")` the theorem applies
to a second call with the string bogus. -/
theorem SelectParams_second_call_witness :
    ∃ s1 active,
      SelectParams samplePrimitives sampleName sampleSelectBaseParams CBaseChainParams.MAIN
        sampleRegistry = (Except.ok (), s1) ∧
      Params1 CBaseChainParams.MAIN s1 = (Except.ok active, s1) ∧
      s1.pCurrentParams = some active ∧
      ((∃ e s2,
        SelectParams samplePrimitives sampleName sampleSelectBaseParams "bogus" s1 =
          (Except.error e, s2) ∧
        s2.pCurrentParams = some active) ∨
      ∃ u2 s2 selected,
        SelectParams samplePrimitives sampleName sampleSelectBaseParams "bogus" s1 =
          (Except.ok u2, s2) ∧
        Params1 "bogus" s2 = (Except.ok selected, s2) ∧ s2.pCurrentParams = some selected) := by
  obtain ⟨active, h⟩ := SelectParams_second_call samplePrimitives sampleName
    sampleSelectBaseParams CBaseChainParams.MAIN "bogus" sampleRegistry _ () rfl
  exact ⟨_, active, rfl, h⟩

/-- C18, counterexample to the claim as stated: `SelectParams("main")` followed
by `SelectParams("test")` succeeds twice and switches the active network from
the main set to the testnet set. -/
theorem SelectParams_second_call_switches :
    ∃ s1 s2,
      staticInit samplePrimitives = Except.ok sampleRegistry ∧
      SelectParams samplePrimitives sampleName sampleSelectBaseParams CBaseChainParams.MAIN
        sampleRegistry = (Except.ok (), s1) ∧
      s1.pCurrentParams = some ParamsRef.mainParams ∧
      SelectParams samplePrimitives sampleName sampleSelectBaseParams CBaseChainParams.TESTNET
        s1 = (Except.ok (), s2) ∧
      s2.pCurrentParams = some ParamsRef.testNetParams ∧
      s2.pCurrentParams ≠ s1.pCurrentParams :=
  ⟨_, _, rfl, rfl, rfl, rfl, rfl, by decide⟩

/-- The objects allocated after one call of `SelectParams`: a call for the
developer network allocates a new one whenever its constructor succeeds, and
no other call allocates. -/
theorem SelectParams_allocated (P : Primitives) (GetDevNetName : List UInt8)
    (SelectBaseParams : String → Except Abort Unit) (network : String) (s : Registry) :
    (network ≠ CBaseChainParams.DEVNET →
      (SelectParams P GetDevNetName SelectBaseParams network s).2.allocated = s.allocated) ∧
    (network = CBaseChainParams.DEVNET →
      (∀ fresh, CDevNetParams P GetDevNetName = Except.ok fresh →
        (SelectParams P GetDevNetName SelectBaseParams network s).2.allocated =
          s.allocated ++ [fresh]) ∧
      ∀ e, CDevNetParams P GetDevNetName = Except.error e →
        (SelectParams P GetDevNetName SelectBaseParams network s).2.allocated =
          s.allocated) := by
  unfold SelectParams
  by_cases hdev : network = CBaseChainParams.DEVNET
  · refine ⟨fun h => absurd hdev h, fun _ => ⟨?_, ?_⟩⟩
    · intro fresh hf
      simp only [hdev, if_true, hf]
      cases hb : SelectBaseParams CBaseChainParams.DEVNET with
      | error e1 => rfl
      | ok v =>
        have hp : Params1 CBaseChainParams.DEVNET
            { s with allocated := s.allocated ++ [fresh],
                     devNetParams := some s.allocated.length } =
            (Except.ok (ParamsRef.devNet s.allocated.length),
              { s with allocated := s.allocated ++ [fresh],
                       devNetParams := some s.allocated.length }) := rfl
        simp only [hp]
    · intro e he
      simp only [hdev, if_true, he]
  · refine ⟨fun _ => ?_, fun h => absurd h hdev⟩
    simp only [hdev, if_false]
    cases hb : SelectBaseParams network with
    | error e1 => rfl
    | ok v =>
      have hst := Params1_state network s
      cases hp : Params1 network s with
      | mk res st =>
        rw [hp] at hst
        simp only at hst
        subst hst
        cases res <;> rfl

/-- The objects allocated by a sequence of `SelectParams` calls: one copy of
the developer-network set per call for the developer network. -/
theorem runSelectParams_allocated (P : Primitives) (GetDevNetName : List UInt8)
    (SelectBaseParams : String → Except Abort Unit) (calls : List String) :
    ∀ s : Registry,
      (∀ fresh, CDevNetParams P GetDevNetName = Except.ok fresh →
        (runSelectParams P GetDevNetName SelectBaseParams calls s).allocated =
          s.allocated ++ List.replicate (calls.count CBaseChainParams.DEVNET) fresh) ∧
      ∀ e, CDevNetParams P GetDevNetName = Except.error e →
        (runSelectParams P GetDevNetName SelectBaseParams calls s).allocated = s.allocated := by
  induction calls with
  | nil => intro s; simp [runSelectParams]
  | cons network rest ih =>
    intro s
    unfold runSelectParams
    obtain ⟨hne, heq⟩ := SelectParams_allocated P GetDevNetName SelectBaseParams network s
    obtain ⟨ih1, ih2⟩ := ih (SelectParams P GetDevNetName SelectBaseParams network s).2
    by_cases hdev : network = CBaseChainParams.DEVNET
    · obtain ⟨h1, h2⟩ := heq hdev
      constructor
      · intro fresh hf
        rw [ih1 fresh hf, h1 fresh hf, hdev, List.count_cons_self, List.replicate_succ,
          List.append_assoc]
        rfl
      · intro e he
        rw [ih2 e he, h2 e he]
    · constructor
      · intro fresh hf
        rw [ih1 fresh hf, hne hdev, List.count_cons_of_ne (Ne.symm hdev)]
      · intro e he
        rw [ih2 e he, hne hdev]

/-- C19, as amended: a sequence of `SelectParams` calls made after static
initialisation constructs one developer-network set per call with the
identifier "dev" when the constructor succeeds, and never more sets than such
calls; so at most four parameter-set instances exist when "dev" is selected
at most once. -/
theorem SelectParams_constructs_per_call (P : Primitives) (GetDevNetName : List UInt8)
    (SelectBaseParams : String → Except Abort Unit) (calls : List String) (s0 : Registry)
    (h0 : staticInit P = Except.ok s0) :
    (∀ fresh, CDevNetParams P GetDevNetName = Except.ok fresh →
      (runSelectParams P GetDevNetName SelectBaseParams calls s0).allocated =
        List.replicate (calls.count CBaseChainParams.DEVNET) fresh) ∧
    (runSelectParams P GetDevNetName SelectBaseParams calls s0).allocated.length ≤
      calls.count CBaseChainParams.DEVNET ∧
    (calls.count CBaseChainParams.DEVNET ≤ 1 →
      3 + (runSelectParams P GetDevNetName SelectBaseParams calls s0).allocated.length ≤ 4) := by
  obtain ⟨_, _, _, hnil⟩ := staticInit_Built P GetDevNetName s0 h0
  obtain ⟨h1, h2⟩ := runSelectParams_allocated P GetDevNetName SelectBaseParams calls s0
  rw [hnil] at h1 h2
  have hlen : (runSelectParams P GetDevNetName SelectBaseParams calls s0).allocated.length ≤
      calls.count CBaseChainParams.DEVNET := by
    cases hc : CDevNetParams P GetDevNetName with
    | error e => rw [h2 e hc]; simp
    | ok fresh => rw [h1 fresh hc]; simp
  refine ⟨fun fresh hf => by rw [h1 fresh hf]; rfl, hlen, fun h => by omega⟩

/-- C19, witness: the calls main, dev select the developer network once and
construct one developer-network set. -/
theorem SelectParams_constructs_per_call_witness :
    staticInit samplePrimitives = Except.ok sampleRegistry ∧
    [CBaseChainParams.MAIN, CBaseChainParams.DEVNET].count CBaseChainParams.DEVNET = 1 ∧
    (runSelectParams samplePrimitives sampleName sampleSelectBaseParams
      [CBaseChainParams.MAIN, CBaseChainParams.DEVNET] sampleRegistry).allocated.length = 1 ∧
    3 + (runSelectParams samplePrimitives sampleName sampleSelectBaseParams
      [CBaseChainParams.MAIN, CBaseChainParams.DEVNET] sampleRegistry).allocated.length ≤ 4 :=
  ⟨rfl, by decide, rfl,
    (SelectParams_constructs_per_call samplePrimitives sampleName sampleSelectBaseParams
      [CBaseChainParams.MAIN, CBaseChainParams.DEVNET] sampleRegistry rfl).2.2 (by decide)⟩

/-- C19, counterexample to the claim as stated: two calls `SelectParams("dev")`
construct two developer-network sets, which makes five instances. -/
theorem SelectParams_constructs_devnet_twice :
    staticInit samplePrimitives = Except.ok sampleRegistry ∧
    sampleRegistry.allocated.length = 0 ∧
    (runSelectParams samplePrimitives sampleName sampleSelectBaseParams
      [CBaseChainParams.DEVNET, CBaseChainParams.DEVNET] sampleRegistry).allocated.length = 2 ∧
    (runSelectParams samplePrimitives sampleName sampleSelectBaseParams
      [CBaseChainParams.DEVNET, CBaseChainParams.DEVNET] sampleRegistry).devNetParams = some 1 ∧
    3 + (runSelectParams samplePrimitives sampleName sampleSelectBaseParams
      [CBaseChainParams.DEVNET, CBaseChainParams.DEVNET] sampleRegistry).allocated.length = 5 :=
  ⟨rfl, rfl, rfl, rfl, rfl⟩

/-- C20: when `Params(id)` succeeds, a second call right after it returns the
same instance; both calls leave the registry, and with it every field of every
parameter set, unchanged. -/
theorem Params1_repeatable (chain : String) (s s1 : Registry) (result : ParamsRef)
    (h : Params1 chain s = (Except.ok result, s1)) :
    s1 = s ∧ Params1 chain s1 = (Except.ok result, s1) ∧
    (Params1 chain s1).2 = s ∧ ∀ r, s1.deref r = s.deref r := by
  have hs : s1 = s := by
    have := Params1_state chain s
    rw [h] at this
    exact this
  subst hs
  exact ⟨rfl, h, by rw [h], fun _ => rfl⟩

/-- C20, witness: `Params("regtest")` succeeds right after static
initialisation. -/
theorem Params1_repeatable_witness :
    ∃ s1,
      Params1 CBaseChainParams.REGTEST sampleRegistry =
        (Except.ok ParamsRef.regTestParams, s1) ∧
      s1 = sampleRegistry ∧
      Params1 CBaseChainParams.REGTEST s1 = (Except.ok ParamsRef.regTestParams, s1) ∧
      (Params1 CBaseChainParams.REGTEST s1).2 = sampleRegistry ∧
      ∀ r, s1.deref r = sampleRegistry.deref r :=
  ⟨_, rfl, Params1_repeatable CBaseChainParams.REGTEST sampleRegistry _
    ParamsRef.regTestParams rfl⟩

/-! ## Numeric fields of the parameter sets -/

/-- The consensus fields of a constructed main parameter set: those that the
constructor assigns before it creates the genesis block stay as assigned. -/
theorem CMainParams_scalars (P : Primitives) (p : CChainParams)
    (h : CMainParams P = Except.ok p) :
    p.strNetworkID = "main" ∧ p.pchMessageStart = [0x53, 0x76, 0x33, 0x00] ∧
    p.nDefaultPort = 19518 ∧
    p.consensus =
      { CMainParams_consensus with
        hashGenesisBlock := p.consensus.hashGenesisBlock
        llmqs := p.consensus.llmqs
        llmqChainLocks := p.consensus.llmqChainLocks
        llmqForInstantSend := p.consensus.llmqForInstantSend } := by
  unfold CMainParams at h
  simp only [] at h
  split_ifs at h
  cases h
  exact ⟨rfl, rfl, rfl, rfl⟩

/-- The consensus fields of a constructed testnet parameter set. -/
theorem CTestNetParams_scalars (P : Primitives) (p : CChainParams)
    (h : CTestNetParams P = Except.ok p) :
    p.strNetworkID = "test" ∧ p.pchMessageStart = [0x53, 0x76, 0x33, 0x01] ∧
    p.nDefaultPort = 29518 ∧
    p.consensus =
      { CTestNetParams_consensus with
        hashGenesisBlock := p.consensus.hashGenesisBlock
        llmqs := p.consensus.llmqs
        llmqChainLocks := p.consensus.llmqChainLocks
        llmqForInstantSend := p.consensus.llmqForInstantSend } := by
  unfold CTestNetParams at h
  cases h
  exact ⟨rfl, rfl, rfl, rfl⟩

/-- The consensus fields of a constructed devnet parameter set. -/
theorem CDevNetParams_scalars (P : Primitives) (GetDevNetName : List UInt8) (p : CChainParams)
    (h : CDevNetParams P GetDevNetName = Except.ok p) :
    p.strNetworkID = "dev" ∧ p.pchMessageStart = [0x53, 0x76, 0x33, 0x02] ∧
    p.nDefaultPort = 39518 ∧
    p.consensus =
      { CDevNetParams_consensus with
        hashGenesisBlock := p.consensus.hashGenesisBlock
        hashDevnetGenesisBlock := p.consensus.hashDevnetGenesisBlock
        llmqs := p.consensus.llmqs
        llmqChainLocks := p.consensus.llmqChainLocks
        llmqForInstantSend := p.consensus.llmqForInstantSend } := by
  unfold CDevNetParams at h
  simp only [] at h
  split_ifs at h
  split at h
  · cases h
  · cases h
    exact ⟨rfl, rfl, rfl, rfl⟩

/-- The consensus fields of a constructed regtest parameter set. -/
theorem CRegTestParams_scalars (P : Primitives) (p : CChainParams)
    (h : CRegTestParams P = Except.ok p) :
    p.strNetworkID = "regtest" ∧ p.pchMessageStart = [0x53, 0x76, 0x33, 0x03] ∧
    p.nDefaultPort = 49518 ∧
    p.consensus =
      { CRegTestParams_consensus with
        hashGenesisBlock := p.consensus.hashGenesisBlock
        llmqs := p.consensus.llmqs
        llmqChainLocks := p.consensus.llmqChainLocks
        llmqForInstantSend := p.consensus.llmqForInstantSend } := by
  unfold CRegTestParams at h
  simp only [] at h
  split_ifs at h
  cases h
  exact ⟨rfl, rfl, rfl, rfl⟩

/-! ## Mutators -/

/-- The result of `Params()` depends on the registry through the pointer
`pCurrentParams` only. -/
theorem Params0_result (s t : Registry) (h : s.pCurrentParams = t.pCurrentParams) :
    (Params0 s).1 = (Params0 t).1 := by
  unfold Params0
  rw [h]
  cases t.pCurrentParams <;> rfl

/-- C21: each regression-test mutator leaves every field of the regtest set
other than its targets unchanged. After `UpdateRegtestBIP9Parameters(d, ...)`
the regtest set is the old one except for its deployment table, the table is
the old one at every slot other than `d`, and slot `d` keeps its `bit`. After
`UpdateRegtestDIP3Parameters` the regtest set is the old one except for
`DIP0003Height` and `DIP0003EnforcementHeight`; after
`UpdateRegtestBudgetParameters` it is the old one except for
`nMasternodePaymentsStartBlock`, `nBudgetPaymentsStartBlock` and
`nSuperblockStartBlock`. In particular the quorum table, the magic bytes, the
port and the genesis block are the same before and after each of the three. -/
theorem regtest_mutators_frame (d : DeploymentPos)
    (nStartTime nTimeout nWindowSize nThreshold : Int)
    (nActivationHeight nEnforcementHeight : Int)
    (nMasternodePaymentsStartBlock nBudgetPaymentsStartBlock nSuperblockStartBlock : Int)
    (s : Registry) :
    ((UpdateRegtestBIP9Parameters d nStartTime nTimeout nWindowSize nThreshold
        s).2.regTestParams =
      { s.regTestParams with
        consensus :=
          { s.regTestParams.consensus with
            vDeployments :=
              (UpdateRegtestBIP9Parameters d nStartTime nTimeout nWindowSize nThreshold
                s).2.regTestParams.consensus.vDeployments } } ∧
      (∀ other, other ≠ d →
        (UpdateRegtestBIP9Parameters d nStartTime nTimeout nWindowSize nThreshold
            s).2.regTestParams.consensus.vDeployments other =
          s.regTestParams.consensus.vDeployments other) ∧
      ((UpdateRegtestBIP9Parameters d nStartTime nTimeout nWindowSize nThreshold
          s).2.regTestParams.consensus.vDeployments d).bit =
        (s.regTestParams.consensus.vDeployments d).bit) ∧
    (UpdateRegtestDIP3Parameters nActivationHeight nEnforcementHeight s).2.regTestParams =
      { s.regTestParams with
        consensus :=
          { s.regTestParams.consensus with
            DIP0003Height :=
              (UpdateRegtestDIP3Parameters nActivationHeight nEnforcementHeight
                s).2.regTestParams.consensus.DIP0003Height
            DIP0003EnforcementHeight :=
              (UpdateRegtestDIP3Parameters nActivationHeight nEnforcementHeight
                s).2.regTestParams.consensus.DIP0003EnforcementHeight } } ∧
    (UpdateRegtestBudgetParameters nMasternodePaymentsStartBlock nBudgetPaymentsStartBlock
        nSuperblockStartBlock s).2.regTestParams =
      { s.regTestParams with
        consensus :=
          { s.regTestParams.consensus with
            nMasternodePaymentsStartBlock :=
              (UpdateRegtestBudgetParameters nMasternodePaymentsStartBlock
                nBudgetPaymentsStartBlock nSuperblockStartBlock
                s).2.regTestParams.consensus.nMasternodePaymentsStartBlock
            nBudgetPaymentsStartBlock :=
              (UpdateRegtestBudgetParameters nMasternodePaymentsStartBlock
                nBudgetPaymentsStartBlock nSuperblockStartBlock
                s).2.regTestParams.consensus.nBudgetPaymentsStartBlock
            nSuperblockStartBlock :=
              (UpdateRegtestBudgetParameters nMasternodePaymentsStartBlock
                nBudgetPaymentsStartBlock nSuperblockStartBlock
                s).2.regTestParams.consensus.nSuperblockStartBlock } } ∧
    ∀ after,
      after = (UpdateRegtestBIP9Parameters d nStartTime nTimeout nWindowSize nThreshold
          s).2.regTestParams ∨
        after = (UpdateRegtestDIP3Parameters nActivationHeight nEnforcementHeight
          s).2.regTestParams ∨
        after = (UpdateRegtestBudgetParameters nMasternodePaymentsStartBlock
          nBudgetPaymentsStartBlock nSuperblockStartBlock s).2.regTestParams →
      after.consensus.llmqs = s.regTestParams.consensus.llmqs ∧
      after.pchMessageStart = s.regTestParams.pchMessageStart ∧
      after.nDefaultPort = s.regTestParams.nDefaultPort ∧
      after.genesis = s.regTestParams.genesis := by
  refine ⟨⟨rfl, ?_, ?_⟩, rfl, rfl, ?_⟩
  · intro other h
    simp only [UpdateRegtestBIP9Parameters, CRegTestParams.UpdateBIP9Parameters]
    split_ifs <;> simp [Function.update, h]
  · simp only [UpdateRegtestBIP9Parameters, CRegTestParams.UpdateBIP9Parameters]
    split_ifs <;> simp [Function.update]
  · rintro after (rfl | rfl | rfl) <;> exact ⟨rfl, rfl, rfl, rfl⟩

/-- C22: no mutator entry point changes the main parameter set, the testnet
parameter set or the active-network selection, whatever the arguments and the
state of the registry: `mainParams`, `testNetParams` and the pointer
`pCurrentParams`, hence the instance that `Params()` returns, are the same
before and after `UpdateRegtestBIP9Parameters`, `UpdateRegtestDIP3Parameters`,
`UpdateRegtestBudgetParameters` and `UpdateDevnetSubsidyAndDiffParams`. -/
theorem mutators_keep_main_testnet_selection (d : DeploymentPos)
    (nStartTime nTimeout nWindowSize nThreshold a b c : Int) (s : Registry) :
    ((UpdateRegtestBIP9Parameters d nStartTime nTimeout nWindowSize nThreshold s).2.mainParams =
        s.mainParams ∧
      (UpdateRegtestBIP9Parameters d nStartTime nTimeout nWindowSize nThreshold
        s).2.testNetParams = s.testNetParams ∧
      (UpdateRegtestBIP9Parameters d nStartTime nTimeout nWindowSize nThreshold
        s).2.pCurrentParams = s.pCurrentParams ∧
      (Params0 (UpdateRegtestBIP9Parameters d nStartTime nTimeout nWindowSize nThreshold
        s).2).1 = (Params0 s).1) ∧
    ((UpdateRegtestDIP3Parameters a b s).2.mainParams = s.mainParams ∧
      (UpdateRegtestDIP3Parameters a b s).2.testNetParams = s.testNetParams ∧
      (UpdateRegtestDIP3Parameters a b s).2.pCurrentParams = s.pCurrentParams ∧
      (Params0 (UpdateRegtestDIP3Parameters a b s).2).1 = (Params0 s).1) ∧
    ((UpdateRegtestBudgetParameters a b c s).2.mainParams = s.mainParams ∧
      (UpdateRegtestBudgetParameters a b c s).2.testNetParams = s.testNetParams ∧
      (UpdateRegtestBudgetParameters a b c s).2.pCurrentParams = s.pCurrentParams ∧
      (Params0 (UpdateRegtestBudgetParameters a b c s).2).1 = (Params0 s).1) ∧
    ((UpdateDevnetSubsidyAndDiffParams a b c s).2.mainParams = s.mainParams ∧
      (UpdateDevnetSubsidyAndDiffParams a b c s).2.testNetParams = s.testNetParams ∧
      (UpdateDevnetSubsidyAndDiffParams a b c s).2.pCurrentParams = s.pCurrentParams ∧
      (Params0 (UpdateDevnetSubsidyAndDiffParams a b c s).2).1 = (Params0 s).1) := by
  refine ⟨⟨rfl, rfl, rfl, Params0_result _ _ rfl⟩, ⟨rfl, rfl, rfl, Params0_result _ _ rfl⟩,
    ⟨rfl, rfl, rfl, Params0_result _ _ rfl⟩, ?_⟩
  have h : (UpdateDevnetSubsidyAndDiffParams a b c s).2.mainParams = s.mainParams ∧
      (UpdateDevnetSubsidyAndDiffParams a b c s).2.testNetParams = s.testNetParams ∧
      (UpdateDevnetSubsidyAndDiffParams a b c s).2.pCurrentParams = s.pCurrentParams := by
    unfold UpdateDevnetSubsidyAndDiffParams
    cases s.devNetParams <;> exact ⟨rfl, rfl, rfl⟩
  exact ⟨h.1, h.2.1, h.2.2, Params0_result _ _ h.2.2⟩

/-- C23: `UpdateDevnetSubsidyAndDiffParams(a, b, c)` fails on
`assert(devNetParams)` and leaves the registry as it was when no
developer-network set has been constructed (the pointer is null). When the
pointer is set, the call succeeds; the developer-network set then has
`nMinimumDifficultyBlocks = a`, `nHighSubsidyBlocks = b` and
`nHighSubsidyFactor = c` and is the old set in every other field, and nothing
else in the registry changes. -/
theorem UpdateDevnetSubsidyAndDiffParams_effect (a b c : Int) (s : Registry) :
    (s.devNetParams = none →
      UpdateDevnetSubsidyAndDiffParams a b c s =
        (Except.error (Abort.assertion "devNetParams"), s)) ∧
    ∀ i p, s.devNetParams = some i → s.deref (ParamsRef.devNet i) = some p →
      (UpdateDevnetSubsidyAndDiffParams a b c s).1 = Except.ok () ∧
      (UpdateDevnetSubsidyAndDiffParams a b c s).2.deref (ParamsRef.devNet i) =
        some
          { p with
            consensus :=
              { p.consensus with
                nMinimumDifficultyBlocks := some a
                nHighSubsidyBlocks := some b
                nHighSubsidyFactor := some c } } ∧
      (∀ other, other ≠ ParamsRef.devNet i →
        (UpdateDevnetSubsidyAndDiffParams a b c s).2.deref other = s.deref other) ∧
      (UpdateDevnetSubsidyAndDiffParams a b c s).2.devNetParams = s.devNetParams ∧
      (UpdateDevnetSubsidyAndDiffParams a b c s).2.pCurrentParams = s.pCurrentParams := by
  constructor
  · intro h
    unfold UpdateDevnetSubsidyAndDiffParams
    rw [h]
  · intro i p hi hp
    unfold UpdateDevnetSubsidyAndDiffParams
    rw [hi]
    have hp1 : s.allocated[i]? = some p := hp
    refine ⟨rfl, ?_, ?_, rfl, rfl⟩
    · show (s.allocated.modify _ i)[i]? = _
      rw [List.getElem?_modify_eq, hp1]
      rfl
    · intro other hne
      cases other with
      | mainParams => rfl
      | testNetParams => rfl
      | regTestParams => rfl
      | devNet j =>
        show (s.allocated.modify _ i)[j]? = s.allocated[j]?
        have hij : i ≠ j := fun h => hne (by rw [h])
        rw [List.getElem?_modify_ne _ _ hij]

/-- C23, witness: right after static initialisation the pointer is null and
the call fails; after `SelectParams("dev")` the set at address 0 exists and
the call sets its three fields to 1, 2 and 3. -/
theorem UpdateDevnetSubsidyAndDiffParams_effect_witness :
    sampleRegistry.devNetParams = none ∧
    UpdateDevnetSubsidyAndDiffParams 1 2 3 sampleRegistry =
      (Except.error (Abort.assertion "devNetParams"), sampleRegistry) ∧
    sampleDevRegistry.devNetParams = some 0 ∧
    (UpdateDevnetSubsidyAndDiffParams 1 2 3 sampleDevRegistry).1 = Except.ok () ∧
    ((UpdateDevnetSubsidyAndDiffParams 1 2 3 sampleDevRegistry).2.deref
        (ParamsRef.devNet 0)).map (fun p => p.consensus.nHighSubsidyFactor) =
      some (some 3) :=
  ⟨rfl, (UpdateDevnetSubsidyAndDiffParams_effect 1 2 3 sampleRegistry).1 rfl, rfl,
    ((UpdateDevnetSubsidyAndDiffParams_effect 1 2 3 sampleDevRegistry).2 0 _ rfl rfl).1,
    by
      rw [((UpdateDevnetSubsidyAndDiffParams_effect 1 2 3 sampleDevRegistry).2 0 _ rfl rfl).2.1]
      rfl⟩

/-! ## The regtest set after any sequence of calls -/

/-- The values that the regtest constructor checks or stores as constants. -/
theorem CRegTestParams_checked (P : Primitives) (p : CChainParams)
    (h : CRegTestParams P = Except.ok p) :
    p.consensus.hashGenesisBlock =
      0x0000074a2326761fd57ba13db6c67bfd20fba72b7f677676868f8685890b3257 ∧
    p.genesis.hashMerkleRoot =
      0x741e37ce97352889aba3b62d3bc284a70f5ddf32cbad3653dafbf5f115614a35 ∧
    p.checkpointData =
      [(0, 0x0000074a2326761fd57ba13db6c67bfd20fba72b7f677676868f8685890b3257)] := by
  unfold CRegTestParams at h
  simp only [] at h
  split_ifs at h with h1 h2
  cases h
  exact ⟨not_not.mp h1, not_not.mp h2, rfl⟩

/-- A call of `SelectParams` leaves the regtest set as it was. -/
theorem SelectParams_regTestParams (P : Primitives) (GetDevNetName : List UInt8)
    (SelectBaseParams : String → Except Abort Unit) (network : String) (s : Registry) :
    (SelectParams P GetDevNetName SelectBaseParams network s).2.regTestParams =
      s.regTestParams := by
  rcases SelectParams_cases P GetDevNetName SelectBaseParams network s with
    ⟨u, s1, h⟩ | ⟨e, s1, h⟩
  · obtain ⟨_, _, _, _, _, hr, _⟩ := SelectParams_ok P _ _ _ _ _ _ h
    rw [h]
    exact hr
  · obtain ⟨_, _, _, hr, _⟩ := SelectParams_error P _ _ _ _ _ _ h
    rw [h]
    exact hr

/-- No call writes the port, the genesis block, the stored genesis hash or the
checkpoints of the regtest set. -/
theorem Call_run_regTestParams (P : Primitives) (GetDevNetName : List UInt8)
    (SelectBaseParams : String → Except Abort Unit) (call : Call) (s : Registry) :
    (call.run P GetDevNetName SelectBaseParams s).2.regTestParams.nDefaultPort =
      s.regTestParams.nDefaultPort ∧
    (call.run P GetDevNetName SelectBaseParams s).2.regTestParams.genesis =
      s.regTestParams.genesis ∧
    (call.run P GetDevNetName SelectBaseParams s).2.regTestParams.consensus.hashGenesisBlock =
      s.regTestParams.consensus.hashGenesisBlock ∧
    (call.run P GetDevNetName SelectBaseParams s).2.regTestParams.checkpointData =
      s.regTestParams.checkpointData := by
  cases call with
  | SelectParams network =>
    have hrun : (Call.SelectParams network).run P GetDevNetName SelectBaseParams s =
        SelectParams P GetDevNetName SelectBaseParams network s := rfl
    rw [hrun, SelectParams_regTestParams]
    exact ⟨rfl, rfl, rfl, rfl⟩
  | UpdateRegtestBIP9Parameters d a b w t => exact ⟨rfl, rfl, rfl, rfl⟩
  | UpdateRegtestDIP3Parameters a b => exact ⟨rfl, rfl, rfl, rfl⟩
  | UpdateRegtestBudgetParameters a b c => exact ⟨rfl, rfl, rfl, rfl⟩
  | UpdateDevnetSubsidyAndDiffParams a b c =>
    have hrun : (Call.UpdateDevnetSubsidyAndDiffParams a b c).run P GetDevNetName
        SelectBaseParams s = UpdateDevnetSubsidyAndDiffParams a b c s := rfl
    have hreg : (UpdateDevnetSubsidyAndDiffParams a b c s).2.regTestParams =
        s.regTestParams := by
      unfold UpdateDevnetSubsidyAndDiffParams
      cases s.devNetParams <;> rfl
    rw [hrun, hreg]
    exact ⟨rfl, rfl, rfl, rfl⟩

/-- No sequence of calls writes the port, the genesis block, the stored genesis
hash or the checkpoints of the regtest set. -/
theorem runCalls_regTestParams (P : Primitives) (GetDevNetName : List UInt8)
    (SelectBaseParams : String → Except Abort Unit) (calls : List Call) (s : Registry) :
    (runCalls P GetDevNetName SelectBaseParams calls s).regTestParams.nDefaultPort =
      s.regTestParams.nDefaultPort ∧
    (runCalls P GetDevNetName SelectBaseParams calls s).regTestParams.genesis =
      s.regTestParams.genesis ∧
    (runCalls P GetDevNetName SelectBaseParams calls s).regTestParams.consensus.hashGenesisBlock =
      s.regTestParams.consensus.hashGenesisBlock ∧
    (runCalls P GetDevNetName SelectBaseParams calls s).regTestParams.checkpointData =
      s.regTestParams.checkpointData := by
  induction calls generalizing s with
  | nil => exact ⟨rfl, rfl, rfl, rfl⟩
  | cons call rest ih =>
    obtain ⟨h1, h2, h3, h4⟩ := ih (call.run P GetDevNetName SelectBaseParams s).2
    obtain ⟨k1, k2, k3, k4⟩ := Call_run_regTestParams P GetDevNetName SelectBaseParams call s
    exact ⟨h1.trans k1, h2.trans k2, h3.trans k3, h4.trans k4⟩

/-- C25: after static initialisation and any sequence of calls of
`SelectParams` and of the mutators, a successful `SelectParams("regtest")`
makes `Params()` return the regtest set, which has `nDefaultPort = 49518` and
a genesis block with exactly one transaction and an all-zero `hashPrevBlock`;
the hash of that block is stored in `consensus.hashGenesisBlock` and equals
the constant that the regtest constructor asserts, which is also the regtest
checkpoint at height 0. -/
theorem SelectParams_regtest_values (P : Primitives) (GetDevNetName : List UInt8)
    (SelectBaseParams : String → Except Abort Unit) (calls : List Call)
    (s0 s1 : Registry) (u : Unit) (h0 : staticInit P = Except.ok s0)
    (h : SelectParams P GetDevNetName SelectBaseParams "regtest"
      (runCalls P GetDevNetName SelectBaseParams calls s0) = (Except.ok u, s1)) :
    ∃ p,
      Params0 s1 = (Except.ok ParamsRef.regTestParams, s1) ∧
      s1.deref ParamsRef.regTestParams = some p ∧
      p.nDefaultPort = 49518 ∧
      p.genesis.vtx.length = 1 ∧
      p.genesis.hashPrevBlock = 0 ∧
      GetHash P p.genesis = p.consensus.hashGenesisBlock ∧
      p.consensus.hashGenesisBlock =
        0x0000074a2326761fd57ba13db6c67bfd20fba72b7f677676868f8685890b3257 ∧
      p.checkpointData =
        [(0, 0x0000074a2326761fd57ba13db6c67bfd20fba72b7f677676868f8685890b3257)] := by
  obtain ⟨selected, hsel, hcur, _, _, hreg, _⟩ := SelectParams_ok P _ _ _ _ _ _ h
  have hselected : selected = ParamsRef.regTestParams := by
    have h1 : Params1 "regtest" s1 = (Except.ok ParamsRef.regTestParams, s1) := by
      unfold Params1
      rw [if_neg (by decide), if_neg (by decide), if_neg (by decide), if_pos (by decide)]
    rw [h1] at hsel
    cases hsel
    rfl
  rw [hselected] at hcur
  obtain ⟨k1, k2, k3, k4⟩ := runCalls_regTestParams P GetDevNetName SelectBaseParams calls s0
  rw [← hreg] at k1 k2 k3 k4
  have hb := (staticInit_Built P GetDevNetName s0 h0).1.2.2.1
  obtain ⟨_, _, hport, _⟩ := CRegTestParams_scalars P _ hb
  obtain ⟨_, hgen, hhash⟩ := CRegTestParams_genesis P _ hb
  obtain ⟨hconst, _, hcheck⟩ := CRegTestParams_checked P _ hb
  refine ⟨s1.regTestParams, ?_, rfl, ?_, ?_, ?_, ?_, ?_, ?_⟩
  · unfold Params0
    rw [hcur]
  · rw [k1]; exact hport
  · rw [k2, hgen]; rfl
  · rw [k2, hgen]; rfl
  · rw [k2, k3]; exact hhash.symm
  · rw [k3]; exact hconst
  · rw [k4]; exact hcheck

/-- C25, witness: under the sample primitives, `SelectParams("regtest")`
succeeds after the regtest mutators and a `SelectParams("dev")` have run, and
the set it activates has the port, the genesis block and the hash of the
claim. -/
theorem SelectParams_regtest_values_witness :
    ∃ s0 s1 p,
      staticInit samplePrimitives = Except.ok s0 ∧
      SelectParams samplePrimitives sampleName sampleSelectBaseParams "regtest"
        (runCalls samplePrimitives sampleName sampleSelectBaseParams
          [Call.UpdateRegtestBIP9Parameters DeploymentPos.DEPLOYMENT_TESTDUMMY 0 999999999999
              144 108,
            Call.SelectParams "dev", Call.UpdateRegtestDIP3Parameters 500 550,
            Call.UpdateRegtestBudgetParameters 1000 1000 1000] s0) = (Except.ok (), s1) ∧
      Params0 s1 = (Except.ok ParamsRef.regTestParams, s1) ∧
      s1.deref ParamsRef.regTestParams = some p ∧
      p.nDefaultPort = 49518 ∧ p.genesis.vtx.length = 1 ∧ p.genesis.hashPrevBlock = 0 ∧
      p.consensus.hashGenesisBlock =
        0x0000074a2326761fd57ba13db6c67bfd20fba72b7f677676868f8685890b3257 := by
  obtain ⟨p, h1, h2, h3, h4, h5, _, h7, _⟩ :=
    SelectParams_regtest_values samplePrimitives sampleName sampleSelectBaseParams
      [Call.UpdateRegtestBIP9Parameters DeploymentPos.DEPLOYMENT_TESTDUMMY 0 999999999999
          144 108,
        Call.SelectParams "dev", Call.UpdateRegtestDIP3Parameters 500 550,
        Call.UpdateRegtestBudgetParameters 1000 1000 1000] _ _ () rfl rfl
  exact ⟨_, _, p, rfl, rfl, h1, h2, h3, h4, h5, h7⟩

/-! ## Height thresholds -/

/-- C26, counterexample: the testnet constructor, which cannot fail, sets
`nMaxBlockSpacingFixDeploymentHeight` to the literal `-1` (line 407), a
negative height threshold. -/
theorem testnet_fix_height_negative :
    ∃ p,
      CTestNetParams samplePrimitives = Except.ok p ∧
      p.consensus.nMaxBlockSpacingFixDeploymentHeight = -1 ∧
      ¬ 0 ≤ p.consensus.nMaxBlockSpacingFixDeploymentHeight :=
  ⟨_, rfl, rfl, by decide⟩

/-- C26, amended: in the consensus parameter set of every network the height
thresholds `BIP34Height`, `BIP65Height`, `BIP66Height`, `DIP0001Height`,
`nPowKGWHeight`, `nPowDGWHeight`, `nLastPoWBlock`, `nFirstDevFeeBlock` and
`nFirstSpowBlock` are non-negative, and so is `DIP0003Height` where the
constructor sets it. `nMaxBlockSpacingFixDeploymentHeight` is non-negative on
main, devnet and regtest and is `-1` on testnet. -/
theorem height_thresholds_nonneg (P : Primitives) (GetDevNetName : List UInt8)
    (p : CChainParams) (h : Constructed P GetDevNetName p) :
    0 ≤ p.consensus.BIP34Height ∧ 0 ≤ p.consensus.BIP65Height ∧
    0 ≤ p.consensus.BIP66Height ∧ 0 ≤ p.consensus.DIP0001Height ∧
    0 ≤ p.consensus.nPowKGWHeight ∧ 0 ≤ p.consensus.nPowDGWHeight ∧
    0 ≤ p.consensus.nLastPoWBlock ∧ 0 ≤ p.consensus.nFirstDevFeeBlock ∧
    0 ≤ p.consensus.nFirstSpowBlock ∧
    (∀ height, p.consensus.DIP0003Height = some height → 0 ≤ height) ∧
    (p.strNetworkID ≠ "test" → 0 ≤ p.consensus.nMaxBlockSpacingFixDeploymentHeight) ∧
    (p.strNetworkID = "test" → p.consensus.nMaxBlockSpacingFixDeploymentHeight = -1) := by
  rcases h with h | h | h | h
  · obtain ⟨hid, _, _, hc⟩ := CMainParams_scalars P p h
    rw [hc, hid]
    dsimp only
    refine ⟨by decide, by decide, by decide, by decide, by decide, by decide, by decide,
      by decide, by decide, ?_, fun _ => by decide, fun hn => absurd hn (by decide)⟩
    intro height hh
    have h1 : CMainParams_consensus.DIP0003Height = some 1001 := by decide
    rw [h1] at hh
    cases hh
    decide
  · obtain ⟨hid, _, _, hc⟩ := CTestNetParams_scalars P p h
    rw [hc, hid]
    dsimp only
    refine ⟨by decide, by decide, by decide, by decide, by decide, by decide, by decide,
      by decide, by decide, ?_, fun hn => absurd rfl hn, fun _ => by decide⟩
    intro height hh
    have h1 : CTestNetParams_consensus.DIP0003Height = some 1001 := by decide
    rw [h1] at hh
    cases hh
    decide
  · obtain ⟨hid, _, _, hc⟩ := CDevNetParams_scalars P GetDevNetName p h
    rw [hc, hid]
    dsimp only
    refine ⟨by decide, by decide, by decide, by decide, by decide, by decide, by decide,
      by decide, by decide, ?_, fun _ => by decide, fun hn => absurd hn (by decide)⟩
    intro height hh
    have h1 : CDevNetParams_consensus.DIP0003Height = none := rfl
    rw [h1] at hh
    cases hh
  · obtain ⟨hid, _, _, hc⟩ := CRegTestParams_scalars P p h
    rw [hc, hid]
    dsimp only
    refine ⟨by decide, by decide, by decide, by decide, by decide, by decide, by decide,
      by decide, by decide, ?_, fun _ => by decide, fun hn => absurd hn (by decide)⟩
    intro height hh
    have h1 : CRegTestParams_consensus.DIP0003Height = none := rfl
    rw [h1] at hh
    cases hh

/-- C26, witness: the testnet set under the sample primitives is a constructed
set; its `BIP34Height` is 1, its `nFirstSpowBlock` is 1101 and its
`nMaxBlockSpacingFixDeploymentHeight` is `-1`. -/
theorem height_thresholds_nonneg_witness :
    ∃ p,
      Constructed samplePrimitives sampleName p ∧ p.strNetworkID = "test" ∧
      0 ≤ p.consensus.BIP34Height ∧ p.consensus.nFirstSpowBlock = 1101 ∧
      0 ≤ p.consensus.nFirstSpowBlock ∧
      p.consensus.nMaxBlockSpacingFixDeploymentHeight = -1 :=
  ⟨_, Or.inr (Or.inl rfl), rfl,
    (height_thresholds_nonneg samplePrimitives sampleName _ (Or.inr (Or.inl rfl))).1, rfl,
    (height_thresholds_nonneg samplePrimitives sampleName _
      (Or.inr (Or.inl rfl))).2.2.2.2.2.2.2.2.1,
    (height_thresholds_nonneg samplePrimitives sampleName _
      (Or.inr (Or.inl rfl))).2.2.2.2.2.2.2.2.2.2.2 rfl⟩

/-! ## The deployment mutator of regtest -/

/-- C27: for every deployment slot `d`, all arguments and every state of the
registry, `UpdateRegtestBIP9Parameters(d, start, timeout, window, threshold)`
returns, and afterwards the regtest descriptor `d` has `nStartTime = start`
and `nTimeout = timeout`; its `nWindowSize` is `window` if `window ≠ -1` and
its previous value if `window = -1`; its `nThreshold` is `threshold` if
`threshold ≠ -1` and its previous value if `threshold = -1`. -/
theorem UpdateRegtestBIP9Parameters_post (d : DeploymentPos)
    (nStartTime nTimeout nWindowSize nThreshold : Int) (s : Registry) :
    (UpdateRegtestBIP9Parameters d nStartTime nTimeout nWindowSize nThreshold s).1 =
      Except.ok () ∧
    ((UpdateRegtestBIP9Parameters d nStartTime nTimeout nWindowSize nThreshold
      s).2.regTestParams.consensus.vDeployments d).nStartTime = nStartTime ∧
    ((UpdateRegtestBIP9Parameters d nStartTime nTimeout nWindowSize nThreshold
      s).2.regTestParams.consensus.vDeployments d).nTimeout = nTimeout ∧
    ((UpdateRegtestBIP9Parameters d nStartTime nTimeout nWindowSize nThreshold
      s).2.regTestParams.consensus.vDeployments d).nWindowSize =
      (if nWindowSize = -1 then (s.regTestParams.consensus.vDeployments d).nWindowSize
        else some nWindowSize) ∧
    ((UpdateRegtestBIP9Parameters d nStartTime nTimeout nWindowSize nThreshold
      s).2.regTestParams.consensus.vDeployments d).nThreshold =
      (if nThreshold = -1 then (s.regTestParams.consensus.vDeployments d).nThreshold
        else some nThreshold) := by
  simp only [UpdateRegtestBIP9Parameters, CRegTestParams.UpdateBIP9Parameters]
  by_cases hw : nWindowSize = -1 <;> by_cases ht : nThreshold = -1 <;>
    simp [Function.update, hw, ht]

/-- C29: in every successfully constructed regtest parameter set,
`llmqChainLocks` and `llmqForInstantSend` both name `LLMQ_5_60`, the only key
of the `llmqs` table is `LLMQ_50_60`, and `LLMQ_5_60` is not a key of it. -/
theorem regtest_quorum_type_not_in_table (P : Primitives) (p : CChainParams)
    (h : CRegTestParams P = Except.ok p) :
    p.consensus.llmqChainLocks = some LLMQType.LLMQ_5_60 ∧
    p.consensus.llmqForInstantSend = some LLMQType.LLMQ_5_60 ∧
    p.consensus.llmqs.map Prod.fst = [LLMQType.LLMQ_50_60] ∧
    LLMQType.LLMQ_5_60 ∉ p.consensus.llmqs.map Prod.fst := by
  obtain ⟨_, h2, h3, h4, _⟩ := CRegTestParams_tables P p h
  rw [h2, h3, h4]
  exact ⟨rfl, rfl, rfl, by decide⟩

/-- C29, witness: the regtest constructor succeeds under the sample
primitives, and the table of the set it builds holds the one entry that the
constructor assigns twice. -/
theorem regtest_quorum_type_not_in_table_witness :
    ∃ p,
      CRegTestParams samplePrimitives = Except.ok p ∧
      p.consensus.llmqs = [(LLMQType.LLMQ_50_60, llmq50_60)] ∧
      p.consensus.llmqChainLocks = some LLMQType.LLMQ_5_60 ∧
      LLMQType.LLMQ_5_60 ∉ p.consensus.llmqs.map Prod.fst :=
  ⟨_, rfl, rfl, (regtest_quorum_type_not_in_table samplePrimitives _ rfl).1,
    (regtest_quorum_type_not_in_table samplePrimitives _ rfl).2.2.2⟩

/-- C30, the code at the failing input: the testnet and the devnet
constructors succeed under the sample primitives and store
`nMinerConfirmationWindow = 2016`, while `nPowTargetTimespan` is 86400 and
`nPowTargetSpacing` is 80 on both, whose quotient is 1080. The main
constructor stores the quotient, 1080. -/
theorem nMinerConfirmationWindow_differs_from_quotient :
    ∃ test dev main,
      CTestNetParams samplePrimitives = Except.ok test ∧
      CDevNetParams samplePrimitives sampleName = Except.ok dev ∧
      CMainParams samplePrimitives = Except.ok main ∧
      test.consensus.nMinerConfirmationWindow = 2016 ∧
      test.consensus.nPowTargetTimespan = 86400 ∧ test.consensus.nPowTargetSpacing = 80 ∧
      Int.tdiv test.consensus.nPowTargetTimespan test.consensus.nPowTargetSpacing = 1080 ∧
      dev.consensus.nMinerConfirmationWindow = 2016 ∧
      dev.consensus.nPowTargetTimespan = 86400 ∧ dev.consensus.nPowTargetSpacing = 80 ∧
      Int.tdiv dev.consensus.nPowTargetTimespan dev.consensus.nPowTargetSpacing = 1080 ∧
      main.consensus.nMinerConfirmationWindow = 1080 ∧
      Int.tdiv main.consensus.nPowTargetTimespan main.consensus.nPowTargetSpacing = 1080 :=
  ⟨_, _, _, rfl, rfl, rfl, rfl, by decide, by decide, by decide, rfl, by decide, by decide,
    by decide, rfl, by decide⟩

/-! ## Masternode payment heights and quorum durations -/

/-- C31, the code at the failing input: the testnet constructor stores
`nMasternodePaymentsStartBlock = 15` and assigns `NEVER32` to
`nMasternodePaymentsIncreaseBlock`, which at the width of `int` is `-1`, so
the start block is not less than the increase block. The devnet constructor
stores 4010 and 4030, and 4010 is less than 4030. -/
theorem testnet_payments_start_not_below_increase :
    ∃ test dev,
      CTestNetParams samplePrimitives = Except.ok test ∧
      CDevNetParams samplePrimitives sampleName = Except.ok dev ∧
      test.consensus.nMasternodePaymentsStartBlock = 15 ∧
      test.consensus.nMasternodePaymentsIncreaseBlock = some (int32 NEVER32) ∧
      int32 NEVER32 = -1 ∧
      ¬ test.consensus.nMasternodePaymentsStartBlock < int32 NEVER32 ∧
      dev.consensus.nMasternodePaymentsStartBlock = 4010 ∧
      dev.consensus.nMasternodePaymentsIncreaseBlock = some 4030 ∧
      dev.consensus.nMasternodePaymentsStartBlock < 4030 :=
  ⟨_, _, rfl, rfl, rfl, rfl, by decide, by decide, rfl, rfl, by decide⟩

/-- C32, the code at the failing input: at the target block spacing of 80
seconds that every network sets, `signingActiveQuorumCount * dkgInterval`
blocks of `llmq400_85` last 345600 seconds, four days, not the two days
(172800 seconds) of its comment. For `llmq50_60` they last 86400 seconds, one
day, and for `llmq400_60` 172800 seconds, two days, as their comments say. -/
theorem llmq400_85_active_quorums_span_four_days :
    CMainParams_consensus.nPowTargetSpacing = 80 ∧
    CTestNetParams_consensus.nPowTargetSpacing = 80 ∧
    CDevNetParams_consensus.nPowTargetSpacing = 80 ∧
    CRegTestParams_consensus.nPowTargetSpacing = 80 ∧
    llmq400_85.signingActiveQuorumCount = 4 ∧ llmq400_85.dkgInterval = 1080 ∧
    llmq400_85.signingActiveQuorumCount * llmq400_85.dkgInterval *
      CMainParams_consensus.nPowTargetSpacing = 345600 ∧
    llmq400_85.signingActiveQuorumCount * llmq400_85.dkgInterval *
      CMainParams_consensus.nPowTargetSpacing ≠ 172800 ∧
    llmq50_60.signingActiveQuorumCount * llmq50_60.dkgInterval *
      CMainParams_consensus.nPowTargetSpacing = 86400 ∧
    llmq400_60.signingActiveQuorumCount * llmq400_60.dkgInterval *
      CMainParams_consensus.nPowTargetSpacing = 172800 := by
  refine ⟨by decide, by decide, by decide, by decide, by decide, by decide, by decide,
    by decide, by decide, by decide⟩

/-! ## Checkpoints -/

/-- The values that the main constructor checks or stores as constants. -/
theorem CMainParams_checked (P : Primitives) (p : CChainParams)
    (h : CMainParams P = Except.ok p) :
    p.consensus.hashGenesisBlock =
      0x00000f49021b9fc63a4d335f32ed8a32743737d065215fb81d467e9849d4bb86 ∧
    p.genesis.hashMerkleRoot =
      0x741e37ce97352889aba3b62d3bc284a70f5ddf32cbad3653dafbf5f115614a35 ∧
    p.checkpointData =
      [(0, 0x00000f49021b9fc63a4d335f32ed8a32743737d065215fb81d467e9849d4bb86)] := by
  unfold CMainParams at h
  simp only [] at h
  split_ifs at h with h1 h2
  cases h
  exact ⟨not_not.mp h1, not_not.mp h2, rfl⟩

/-- The values that the devnet constructor checks or stores as constants. -/
theorem CDevNetParams_checked (P : Primitives) (GetDevNetName : List UInt8) (p : CChainParams)
    (h : CDevNetParams P GetDevNetName = Except.ok p) :
    p.consensus.hashGenesisBlock =
      0x0000074a2326761fd57ba13db6c67bfd20fba72b7f677676868f8685890b3257 ∧
    p.genesis.hashMerkleRoot =
      0x741e37ce97352889aba3b62d3bc284a70f5ddf32cbad3653dafbf5f115614a35 ∧
    p.checkpointData =
      [(0, 0x0000074a2326761fd57ba13db6c67bfd20fba72b7f677676868f8685890b3257)] := by
  unfold CDevNetParams at h
  simp only [] at h
  split_ifs at h with h1 h2
  split at h
  · cases h
  · cases h
    exact ⟨not_not.mp h1, not_not.mp h2, rfl⟩

/-- The checkpoint list of a constructed main, devnet or regtest set is the one
entry that maps height 0 to the stored genesis hash. -/
theorem checkpoints_main_dev_regtest (P : Primitives) (GetDevNetName : List UInt8)
    (p : CChainParams)
    (h : CMainParams P = Except.ok p ∨ CDevNetParams P GetDevNetName = Except.ok p ∨
      CRegTestParams P = Except.ok p) :
    p.checkpointData = [(0, p.consensus.hashGenesisBlock)] := by
  rcases h with h | h | h
  · obtain ⟨h1, _, h3⟩ := CMainParams_checked P p h
    rw [h3, h1]
  · obtain ⟨h1, _, h3⟩ := CDevNetParams_checked P GetDevNetName p h
    rw [h3, h1]
  · obtain ⟨h1, _, h3⟩ := CRegTestParams_checked P p h
    rw [h3, h1]

/-- The checkpoint list of every constructed set has strictly increasing heights. -/
theorem checkpoints_strictly_increasing (P : Primitives) (GetDevNetName : List UInt8)
    (p : CChainParams) (h : Constructed P GetDevNetName p) :
    (p.checkpointData.map Prod.fst).Pairwise (· < ·) := by
  rcases h with h | h | h | h
  · rw [(CMainParams_checked P p h).2.2]
    simp
  · unfold CTestNetParams at h
    cases h
    simp
  · rw [(CDevNetParams_checked P GetDevNetName p h).2.2]
    simp
  · rw [(CRegTestParams_checked P p h).2.2]
    simp

/-- C33, the code at the failing input: under primitives that give the testnet
genesis block the hash 1, the testnet constructor succeeds and stores that
hash in `consensus.hashGenesisBlock`, while its checkpoint list is the single
entry that maps height 0 to the null hash of `uint256S("0x")`; the entry at
height 0 is not the genesis hash. -/
theorem testnet_checkpoint_is_not_genesis_hash :
    ∃ p,
      CTestNetParams lastNoncePrimitives = Except.ok p ∧
      p.consensus.hashGenesisBlock = 1 ∧
      p.checkpointData = [(0, 0)] ∧
      (0, p.consensus.hashGenesisBlock) ∉ p.checkpointData :=
  ⟨_, rfl, rfl, rfl, by decide⟩

/-! ## Independence of the transaction-tree digest from the header -/

/-- C34: for a fixed coinbase message, output script and reward,
`CreateGenesisBlock` returns the same `hashMerkleRoot` for all values of
`nTime`, `nNonce`, `nBits` and `nVersion`. In particular the genesis blocks of
main, testnet, devnet and regtest, which differ in these header fields only,
have the same `hashMerkleRoot`. -/
theorem CreateGenesisBlock_hashMerkleRoot_header_independent (P : Primitives)
    (pszTimestamp : List UInt8) (genesisOutputScript : CScript) (genesisReward : Int)
    (nTime1 nNonce1 nBits1 : Nat) (nVersion1 : Int)
    (nTime2 nNonce2 nBits2 : Nat) (nVersion2 : Int) :
    (CreateGenesisBlock P pszTimestamp genesisOutputScript nTime1 nNonce1 nBits1 nVersion1
        genesisReward).hashMerkleRoot =
      (CreateGenesisBlock P pszTimestamp genesisOutputScript nTime2 nNonce2 nBits2 nVersion2
        genesisReward).hashMerkleRoot ∧
    (CreateGenesisBlock5 P 1591228800 2463995 0x1e0ffff0 1 (0 * COIN)).hashMerkleRoot =
      (CreateGenesisBlock5 P 1591228802 1078333 0x207fffff 1 (0 * COIN)).hashMerkleRoot ∧
    (CreateGenesisBlock5 P 1591228801 1108918 0x1f00ffff 1 (0 * COIN)).hashMerkleRoot =
      (CreateGenesisBlock5 P 1591228802 1078333 0x207fffff 1 (0 * COIN)).hashMerkleRoot :=
  ⟨rfl, rfl, rfl⟩

/-! ## Wire identity of the networks -/

/-- C35: the `pchMessageStart` values of the four networks are four-byte
sequences that are pairwise distinct, and their `nDefaultPort` values are
19518, 29518, 39518 and 49518, pairwise distinct. -/
theorem networks_distinct_on_wire (P : Primitives) (GetDevNetName : List UInt8)
    (main test dev regtest : CChainParams)
    (hmain : CMainParams P = Except.ok main) (htest : CTestNetParams P = Except.ok test)
    (hdev : CDevNetParams P GetDevNetName = Except.ok dev)
    (hregtest : CRegTestParams P = Except.ok regtest) :
    [main.nDefaultPort, test.nDefaultPort, dev.nDefaultPort, regtest.nDefaultPort] =
      [19518, 29518, 39518, 49518] ∧
    [main.nDefaultPort, test.nDefaultPort, dev.nDefaultPort, regtest.nDefaultPort].Pairwise
      (· ≠ ·) ∧
    [main.pchMessageStart, test.pchMessageStart, dev.pchMessageStart,
      regtest.pchMessageStart].Pairwise (· ≠ ·) ∧
    (∀ start ∈ [main.pchMessageStart, test.pchMessageStart, dev.pchMessageStart,
      regtest.pchMessageStart], start.length = 4 ∧ ∀ byte ∈ start, byte < 256) := by
  obtain ⟨_, m1, m2, _⟩ := CMainParams_scalars P main hmain
  obtain ⟨_, t1, t2, _⟩ := CTestNetParams_scalars P test htest
  obtain ⟨_, d1, d2, _⟩ := CDevNetParams_scalars P GetDevNetName dev hdev
  obtain ⟨_, r1, r2, _⟩ := CRegTestParams_scalars P regtest hregtest
  rw [m1, m2, t1, t2, d1, d2, r1, r2]
  exact ⟨rfl, by decide, by decide, by decide⟩

/-- C35, witness: all four constructors succeed under the sample primitives;
the main network has magic bytes 53 76 33 00 and port 19518, the regtest
network 53 76 33 03 and port 49518. -/
theorem networks_distinct_on_wire_witness :
    ∃ main test dev regtest,
      CMainParams samplePrimitives = Except.ok main ∧
      CTestNetParams samplePrimitives = Except.ok test ∧
      CDevNetParams samplePrimitives sampleName = Except.ok dev ∧
      CRegTestParams samplePrimitives = Except.ok regtest ∧
      main.pchMessageStart = [0x53, 0x76, 0x33, 0x00] ∧
      regtest.pchMessageStart = [0x53, 0x76, 0x33, 0x03] ∧
      [main.nDefaultPort, test.nDefaultPort, dev.nDefaultPort, regtest.nDefaultPort] =
        [19518, 29518, 39518, 49518] ∧
      [main.pchMessageStart, test.pchMessageStart, dev.pchMessageStart,
        regtest.pchMessageStart].Pairwise (· ≠ ·) :=
  ⟨_, _, _, _, rfl, rfl, rfl, rfl, rfl, rfl,
    (networks_distinct_on_wire samplePrimitives sampleName _ _ _ _ rfl rfl rfl rfl).1,
    (networks_distinct_on_wire samplePrimitives sampleName _ _ _ _ rfl rfl rfl rfl).2.2.1⟩

/-! ## Quorum tables and mining windows -/

/-- C36: in every network, every entry of the `consensus.llmqs` table stores
under its key `k` a quorum parameter set whose `type` field equals `k`. -/
theorem llmqs_key_eq_type (P : Primitives) (GetDevNetName : List UInt8) (p : CChainParams)
    (h : Constructed P GetDevNetName p) (k : LLMQType) (q : LLMQParams)
    (hk : (k, q) ∈ p.consensus.llmqs) : q.type = k := by
  rcases Constructed_llmqs P GetDevNetName p h with hl | hl
  · rw [hl] at hk
    simp only [List.mem_cons, Prod.mk.injEq, List.mem_nil_iff, or_false] at hk
    rcases hk with ⟨rfl, rfl⟩ | ⟨rfl, rfl⟩ | ⟨rfl, rfl⟩ <;> rfl
  · rw [hl] at hk
    simp only [List.mem_cons, Prod.mk.injEq, List.mem_nil_iff, or_false] at hk
    obtain ⟨rfl, rfl⟩ := hk
    rfl

/-- C36, witness: the main table stores `llmq400_85`, whose type is
`LLMQ_400_85`, under the key `LLMQ_400_85`. -/
theorem llmqs_key_eq_type_witness :
    ∃ p,
      Constructed samplePrimitives sampleName p ∧
      (LLMQType.LLMQ_400_85, llmq400_85) ∈ p.consensus.llmqs ∧
      llmq400_85.type = LLMQType.LLMQ_400_85 :=
  ⟨_, Or.inl rfl, by decide,
    llmqs_key_eq_type samplePrimitives sampleName _ (Or.inl rfl) LLMQType.LLMQ_400_85
      llmq400_85 (by decide)⟩

/-- C37: every quorum parameter set defined in the file (`llmq10_60`,
`llmq50_60`, `llmq400_60`, `llmq400_85`) has
`dkgMiningWindowStart < dkgMiningWindowEnd ≤ dkgInterval`. -/
theorem dkgMiningWindow_within_interval (q : LLMQParams) (hq : q ∈ definedQuorumParams) :
    q.dkgMiningWindowStart < q.dkgMiningWindowEnd ∧ q.dkgMiningWindowEnd ≤ q.dkgInterval := by
  simp only [definedQuorumParams, List.mem_cons, List.mem_nil_iff, or_false] at hq
  rcases hq with rfl | rfl | rfl | rfl <;> decide

/-- C37, witness: `llmq10_60` is one of the defined sets; its window runs from
block 10 to block 18 of a session of 24 blocks. -/
theorem dkgMiningWindow_within_interval_witness :
    llmq10_60 ∈ definedQuorumParams ∧
    llmq10_60.dkgMiningWindowStart = 10 ∧ llmq10_60.dkgMiningWindowEnd = 18 ∧
    llmq10_60.dkgInterval = 24 ∧
    llmq10_60.dkgMiningWindowStart < llmq10_60.dkgMiningWindowEnd ∧
    llmq10_60.dkgMiningWindowEnd ≤ llmq10_60.dkgInterval :=
  ⟨by decide, rfl, rfl, rfl, dkgMiningWindow_within_interval llmq10_60 (by decide)⟩


/-! ## Runs of the nonce search -/

/-- A state has at most one successor. -/
theorem SearchStep_deterministic (P : Primitives) (GetDevNetName : List UInt8)
    (params : Consensus.Params) (prevBlock : CBlock) (reward : Int) (s a b : SearchState)
    (ha : SearchStep P GetDevNetName params prevBlock reward s a)
    (hb : SearchStep P GetDevNetName params prevBlock reward s b) : a = b := by
  cases ha with
  | name_empty hashed h =>
    cases hb with
    | name_empty _ _ => rfl
    | name_given _ h2 => rw [h] at h2; cases h2
  | name_given hashed h =>
    cases hb with
    | name_empty _ h2 => rw [h] at h2; cases h2
    | name_given _ _ => rfl
  | create_fails devNetName hashed e h =>
    cases hb with
    | create_fails _ _ e2 h2 => rw [h] at h2; cases h2; rfl
    | create_returns _ _ block2 h2 => rw [h] at h2; cases h2
  | create_returns devNetName hashed block h =>
    cases hb with
    | create_fails _ _ e2 h2 => rw [h] at h2; cases h2
    | create_returns _ _ block2 h2 => rw [h] at h2; cases h2; rfl
  | nonce_meets bnTarget nNonce block hashed hlt h =>
    cases hb with
    | nonce_meets _ _ _ _ _ _ => rfl
    | nonce_misses _ _ _ _ _ h2 => exact absurd h h2
    | nonces_exhausted _ _ _ _ hge => exact absurd hlt hge
  | nonce_misses bnTarget nNonce block hashed hlt h =>
    cases hb with
    | nonce_meets _ _ _ _ _ h2 => exact absurd h2 h
    | nonce_misses _ _ _ _ _ _ => rfl
    | nonces_exhausted _ _ _ _ hge => exact absurd hlt hge
  | nonces_exhausted bnTarget nNonce block hashed hge =>
    cases hb with
    | nonce_meets _ _ _ _ hlt _ => exact absurd hlt hge
    | nonce_misses _ _ _ _ hlt _ => exact absurd hlt hge
    | nonces_exhausted _ _ _ _ _ => rfl

/-- A run that has ended makes no further step. -/
theorem SearchStep_done (P : Primitives) (GetDevNetName : List UInt8)
    (params : Consensus.Params) (prevBlock : CBlock) (reward : Int)
    (result : Except Abort CBlock) (hashed : List HashCall) (t : SearchState) :
    ¬ SearchStep P GetDevNetName params prevBlock reward
      { point := SearchPoint.done result, hashed := hashed } t := by
  intro h
  cases h

/-- The steps of a run do not read the `Consensus::Params` argument. -/
theorem SearchStep_params (P : Primitives) (GetDevNetName : List UInt8)
    (params1 params2 : Consensus.Params) (prevBlock : CBlock) (reward : Int)
    (s t : SearchState) (h : SearchStep P GetDevNetName params1 prevBlock reward s t) :
    SearchStep P GetDevNetName params2 prevBlock reward s t := by
  cases h with
  | name_empty hashed h => exact SearchStep.name_empty hashed h
  | name_given hashed h => exact SearchStep.name_given hashed h
  | create_fails devNetName hashed e h => exact SearchStep.create_fails devNetName hashed e h
  | create_returns devNetName hashed block h =>
    exact SearchStep.create_returns devNetName hashed block h
  | nonce_meets bnTarget nNonce block hashed hlt h =>
    exact SearchStep.nonce_meets bnTarget nNonce block hashed hlt h
  | nonce_misses bnTarget nNonce block hashed hlt h =>
    exact SearchStep.nonce_misses bnTarget nNonce block hashed hlt h
  | nonces_exhausted bnTarget nNonce block hashed hge =>
    exact SearchStep.nonces_exhausted bnTarget nNonce block hashed hge

/-- Two runs from the same state that both end have the same outcome and have
made the same hash computations. -/
theorem SearchStep_end_unique (P : Primitives) (GetDevNetName : List UInt8)
    (params : Consensus.Params) (prevBlock : CBlock) (reward : Int) (s : SearchState)
    (result1 result2 : Except Abort CBlock) (hashed1 hashed2 : List HashCall)
    (h1 : Relation.ReflTransGen (SearchStep P GetDevNetName params prevBlock reward) s
      { point := SearchPoint.done result1, hashed := hashed1 })
    (h2 : Relation.ReflTransGen (SearchStep P GetDevNetName params prevBlock reward) s
      { point := SearchPoint.done result2, hashed := hashed2 }) :
    result1 = result2 ∧ hashed1 = hashed2 := by
  have key : ∀ (r1 r2 : Except Abort CBlock) (l1 l2 : List HashCall),
      Relation.ReflTransGen (SearchStep P GetDevNetName params prevBlock reward)
        { point := SearchPoint.done r1, hashed := l1 }
        { point := SearchPoint.done r2, hashed := l2 } → r1 = r2 ∧ l1 = l2 := by
    intro r1 r2 l1 l2 h
    rcases Relation.ReflTransGen.cases_head h with heq | ⟨c, hc, _⟩
    · cases heq
      exact ⟨rfl, rfl⟩
    · exact absurd hc (SearchStep_done P GetDevNetName params prevBlock reward r1 l1 c)
  rcases Relation.ReflTransGen.total_of_right_unique
      (fun a b c hab hac =>
        SearchStep_deterministic P GetDevNetName params prevBlock reward a b c hab hac)
      h1 h2 with h | h
  · exact key _ _ _ _ h
  · obtain ⟨e1, e2⟩ := key _ _ _ _ h
    exact ⟨e1.symm, e2.symm⟩

/-- From the test of the loop, a run reaches the end with the outcome that
`nonceLoop` computes, given fuel for every nonce that is left. -/
theorem nonceLoop_run (P : Primitives) (GetDevNetName : List UInt8)
    (params : Consensus.Params) (prevBlock : CBlock) (reward : Int) (bnTarget : Nat)
    (fuel nNonce : Nat) (block : CBlock) (hashed : List HashCall)
    (hfuel : UINT32_MAX ≤ nNonce + fuel) :
    ∃ hashed1,
      Relation.ReflTransGen (SearchStep P GetDevNetName params prevBlock reward)
        { point := SearchPoint.loop bnTarget nNonce block, hashed := hashed }
        { point := SearchPoint.done
            (match nonceLoop P bnTarget fuel nNonce block with
              | some found => Except.ok found
              | none => Except.error (Abort.assertion "false"))
          hashed := hashed1 } := by
  induction fuel generalizing nNonce block hashed with
  | zero =>
    refine ⟨hashed, Relation.ReflTransGen.single ?_⟩
    exact SearchStep.nonces_exhausted bnTarget nNonce block hashed (by omega)
  | succ fuel ih =>
    unfold nonceLoop
    by_cases hlt : nNonce < UINT32_MAX
    · rw [if_pos hlt]
      simp only []
      by_cases hmeet : UintToArith256 (GetHash P { block with nNonce := nNonce }) ≤ bnTarget
      · rw [if_pos hmeet]
        exact ⟨_, Relation.ReflTransGen.single
          (SearchStep.nonce_meets bnTarget nNonce block hashed hlt hmeet)⟩
      · rw [if_neg hmeet]
        obtain ⟨hashed1, hrun⟩ := ih (nNonce + 1) { block with nNonce := nNonce }
          (hashed ++
            [HashCall.GetHash ({ block with nNonce := nNonce } : CBlock).toCBlockHeader])
          (by omega)
        exact ⟨hashed1, Relation.ReflTransGen.head
          (SearchStep.nonce_misses bnTarget nNonce block hashed hlt hmeet) hrun⟩
    · rw [if_neg hlt]
      exact ⟨hashed, Relation.ReflTransGen.single
        (SearchStep.nonces_exhausted bnTarget nNonce block hashed hlt)⟩

/-- Every call of `FindDevNetGenesisBlock` has a complete run, and the run ends
with the outcome that the function computes. -/
theorem FindDevNetGenesisBlock_run (P : Primitives) (GetDevNetName : List UInt8)
    (params : Consensus.Params) (prevBlock : CBlock) (reward : Int) :
    ∃ hashed,
      SearchRun P GetDevNetName params prevBlock reward
        (FindDevNetGenesisBlock P GetDevNetName params prevBlock reward) hashed := by
  unfold SearchRun FindDevNetGenesisBlock
  simp only []
  by_cases hname : GetDevNetName.isEmpty = true
  · rw [if_pos hname]
    exact ⟨[], Relation.ReflTransGen.single (SearchStep.name_empty [] hname)⟩
  · rw [if_neg hname]
    have hgiven : GetDevNetName.isEmpty = false := by simpa using hname
    cases hcreate : CreateDevNetGenesisBlock P (GetHash P prevBlock)
        (string_of_c_str (c_str GetDevNetName)) ((prevBlock.nTime + 1) % 2 ^ 32) 0
        prevBlock.nBits reward with
    | error e =>
      exact ⟨_, Relation.ReflTransGen.head (SearchStep.name_given [] hgiven)
        (Relation.ReflTransGen.single (SearchStep.create_fails GetDevNetName [] e hcreate))⟩
    | ok block =>
      obtain ⟨hashed1, hrun⟩ := nonceLoop_run P GetDevNetName params prevBlock reward
        (P.SetCompact block.nBits) UINT32_MAX 0 block
        ([] ++ [HashCall.GetHash prevBlock.toCBlockHeader, HashCall.BlockMerkleRoot block.vtx])
        (by omega)
      refine ⟨hashed1, Relation.ReflTransGen.head (SearchStep.name_given [] hgiven)
        (Relation.ReflTransGen.head
          (SearchStep.create_returns GetDevNetName [] block hcreate) ?_)⟩
      simp only []
      cases hloop : nonceLoop P (P.SetCompact block.nBits) UINT32_MAX 0 block with
      | some found => rw [hloop] at hrun; exact hrun
      | none => rw [hloop] at hrun; exact hrun

/-- A complete run with one `Consensus::Params` argument is a complete run with
any other. -/
theorem SearchRun_params (P : Primitives) (GetDevNetName : List UInt8)
    (params1 params2 : Consensus.Params) (prevBlock : CBlock) (reward : Int)
    (result : Except Abort CBlock) (hashed : List HashCall)
    (h : SearchRun P GetDevNetName params1 prevBlock reward result hashed) :
    SearchRun P GetDevNetName params2 prevBlock reward result hashed :=
  Relation.ReflTransGen.mono
    (fun s t hst => SearchStep_params P GetDevNetName params1 params2 prevBlock reward s t hst)
    h

/-- C24: `FindDevNetGenesisBlock` is deterministic and does not depend on its
`Consensus::Params` argument. Any two complete runs for the same parent block,
network name and reward, whatever their `Consensus::Params` arguments are, end
with the same outcome, the same block with every header field including
`nNonce` and the same transaction or the same failure, after the same hash
computations in the same order; the outcome is the one that the function
computes, and every call has a complete run. -/
theorem FindDevNetGenesisBlock_runs_agree (P : Primitives) (GetDevNetName : List UInt8)
    (params1 params2 : Consensus.Params) (prevBlock : CBlock) (reward : Int)
    (result1 result2 : Except Abort CBlock) (hashed1 hashed2 : List HashCall)
    (h1 : SearchRun P GetDevNetName params1 prevBlock reward result1 hashed1)
    (h2 : SearchRun P GetDevNetName params2 prevBlock reward result2 hashed2) :
    result1 = result2 ∧ hashed1 = hashed2 ∧
    result1 = FindDevNetGenesisBlock P GetDevNetName params1 prevBlock reward ∧
    result2 = FindDevNetGenesisBlock P GetDevNetName params2 prevBlock reward ∧
    ∃ hashed,
      SearchRun P GetDevNetName params1 prevBlock reward
        (FindDevNetGenesisBlock P GetDevNetName params1 prevBlock reward) hashed := by
  have h21 := SearchRun_params P GetDevNetName params2 params1 prevBlock reward _ _ h2
  obtain ⟨e1, e2⟩ := SearchStep_end_unique P GetDevNetName params1 prevBlock reward _ _ _ _ _
    h1 h21
  obtain ⟨hashed, hrun⟩ := FindDevNetGenesisBlock_run P GetDevNetName params1 prevBlock reward
  obtain ⟨e3, _⟩ := SearchStep_end_unique P GetDevNetName params1 prevBlock reward _ _ _ _ _
    h1 hrun
  refine ⟨e1, e2, e3, ?_, hashed, hrun⟩
  rw [← e1, e3]
  rfl

/-- C24, witness: under the sample primitives the search from the sample
parent has a complete run with the empty parameter set and one with the main
network's; both return the same block, found at nonce 0, after hashing the
parent header, the transaction tree and the candidate header. -/
theorem FindDevNetGenesisBlock_runs_agree_witness :
    ∃ block hashed,
      SearchRun samplePrimitives sampleName {} sampleParent 0 (Except.ok block) hashed ∧
      SearchRun samplePrimitives sampleName CMainParams_consensus sampleParent 0
        (Except.ok block) hashed ∧
      block.nNonce = 0 ∧
      hashed =
        [HashCall.GetHash sampleParent.toCBlockHeader, HashCall.BlockMerkleRoot block.vtx,
          HashCall.GetHash block.toCBlockHeader] ∧
      FindDevNetGenesisBlock samplePrimitives sampleName {} sampleParent 0 =
        Except.ok block := by
  have hcreate : ∃ candidate,
      CreateDevNetGenesisBlock samplePrimitives (GetHash samplePrimitives sampleParent)
        (string_of_c_str (c_str sampleName)) ((sampleParent.nTime + 1) % 2 ^ 32) 0
        sampleParent.nBits 0 = Except.ok candidate := ⟨_, rfl⟩
  obtain ⟨candidate, hc⟩ := hcreate
  have run1 : ∀ params, SearchRun samplePrimitives sampleName params sampleParent 0
      (Except.ok { candidate with nNonce := 0 })
      ([] ++ [HashCall.GetHash sampleParent.toCBlockHeader,
          HashCall.BlockMerkleRoot candidate.vtx] ++
        [HashCall.GetHash ({ candidate with nNonce := 0 } : CBlock).toCBlockHeader]) := by
    intro params
    refine Relation.ReflTransGen.head (SearchStep.name_given [] (by decide))
      (Relation.ReflTransGen.head (SearchStep.create_returns sampleName [] candidate hc)
        (Relation.ReflTransGen.single
          (SearchStep.nonce_meets _ 0 candidate _ (by decide) ?_)))
    cases hc
    decide
  obtain ⟨e1, e2, e3, _, _⟩ :=
    FindDevNetGenesisBlock_runs_agree samplePrimitives sampleName {} CMainParams_consensus
      sampleParent 0 _ _ _ _ (run1 {}) (run1 CMainParams_consensus)
  exact ⟨_, _, run1 {}, run1 CMainParams_consensus, rfl, rfl, e3.symm⟩

/-! ## The empty network name -/

/-- A name that is not empty but starts with a NUL is rejected by
`CreateDevNetGenesisBlock`, not by the assertion of line 90: the run fails
after the hash of the parent block has been computed for the call of line 92. -/
theorem FindDevNetGenesisBlock_nul_name_fails_in_callee (P : Primitives)
    (params : Consensus.Params) (prevBlock : CBlock) (reward : Int) :
    SearchRun P [0] params prevBlock reward
      (Except.error (Abort.assertion "!devNetName.empty()"))
      [HashCall.GetHash prevBlock.toCBlockHeader] :=
  Relation.ReflTransGen.head (SearchStep.name_given [] rfl)
    (Relation.ReflTransGen.single (SearchStep.create_fails [0] [] _ rfl))

/-- C38: `CreateDevNetGenesisBlock` fails if and only if `devNetName` is empty,
and its only failure is the assertion `!devNetName.empty()`. With an empty
configured name `FindDevNetGenesisBlock` fails on its own assertion of the
same condition before any hashing: its outcome is that failure whatever the
hashing primitives, the parent block and the reward are, it has a complete run
that ends in that failure with no hash computed, and every complete run ends
in that failure with no hash computed. -/
theorem CreateDevNetGenesisBlock_fails_iff_empty (P : Primitives) (prevBlockHash : uint256)
    (devNetName : List UInt8) (nTime nNonce nBits : Nat) (genesisReward : Int)
    (params : Consensus.Params) (prevBlock : CBlock) (reward : Int) :
    ((∃ e, CreateDevNetGenesisBlock P prevBlockHash devNetName nTime nNonce nBits
        genesisReward = Except.error e) ↔ devNetName = []) ∧
    (∀ e, CreateDevNetGenesisBlock P prevBlockHash devNetName nTime nNonce nBits
        genesisReward = Except.error e → e = Abort.assertion "!devNetName.empty()") ∧
    FindDevNetGenesisBlock P [] params prevBlock reward =
      Except.error (Abort.assertion "!devNetName.empty()") ∧
    SearchRun P [] params prevBlock reward
      (Except.error (Abort.assertion "!devNetName.empty()")) [] ∧
    ∀ result hashed, SearchRun P [] params prevBlock reward result hashed →
      result = Except.error (Abort.assertion "!devNetName.empty()") ∧ hashed = [] := by
  have hrun : SearchRun P [] params prevBlock reward
      (Except.error (Abort.assertion "!devNetName.empty()")) [] :=
    Relation.ReflTransGen.single (SearchStep.name_empty [] rfl)
  refine ⟨?_, ?_, rfl, hrun, ?_⟩
  · constructor
    · rintro ⟨e, he⟩
      by_contra hne
      rw [CreateDevNetGenesisBlock_ok P prevBlockHash devNetName nTime nNonce nBits
        genesisReward hne] at he
      cases he
    · intro h
      rw [h]
      exact ⟨_, rfl⟩
  · intro e he
    cases devNetName with
    | nil =>
      rw [CreateDevNetGenesisBlock_error] at he
      cases he
      rfl
    | cons a t =>
      rw [CreateDevNetGenesisBlock_ok P prevBlockHash (a :: t) nTime nNonce nBits
        genesisReward (by simp)] at he
      cases he
  · intro result hashed h
    exact SearchStep_end_unique P [] params prevBlock reward _ _ _ _ _ h hrun

/-- C38, witness: under the sample primitives and from the sample parent, the
run with the empty name ends in the assertion failure with no hash computed,
while the run with the name that is a single NUL ends in the same failure
after one hash computation, that of the parent header. -/
theorem CreateDevNetGenesisBlock_fails_iff_empty_witness :
    SearchRun samplePrimitives [] {} sampleParent 0
      (Except.error (Abort.assertion "!devNetName.empty()")) [] ∧
    (∀ result hashed, SearchRun samplePrimitives [] {} sampleParent 0 result hashed →
      hashed = []) ∧
    SearchRun samplePrimitives [0] {} sampleParent 0
      (Except.error (Abort.assertion "!devNetName.empty()"))
      [HashCall.GetHash sampleParent.toCBlockHeader] :=
  ⟨(CreateDevNetGenesisBlock_fails_iff_empty samplePrimitives 0 [] 0 0 0 0 {} sampleParent
      0).2.2.2.1,
    fun result hashed h =>
      ((CreateDevNetGenesisBlock_fails_iff_empty samplePrimitives 0 [] 0 0 0 0 {} sampleParent
        0).2.2.2.2 result hashed h).2,
    FindDevNetGenesisBlock_nul_name_fails_in_callee samplePrimitives {} sampleParent 0⟩

end Sierra
